import Mathlib

/-!
# Xidi: mapper layouts, the mapper builder, force feedback and the virtual device

A shallow embedding of the controller mapping layer of Xidi
(`Include/Xidi/Internal/Mapper.h`, `Source/MapperBuilder.cpp`), of its force
feedback device (`Include/Xidi/ForceFeedbackDevice.h`) and of methods of its
virtual DirectInput device (`Source/VirtualDirectInputDevice.cpp`), together
with theorems about the behaviour of mapper construction, capabilities, the
physical-to-virtual state mapping, the force feedback device and the virtual
device.

Conventions of the embedding:

* `std::wstring_view` names are `String`; the empty view is `""`.
* `std::unique_ptr<const IElementMapper>` is `Option IElementMapper`, the null
  pointer being `none`; cloning an element mapper is the identity on values.
* `std::map` objects are finite association structures; iteration over the
  blueprints follows the order of the list of entries.
* `Message::OutputFormatted` appends to a list of messages, oldest first; the
  log output of the virtual device is not represented.
* A pointer argument of a method of the virtual device is an `Option`, `none`
  being the null pointer, that holds the object pointed to; a method returns
  its result together with the objects it may have written and the state of
  the device after the call.
* Values of type `DWORD` are natural numbers; the constants and macros of
  `dinput.h` have their values of the Windows SDK.
* A callback is a function from its argument to its return value, and an
  enumeration returns the list of the arguments with which it invokes the
  callback.
* Functions of headers that are not part of the sources at hand are either
  arguments of the methods that call them or modelled, as their comments say.
-/

set_option maxRecDepth 100000

namespace Xidi
namespace Controller

/-! ## Virtual controller types -/

/-- Enumerates the axes of a virtual controller, in enumerator order. -/
inductive EAxis where
  | X | Y | Z | RotX | RotY | RotZ | Slider | Dial
  deriving DecidableEq, Repr

/-- Numeric value of an axis enumerator. -/
def EAxis.toNat : EAxis → Nat
  | .X => 0 | .Y => 1 | .Z => 2 | .RotX => 3 | .RotY => 4 | .RotZ => 5
  | .Slider => 6 | .Dial => 7

/-- All axis enumerators in ascending order, `EAxis::Count` of them. -/
def EAxis.all : List EAxis :=
  [.X, .Y, .Z, .RotX, .RotY, .RotZ, .Slider, .Dial]

/-- Number of virtual buttons, `EButton::Count`. -/
abbrev kButtonCount : Nat := 128

/-- A virtual button, identified by its zero-based index: `B1` is index 0. -/
abbrev EButton := Fin kButtonCount

/-- Enumerates the components of the POV hat. -/
inductive EPovDirection where
  | Up | Down | Left | Right
  deriving DecidableEq, Repr

/-- Identifies one element of a virtual controller (`SElementIdentifier`): the
element type together with the axis or button it designates. -/
inductive SElementIdentifier where
  | Axis (axis : EAxis)
  | Button (button : EButton)
  | Pov
  | WholeController
  deriving DecidableEq, Repr

/-- Virtual controller state (`SState`): one value per axis, one flag per
button and one flag per POV direction. -/
structure SState where
  axis : EAxis → Int
  button : EButton → Bool
  povDirection : EPovDirection → Bool

/-- Polymorphic element mapper interface (`IElementMapper`): the three
contribution operations, each confined to the supplied controller state, and
the query for the virtual elements the mapper can affect (one element for a
simple mapper, several for a mapper that delegates to sub-mappers). -/
structure IElementMapper where
  ContributeFromAnalogValue : SState → Int → SState
  ContributeFromButtonValue : SState → Bool → SState
  ContributeFromTriggerValue : SState → Nat → SState
  GetTargetElements : List SElementIdentifier

/-! ## Mapper element maps -/

/-- Number of slots of `Mapper::UElementMap::all`, that is
`sizeof(SElementMap) / sizeof(std::unique_ptr<const IElementMapper>)`: the
twenty elements of the physical controller, `slider`, `dial`, `extra1`,
`extra2` and the 127 declared `extraButton` members. -/
abbrev kElementMapSize : Nat := 151

/-- The array view `Mapper::UElementMap::all` of an element map. -/
abbrev UElementMap := Fin kElementMapSize → Option IElementMapper

/-- The default-constructed element map: every element mapper is `nullptr`. -/
def UElementMap.empty : UElementMap := fun _ => none

/-- Enumerates the force feedback actuators of a physical controller
(`ForceFeedback::EActuator`), in the order of `SForceFeedbackActuatorMap`. -/
inductive EActuator where
  | LeftMotor | RightMotor | LeftImpulseTrigger | RightImpulseTrigger
  deriving DecidableEq, Repr

/-- Description of one force feedback actuator (`ForceFeedback::SActuatorElement`)
in its magnitude projection mode: whether the actuator is present and the two
virtual axes whose force components it projects. -/
structure SActuatorElement where
  isPresent : Bool
  axisFirst : EAxis
  axisSecond : EAxis
  deriving DecidableEq, Repr

/-- Physical force feedback actuator mappers, one per force feedback actuator
(`Mapper::SForceFeedbackActuatorMap`). -/
abbrev SForceFeedbackActuatorMap := EActuator → SActuatorElement

/-- Default force feedback actuator configuration
(`Mapper::kDefaultForceFeedbackActuator`). -/
def kDefaultForceFeedbackActuator : SActuatorElement :=
  { isPresent := true, axisFirst := .X, axisSecond := .Y }

/-- Default force feedback actuator map (`Mapper::kDefaultForceFeedbackActuatorMap`):
the two motors use the default configuration, the impulse triggers are absent. -/
def kDefaultForceFeedbackActuatorMap : SForceFeedbackActuatorMap
  | .LeftMotor => kDefaultForceFeedbackActuator
  | .RightMotor => kDefaultForceFeedbackActuator
  | _ => { isPresent := false, axisFirst := .X, axisSecond := .X }

/-- A mapper object: its name (empty for a mapper constructed without a
name), its element map and its force feedback actuator map. -/
structure Mapper where
  name : String
  elements : UElementMap
  forceFeedbackActuators : SForceFeedbackActuatorMap

/-- The mapper constructed by `Mapper(name, elements)`, with the default force
feedback actuator map. -/
def Mapper.Create (name : String) (elements : UElementMap) : Mapper :=
  { name := name, elements := elements,
    forceFeedbackActuators := kDefaultForceFeedbackActuatorMap }

/-- Returns a copy of this mapper's element map (`Mapper::CloneElementMap`). -/
def Mapper.CloneElementMap (m : Mapper) : UElementMap := m.elements

/-- Modelled from the spec: the global registry of mapper objects kept by
`Mapper.cpp`, which is absent. The most recently registered mapper comes
first. -/
abbrev TMapperRegistry := List Mapper

/-- Modelled from the spec: `Mapper::GetByName`, the lookup in the global
registry of mapper objects (`Mapper.cpp` is absent). -/
def Mapper.GetByName (registry : TMapperRegistry) (mapperName : String) : Option Mapper :=
  registry.find? (fun m => m.name == mapperName)

/-- Checks if a mapper of the specified name is known and registered
(`Mapper::IsMapperNameKnown`). -/
def Mapper.IsMapperNameKnown (registry : TMapperRegistry) (mapperName : String) : Bool :=
  (Mapper.GetByName registry mapperName).isSome

/-- Modelled from the spec: registration performed by the named constructor
`Mapper::Mapper(name, elements)` of `Mapper.cpp`, which is absent: the layout
is registered globally under its name. -/
def Mapper.Register (registry : TMapperRegistry) (m : Mapper) : TMapperRegistry :=
  m :: registry

/-! ## Physical controller state and the state mapping -/

/-- Modelled from the spec: the bounds `kAnalogValueMin` and `kAnalogValueMax`
of `ControllerTypes.h`, which is absent: axis values of a virtual state lie in
a symmetric range whose upper bound is 32767. -/
def kAnalogValueMax : Int := 32767

/-- Modelled from the spec: lower bound of the symmetric range of axis values,
see `kAnalogValueMax`. -/
def kAnalogValueMin : Int := -32767

/-- Modelled from the spec: largest reading of an analog trigger, an unsigned
8-bit value (`ControllerTypes.h` is absent). -/
def kTriggerValueMax : Nat := 255

/-- The elements of an XInput controller, named as the first twenty members of
`Mapper::SElementMap`. -/
inductive EPhysicalElement where
  | stickLeftX | stickLeftY | stickRightX | stickRightY
  | dpadUp | dpadDown | dpadLeft | dpadRight
  | triggerLT | triggerRT
  | buttonA | buttonB | buttonX | buttonY | buttonLB | buttonRB
  | buttonBack | buttonStart | buttonLS | buttonRS
  deriving DecidableEq, Repr

/-- All elements of an XInput controller, in the order of their members in
`Mapper::SElementMap`. -/
def EPhysicalElement.all : List EPhysicalElement :=
  [.stickLeftX, .stickLeftY, .stickRightX, .stickRightY, .dpadUp, .dpadDown, .dpadLeft,
   .dpadRight, .triggerLT, .triggerRT, .buttonA, .buttonB, .buttonX, .buttonY, .buttonLB,
   .buttonRB, .buttonBack, .buttonStart, .buttonLS, .buttonRS]

/-- Index of a named controller element in the array view of the element map
(`ELEMENT_MAP_INDEX_OF`). -/
def EPhysicalElement.index : EPhysicalElement → Fin kElementMapSize
  | .stickLeftX => 0 | .stickLeftY => 1 | .stickRightX => 2 | .stickRightY => 3
  | .dpadUp => 4 | .dpadDown => 5 | .dpadLeft => 6 | .dpadRight => 7
  | .triggerLT => 8 | .triggerRT => 9
  | .buttonA => 10 | .buttonB => 11 | .buttonX => 12 | .buttonY => 13
  | .buttonLB => 14 | .buttonRB => 15 | .buttonBack => 16 | .buttonStart => 17
  | .buttonLS => 18 | .buttonRS => 19

/-- A reading of one physical element together with the contribution operation
it is meant for. -/
inductive SReading where
  | Analog (value : Int)
  | Trigger (value : Nat)
  | Button (pressed : Bool)
  deriving DecidableEq, Repr

/-- Modelled from the spec: the physical snapshot `SPhysicalState` of
`ControllerTypes.h`, which is absent: a signed reading per stick axis, an
unsigned reading per trigger and a pressed flag per digital element. The
members of `Mapper::SElementMap` after the first twenty (`slider`, `dial`,
`extra1`, `extra2` and the extra buttons) name further elements of the
physical controller; the snapshot holds a reading for each of them in
`extended`, tagged with its kind and indexed by the slot of the element in the
element map (the entries of the first twenty slots are not used). -/
structure SPhysicalState where
  sThumbLX : Int
  sThumbLY : Int
  sThumbRX : Int
  sThumbRY : Int
  bLeftTrigger : Nat
  bRightTrigger : Nat
  dpadUp : Bool
  dpadDown : Bool
  dpadLeft : Bool
  dpadRight : Bool
  buttonA : Bool
  buttonB : Bool
  buttonX : Bool
  buttonY : Bool
  buttonLB : Bool
  buttonRB : Bool
  buttonBack : Bool
  buttonStart : Bool
  buttonLS : Bool
  buttonRS : Bool
  extended : Fin kElementMapSize → SReading

/-- The neutral physical snapshot: every reading is zero, nothing is pressed. -/
def SPhysicalState.neutral : SPhysicalState :=
  { sThumbLX := 0, sThumbLY := 0, sThumbRX := 0, sThumbRY := 0,
    bLeftTrigger := 0, bRightTrigger := 0,
    dpadUp := false, dpadDown := false, dpadLeft := false, dpadRight := false,
    buttonA := false, buttonB := false, buttonX := false, buttonY := false,
    buttonLB := false, buttonRB := false, buttonBack := false, buttonStart := false,
    buttonLS := false, buttonRS := false, extended := fun _ => .Button false }

/-- Modelled from the spec: the reading a physical snapshot holds for the
element of a slot of the element map, tagged with the appropriate contribution
operation: analog for the stick axes, trigger for LT and RT, button for the
d-pad and the buttons; for the slots after the first twenty, the reading the
snapshot holds for the element. The slots are those of `ELEMENT_MAP_INDEX_OF`,
in the order of the members of `Mapper::SElementMap`. -/
def SPhysicalState.Reading (p : SPhysicalState) (i : Fin kElementMapSize) : SReading :=
  match i.val with
  | 0 => .Analog p.sThumbLX
  | 1 => .Analog p.sThumbLY
  | 2 => .Analog p.sThumbRX
  | 3 => .Analog p.sThumbRY
  | 4 => .Button p.dpadUp
  | 5 => .Button p.dpadDown
  | 6 => .Button p.dpadLeft
  | 7 => .Button p.dpadRight
  | 8 => .Trigger p.bLeftTrigger
  | 9 => .Trigger p.bRightTrigger
  | 10 => .Button p.buttonA
  | 11 => .Button p.buttonB
  | 12 => .Button p.buttonX
  | 13 => .Button p.buttonY
  | 14 => .Button p.buttonLB
  | 15 => .Button p.buttonRB
  | 16 => .Button p.buttonBack
  | 17 => .Button p.buttonStart
  | 18 => .Button p.buttonLS
  | 19 => .Button p.buttonRS
  | _ => p.extended i

/-- One invocation of a contribution operation during a mapping pass: the slot
of the physical element in the element map, its element mapper and the reading
passed to it. -/
structure SContributionCall where
  index : Fin kElementMapSize
  elementMapper : IElementMapper
  reading : SReading

/-- Invokes the contribution operation of an element mapper that matches the
reading. -/
def IElementMapper.Contribute (m : IElementMapper) (state : SState) : SReading → SState
  | .Analog value => m.ContributeFromAnalogValue state value
  | .Trigger value => m.ContributeFromTriggerValue state value
  | .Button pressed => m.ContributeFromButtonValue state pressed

/-- Modelled from the spec: the sweep of `Mapper::MapStatePhysicalToVirtual`
(`Mapper.cpp` is absent): for each physical element, that is for each slot of
the element map, if a mapper is present, the appropriate contribution
operation is called with the reading of the snapshot. The list holds the
invocations in the order they are made, which is the order of the slots. -/
def ContributionCalls (elements : UElementMap) (p : SPhysicalState) :
    List SContributionCall :=
  (List.finRange kElementMapSize).filterMap
    (fun i => (elements i).map (fun m => ⟨i, m, p.Reading i⟩))

/-- The neutral virtual state: all axes 0, all buttons released, all POV
components false. -/
def SState.neutral : SState :=
  { axis := fun _ => 0, button := fun _ => false, povDirection := fun _ => false }

/-- Clamps an axis value into the range from `kAnalogValueMin` to
`kAnalogValueMax`. -/
def ClampAnalogValue (value : Int) : Int :=
  if value > kAnalogValueMax then kAnalogValueMax
  else if value < kAnalogValueMin then kAnalogValueMin
  else value

/-- Modelled from the spec: the accumulator of the mapping pass before
saturation: the contributions of all invocations applied in order to the
neutral state. -/
def AccumulateContributions (elements : UElementMap) (p : SPhysicalState) : SState :=
  (ContributionCalls elements p).foldl
    (fun state call => call.elementMapper.Contribute state call.reading) SState.neutral

/-- Modelled from the spec: `Mapper::MapStatePhysicalToVirtual` of `Mapper.cpp`,
which is absent: initialise the accumulator to the neutral state, let every
element mapper present contribute, clamp the axes and return the state. The
source controller identifier is opaque and not used by the sweep itself. -/
def Mapper.MapStatePhysicalToVirtual (mapper : Mapper) (physicalState : SPhysicalState)
    (_sourceControllerIdentifier : Nat) : SState :=
  let accumulated := AccumulateContributions mapper.elements physicalState
  { accumulated with axis := fun a => ClampAnalogValue (accumulated.axis a) }

/-- The controller state with every axis value clamped into the range from
`kAnalogValueMin` to `kAnalogValueMax`; buttons and POV are kept. -/
def SState.ClampAxes (state : SState) : SState :=
  { state with axis := fun a => ClampAnalogValue (state.axis a) }

/-- Modelled from the spec: `Mapper::MapNeutralPhysicalToVirtual` of
`Mapper.cpp`, which is absent: equivalent to mapping an all-zero snapshot. -/
def Mapper.MapNeutralPhysicalToVirtual (mapper : Mapper) (sourceControllerIdentifier : Nat) :
    SState :=
  mapper.MapStatePhysicalToVirtual SPhysicalState.neutral sourceControllerIdentifier

/-! ## Element mappers used by the test cases -/

/-- Adds a contribution to one axis of a controller state. -/
def SState.AddToAxis (state : SState) (axis : EAxis) (value : Int) : SState :=
  { state with axis := fun a => if a = axis then state.axis a + value else state.axis a }

/-- Presses a button of a controller state when asked to; a button already
pressed stays pressed. -/
def SState.PressButton (state : SState) (button : EButton) (pressed : Bool) : SState :=
  { state with button := fun b => if b = button then state.button b || pressed
                                  else state.button b }

/-- Sets a POV component of a controller state when asked to; a component
already set stays set. -/
def SState.PressPov (state : SState) (direction : EPovDirection) (pressed : Bool) : SState :=
  { state with povDirection := fun d => if d = direction then state.povDirection d || pressed
                                        else state.povDirection d }

/-- Modelled from the spec: the element mapper `AxisMapper(axis)` of
`ElementMapper.cpp`, which is absent, in its default direction `Both`: an
analog reading is contributed to the axis as it is, a trigger reading is
scaled from the trigger range to the positive axis range, and a pressed
digital element contributes full positive travel. -/
def AxisMapper (axis : EAxis) : IElementMapper :=
  { ContributeFromAnalogValue := fun state value => state.AddToAxis axis value
    ContributeFromButtonValue := fun state pressed =>
      if pressed then state.AddToAxis axis kAnalogValueMax else state
    ContributeFromTriggerValue := fun state value =>
      state.AddToAxis axis ((value : Int) * kAnalogValueMax / (kTriggerValueMax : Int))
    GetTargetElements := [.Axis axis] }

/-- Modelled from the spec: the element mapper `ButtonMapper(button)` of
`ElementMapper.cpp`, which is absent: an analog reading presses the button
when its magnitude is at least half of the positive travel, a trigger reading
when it is at least half of the trigger range, a digital reading when it is
true; contributions to one button compose by logical or. -/
def ButtonMapper (button : EButton) : IElementMapper :=
  { ContributeFromAnalogValue := fun state value =>
      state.PressButton button (decide (kAnalogValueMax / 2 ≤ |value|))
    ContributeFromButtonValue := fun state pressed => state.PressButton button pressed
    ContributeFromTriggerValue := fun state value =>
      state.PressButton button (decide (kTriggerValueMax / 2 ≤ value))
    GetTargetElements := [.Button button] }

/-- Modelled from the spec: the element mapper `PovMapper(direction)` of
`ElementMapper.cpp`, which is absent: as `ButtonMapper`, but it writes one
component of the POV hat. -/
def PovMapper (direction : EPovDirection) : IElementMapper :=
  { ContributeFromAnalogValue := fun state value =>
      state.PressPov direction (decide (kAnalogValueMax / 2 ≤ |value|))
    ContributeFromButtonValue := fun state pressed => state.PressPov direction pressed
    ContributeFromTriggerValue := fun state value =>
      state.PressPov direction (decide (kTriggerValueMax / 2 ≤ value))
    GetTargetElements := [.Pov] }

/-! ## Capabilities -/

/-- Capabilities of one axis of a virtual controller: its type and whether it
supports force feedback. -/
structure SAxisCapabilities where
  type : EAxis
  supportsForceFeedback : Bool
  deriving DecidableEq, Repr

/-- Capabilities of a virtual controller (`SCapabilities`): the axes present,
their number, the number of buttons and whether there is a POV hat. -/
structure SCapabilities where
  axisCapabilities : List SAxisCapabilities
  numAxes : Nat
  numButtons : Nat
  hasPov : Bool
  deriving DecidableEq, Repr

/-- The types of the axes listed in the capabilities (`axisType`). -/
def SCapabilities.axisType (capabilities : SCapabilities) : List EAxis :=
  capabilities.axisCapabilities.map SAxisCapabilities.type

/-- The virtual elements targeted by the element mappers of an element map:
the union, over all non-null element mappers, of their target elements. -/
def TargetElements (elements : UElementMap) : List SElementIdentifier :=
  (List.finRange kElementMapSize).flatMap
    (fun i => match elements i with
      | none => []
      | some m => m.GetTargetElements)

/-- One more than the highest button index among the target elements, and 0
when no button is targeted. -/
def ButtonCount : List SElementIdentifier → Nat
  | [] => 0
  | .Button button :: rest => max (button.val + 1) (ButtonCount rest)
  | _ :: rest => ButtonCount rest

/-- Whether some force feedback actuator that is present projects onto the
axis. -/
def ActuatorProjectsOnto (actuators : SForceFeedbackActuatorMap) (axis : EAxis) : Bool :=
  [EActuator.LeftMotor, .RightMotor, .LeftImpulseTrigger, .RightImpulseTrigger].any
    (fun actuator => (actuators actuator).isPresent &&
      (decide ((actuators actuator).axisFirst = axis) ||
        decide ((actuators actuator).axisSecond = axis)))

/-- Set of axes that must be present on all virtual controllers
(`Mapper::kRequiredAxes`). -/
def kRequiredAxes : List EAxis := [.X, .Y]

/-- Set of axes that must be present on all virtual controllers and support
force feedback (`Mapper::kRequiredForceFeedbackAxes`). -/
def kRequiredForceFeedbackAxes : List EAxis := kRequiredAxes

/-- Minimum number of buttons that must be present on all virtual controllers
(`Mapper::kMinNumButtons`). -/
def kMinNumButtons : Nat := 2

/-- Whether or not virtual controllers must contain a POV hat
(`Mapper::kIsPovRequired`). -/
def kIsPovRequired : Bool := false

/-- Modelled from the spec: the capabilities a mapper derives from its element
map at construction (`Mapper.cpp` is absent), with the axes, the buttons and
the POV that `Mapper.h` requires on all virtual controllers: the axes present
are the required axes and the virtual axes referenced by at least one element
mapper, in enumerator order; an axis supports force feedback when it is a
required force feedback axis or an actuator projects onto it; the button count
is one greater than the highest button index referenced and at least
`kMinNumButtons`; there is a POV hat if one is required or some element mapper
targets it. -/
def DeriveCapabilities (elements : UElementMap) (actuators : SForceFeedbackActuatorMap) :
    SCapabilities :=
  let targets := TargetElements elements
  let axes := EAxis.all.filter
    (fun axis => decide (axis ∈ kRequiredAxes) ||
      decide (SElementIdentifier.Axis axis ∈ targets))
  { axisCapabilities := axes.map
      (fun axis => ⟨axis, decide (axis ∈ kRequiredForceFeedbackAxes) ||
        ActuatorProjectsOnto actuators axis⟩)
    numAxes := axes.length
    numButtons := max kMinNumButtons (ButtonCount targets)
    hasPov := kIsPovRequired || decide (SElementIdentifier.Pov ∈ targets) }

/-- Retrieves the capabilities of the virtual controller layout implemented by
the mapper (`Mapper::GetCapabilities`). -/
def Mapper.GetCapabilities (mapper : Mapper) : SCapabilities :=
  DeriveCapabilities mapper.elements mapper.forceFeedbackActuators

/-- The element map with one more element mapper, as written in a designated
initialiser of `Mapper::SElementMap`. -/
def UElementMap.With (elements : UElementMap) (e : EPhysicalElement) (m : IElementMapper) :
    UElementMap :=
  fun i => if i = e.index then some m else elements i

/-! ## Layouts and snapshots of the test cases -/

namespace Example

/-- The layout of `ControllerMapper_State_AnalogSaturationPositive`: all four
stick axes are mapped to axis X. -/
def SaturationPositive : Mapper :=
  Mapper.Create "" ((((UElementMap.empty.With .stickLeftX (AxisMapper .X)).With
    .stickLeftY (AxisMapper .X)).With .stickRightX (AxisMapper .X)).With
    .stickRightY (AxisMapper .X))

/-- The layout of `ControllerMapper_State_AnalogSaturationNegative`: all four
stick axes are mapped to axis RotX. -/
def SaturationNegative : Mapper :=
  Mapper.Create "" ((((UElementMap.empty.With .stickLeftX (AxisMapper .RotX)).With
    .stickLeftY (AxisMapper .RotX)).With .stickRightX (AxisMapper .RotX)).With
    .stickRightY (AxisMapper .RotX))

/-- Snapshot with all four stick axes at `kAnalogValueMax`. -/
def AllSticksMax : SPhysicalState :=
  { SPhysicalState.neutral with
    sThumbLX := kAnalogValueMax, sThumbLY := kAnalogValueMax,
    sThumbRX := kAnalogValueMax, sThumbRY := kAnalogValueMax }

/-- Snapshot with all four stick axes at `kAnalogValueMin`. -/
def AllSticksMin : SPhysicalState :=
  { SPhysicalState.neutral with
    sThumbLX := kAnalogValueMin, sThumbLY := kAnalogValueMin,
    sThumbRX := kAnalogValueMin, sThumbRY := kAnalogValueMin }

/-- The second snapshot of `ControllerMapper_State_ZeroOnEmpty`: sticks and
triggers deflected, every digital element but Y pressed, and every further
element pressed. -/
def Deflected : SPhysicalState :=
  { sThumbLX := 16383, sThumbLY := -16383, sThumbRX := -16383, sThumbRY := 16383,
    bLeftTrigger := 128, bRightTrigger := 128,
    dpadUp := true, dpadDown := true, dpadLeft := true, dpadRight := true,
    buttonA := true, buttonB := true, buttonX := true, buttonY := false,
    buttonLB := true, buttonRB := true, buttonBack := true, buttonStart := true,
    buttonLS := true, buttonRS := true, extended := fun _ => .Button true }

/-- A layout with a single element mapper: the right trigger is mapped to
axis Z. -/
def TriggerToAxis : Mapper :=
  Mapper.Create "" (UElementMap.empty.With .triggerRT (AxisMapper .Z))

/-- The layout of the test cases on an empty mapper. -/
def EmptyMapper : Mapper := Mapper.Create "" UElementMap.empty

/-- The layout of `ControllerMapper_Capabilities_DisjointButtons`: mappers
targeting the buttons B2, B6, B10 and B4. -/
def DisjointButtons : Mapper :=
  Mapper.Create "" ((((UElementMap.empty.With .stickLeftX (ButtonMapper 1)).With
    .dpadUp (ButtonMapper 5)).With .dpadLeft (ButtonMapper 9)).With
    .buttonLB (ButtonMapper 3))

/-- A layout whose only element mapper targets the button B1, of index 0. -/
def FirstButton : Mapper :=
  Mapper.Create "" (UElementMap.empty.With .buttonA (ButtonMapper 0))

/-- The layout of `ControllerMapper_Capabilities_SingleButton`: three mappers
targeting the button B6. -/
def SingleButton : Mapper :=
  Mapper.Create "" (((UElementMap.empty.With .stickLeftY (ButtonMapper 5)).With
    .dpadDown (ButtonMapper 5)).With .buttonStart (ButtonMapper 5))

/-- The layout of `ControllerMapper_Capabilities_MultipleAxes`: mappers
targeting the axes Y, RotX, RotX and Y. -/
def MultipleAxes : Mapper :=
  Mapper.Create "" ((((UElementMap.empty.With .stickRightX (AxisMapper .Y)).With
    .dpadDown (AxisMapper .RotX)).With .buttonStart (AxisMapper .RotX)).With
    .buttonRS (AxisMapper .Y))

/-- The layout of `ControllerMapper_Capabilities_IncompletePov`: one mapper
targeting one POV direction. -/
def IncompletePov : Mapper :=
  Mapper.Create "" (UElementMap.empty.With .stickRightX (PovMapper .Left))

/-- The layout of `ControllerMapper_Capabilities_CompletePov`: eight mappers
targeting all four POV directions. -/
def CompletePov : Mapper :=
  Mapper.Create "" ((((((((UElementMap.empty.With .stickLeftY (PovMapper .Left)).With
    .stickRightX (PovMapper .Right)).With .triggerLT (PovMapper .Up)).With
    .triggerRT (PovMapper .Down)).With .buttonA (PovMapper .Left)).With
    .buttonY (PovMapper .Left)).With .buttonLS (PovMapper .Up)).With
    .buttonRS (PovMapper .Down))

end Example

/-! ## Mapper builder -/

/-- Element map specification of a blueprint (`TElementMapSpec`, a
`std::map` from element index to element mapper): `none` when no change is
recorded for the index, `some none` for a recorded null element mapper. Only
indices below `kElementMapSize` are ever recorded. -/
abbrev TElementMapSpec := Fin kElementMapSize → Option (Option IElementMapper)

/-- Modelled from the spec: the blueprint record `MapperBuilder::SBlueprint`
declared in `MapperBuilder.h`, which is absent: a template name (empty when
there is none), the changes from the template and the two build flags. -/
structure SBlueprint where
  templateName : String
  changesFromTemplate : TElementMapSpec
  buildAttempted : Bool
  buildCanAttempt : Bool

/-- Severity of an output message. -/
inductive ESeverity where
  | Error | Info
  deriving DecidableEq, Repr

/-- The messages `MapperBuilder::Build` can output, one per format string. -/
inductive EBuildMessage where
  | UnrecognizedName
  | MapperAlreadyExists
  | ConfigurationInvalid
  | CircularTemplateDependency
  | AttemptingTemplateBuild
  | TemplateDependencyFailed
  | TemplateNotRegistered
  | TemplateNotLocated
  | SuccessfullyBuilt
  deriving DecidableEq, Repr

/-- One call of `Message::OutputFormatted` made while building a mapper. -/
structure SMessage where
  severity : ESeverity
  text : EBuildMessage
  mapperName : String
  deriving DecidableEq, Repr

/-- State on which the mapper builder operates: the blueprints of the
`MapperBuilder` object, the global mapper registry and the messages output so
far. -/
structure SBuildState where
  blueprints : List (String × SBlueprint)
  registry : TMapperRegistry
  messages : List SMessage

namespace MapperBuilder

/-- Lookup of a blueprint by name (`blueprints.find`). -/
def FindBlueprint (blueprints : List (String × SBlueprint)) (mapperName : String) :
    Option SBlueprint :=
  match blueprints with
  | [] => none
  | (name, blueprint) :: rest =>
    if name = mapperName then some blueprint else FindBlueprint rest mapperName

/-- Replaces the blueprint stored under a name, leaving the keys as they are. -/
def UpdateBlueprint (blueprints : List (String × SBlueprint)) (mapperName : String)
    (f : SBlueprint → SBlueprint) : List (String × SBlueprint) :=
  match blueprints with
  | [] => []
  | (name, blueprint) :: rest =>
    if name = mapperName then (name, f blueprint) :: rest
    else (name, blueprint) :: UpdateBlueprint rest mapperName f

/-- Checks if a blueprint of the specified name exists
(`MapperBuilder::DoesBlueprintNameExist`). -/
def DoesBlueprintNameExist (s : SBuildState) (mapperName : String) : Bool :=
  (FindBlueprint s.blueprints mapperName).isSome

/-- Modifies in place the blueprint stored under a name. -/
def ModifyBlueprint (s : SBuildState) (mapperName : String) (f : SBlueprint → SBlueprint) :
    SBuildState :=
  { s with blueprints := UpdateBlueprint s.blueprints mapperName f }

/-- Appends one message to the output. -/
def Output (s : SBuildState) (severity : ESeverity) (text : EBuildMessage)
    (mapperName : String) : SBuildState :=
  { s with messages := s.messages ++ [⟨severity, text, mapperName⟩] }

/-- Applies the changes of a blueprint to a starting element map: the loop
`mapperElements.all[change.first] = std::move(change.second)`. -/
def ApplyChanges (start : UElementMap) (changes : TElementMapSpec) : UElementMap :=
  fun i => match changes i with
    | some elementMapper => elementMapper
    | none => start i

/-- The changes of a blueprint after its element mappers have been moved out:
every recorded change holds a null pointer. -/
def MovedFrom (changes : TElementMapSpec) : TElementMapSpec :=
  fun i => (changes i).map (fun _ => none)

/-- Final part of `MapperBuilder::Build(std::wstring_view)`, lines 114-120:
applies the changes of the blueprint to the starting point, outputs the
success message, constructs the mapper and so registers it. The blueprint is
read through the reference obtained on line 61, so it always exists here. -/
def FinishBuild (s : SBuildState) (mapperName : String) (start : UElementMap) :
    Option Mapper × SBuildState :=
  match FindBlueprint s.blueprints mapperName with
  | none => (none, s)
  | some blueprint =>
    let mapper := Mapper.Create mapperName (ApplyChanges start blueprint.changesFromTemplate)
    let s1 := ModifyBlueprint s mapperName
      (fun b => { b with changesFromTemplate := MovedFrom b.changesFromTemplate })
    let s2 := Output s1 .Info .SuccessfullyBuilt mapperName
    (some mapper, { s2 with registry := Mapper.Register s2.registry mapper })

/-- Part of `MapperBuilder::Build(std::wstring_view)`, lines 102-120, reached
once the template name is known to the registry: obtains the template mapper,
clones its element map and finishes the build. -/
def BuildFromTemplate (s : SBuildState) (mapperName templateName : String) :
    Option Mapper × SBuildState :=
  match Mapper.GetByName s.registry templateName with
  | none => (none, Output s .Error .TemplateNotLocated mapperName)
  | some templateMapper => FinishBuild s mapperName templateMapper.CloneElementMap

/-- The state right after `blueprint.buildAttempted = true` on line 77. -/
def MarkAttempted (s : SBuildState) (mapperName : String) : SBuildState :=
  ModifyBlueprint s mapperName (fun b => { b with buildAttempted := true })

/-- The function `MapperBuilder::Build(std::wstring_view)`. The recursion on
the template is bounded by `fuel`; `none` is returned only when the fuel runs
out. The result is the constructed mapper, or `none` for `nullptr`. The test
of line 49 and the lookup of line 61 are the one match on the blueprint. -/
def BuildByNameFuel : Nat → String → SBuildState → Option (Option Mapper × SBuildState)
  | 0, _, _ => none
  | fuel + 1, mapperName, s =>
    match FindBlueprint s.blueprints mapperName with
    | none => some (none, Output s .Error .UnrecognizedName mapperName)
    | some blueprint =>
      if Mapper.IsMapperNameKnown s.registry mapperName then
        some (none, Output s .Error .MapperAlreadyExists mapperName)
      else if blueprint.buildCanAttempt = false then
        some (none, Output s .Error .ConfigurationInvalid mapperName)
      else if blueprint.buildAttempted = true then
        some (none, Output s .Error .CircularTemplateDependency mapperName)
      else
        let s1 := MarkAttempted s mapperName
        if blueprint.templateName = "" then
          some (FinishBuild s1 mapperName UElementMap.empty)
        else if Mapper.IsMapperNameKnown s1.registry blueprint.templateName then
          some (BuildFromTemplate s1 mapperName blueprint.templateName)
        else
          let s2 := Output s1 .Info .AttemptingTemplateBuild mapperName
          match BuildByNameFuel fuel blueprint.templateName s2 with
          | none => none
          | some (none, s3) =>
            some (none, Output s3 .Error .TemplateDependencyFailed mapperName)
          | some (some _, s3) =>
            if Mapper.IsMapperNameKnown s3.registry blueprint.templateName then
              some (BuildFromTemplate s3 mapperName blueprint.templateName)
            else
              some (none, Output s3 .Error .TemplateNotRegistered mapperName)

/-- The function `MapperBuilder::Build(std::wstring_view)`, with fuel for one
recursive call per blueprint and one more. -/
def BuildByName (mapperName : String) (s : SBuildState) :
    Option (Option Mapper × SBuildState) :=
  BuildByNameFuel (s.blueprints.length + 1) mapperName s

/-- The loop of `MapperBuilder::Build(void)` over the remaining blueprint
names, each blueprint item being read when the iteration reaches it. -/
def BuildLoop : List String → SBuildState → Option (Bool × SBuildState)
  | [], s => some (true, s)
  | mapperName :: rest, s =>
    match FindBlueprint s.blueprints mapperName with
    | none => BuildLoop rest s
    | some blueprint =>
      if blueprint.buildAttempted = true ∨ blueprint.buildCanAttempt = false then
        BuildLoop rest s
      else
        match BuildByName mapperName s with
        | none => none
        | some (none, s1) => some (false, s1)
        | some (some _, s1) => BuildLoop rest s1

/-- The function `MapperBuilder::Build(void)`: attempts to build every
blueprint, in the iteration order of the blueprints. Building changes the
flags and changes of blueprints but never the set of names, so the loop runs
over the names present at the start. -/
def Build (s : SBuildState) : Option (Bool × SBuildState) :=
  BuildLoop (s.blueprints.map Prod.fst) s

/-- A mapper of this name is known and registered in the state. -/
def Known (s : SBuildState) (mapperName : String) : Prop :=
  Mapper.IsMapperNameKnown s.registry mapperName = true

instance (s : SBuildState) (mapperName : String) : Decidable (Known s mapperName) := by
  unfold Known; exact inferInstance

/-- The template a blueprint depends on, if the blueprint exists and names a
template. -/
def TemplateOf (s : SBuildState) (mapperName : String) : Option String :=
  match FindBlueprint s.blueprints mapperName with
  | none => none
  | some blueprint => if blueprint.templateName = "" then none else some blueprint.templateName

/-- Follows the chain of template names for a number of steps. -/
def TemplateChain (s : SBuildState) : Nat → String → Option String
  | 0, mapperName => some mapperName
  | k + 1, mapperName =>
    match TemplateOf s mapperName with
    | none => none
    | some templateName => TemplateChain s k templateName

/-- The blueprint of this name lies on a template cycle: its chain of template
names leads back to itself after at least one step. -/
def OnTemplateCycle (s : SBuildState) (mapperName : String) : Prop :=
  ∃ k, 0 < k ∧ TemplateChain s k mapperName = some mapperName

/-- The messages output between an earlier and a later state. -/
def NewMessages (s s1 : SBuildState) : List SMessage :=
  s1.messages.drop s.messages.length

/-- The text of the first error message in a list of messages: the root cause
of a failed build. -/
def FirstError (messages : List SMessage) : Option EBuildMessage :=
  (messages.find? (fun m => m.severity = ESeverity.Error)).map SMessage.text

/-- Big-step description of `MapperBuilder::Build(std::wstring_view)`, one
rule per path through the function. -/
inductive Builds : String → SBuildState → Option Mapper → SBuildState → Prop
  | unrecognized {n : String} {s : SBuildState}
      (hfind : FindBlueprint s.blueprints n = none) :
      Builds n s none (Output s .Error .UnrecognizedName n)
  | alreadyExists {n : String} {s : SBuildState} {b : SBlueprint}
      (hfind : FindBlueprint s.blueprints n = some b)
      (hknown : Known s n) :
      Builds n s none (Output s .Error .MapperAlreadyExists n)
  | invalid {n : String} {s : SBuildState} {b : SBlueprint}
      (hfind : FindBlueprint s.blueprints n = some b)
      (hknown : ¬ Known s n)
      (hcan : b.buildCanAttempt = false) :
      Builds n s none (Output s .Error .ConfigurationInvalid n)
  | circular {n : String} {s : SBuildState} {b : SBlueprint}
      (hfind : FindBlueprint s.blueprints n = some b)
      (hknown : ¬ Known s n)
      (hcan : b.buildCanAttempt = true)
      (hatt : b.buildAttempted = true) :
      Builds n s none (Output s .Error .CircularTemplateDependency n)
  | noTemplate {n : String} {s : SBuildState} {b : SBlueprint}
      (hfind : FindBlueprint s.blueprints n = some b)
      (hknown : ¬ Known s n)
      (hcan : b.buildCanAttempt = true)
      (hatt : b.buildAttempted = false)
      (htmpl : b.templateName = "") :
      Builds n s (FinishBuild (MarkAttempted s n) n UElementMap.empty).1
        (FinishBuild (MarkAttempted s n) n UElementMap.empty).2
  | templateKnown {n : String} {s : SBuildState} {b : SBlueprint}
      (hfind : FindBlueprint s.blueprints n = some b)
      (hknown : ¬ Known s n)
      (hcan : b.buildCanAttempt = true)
      (hatt : b.buildAttempted = false)
      (htmpl : b.templateName ≠ "")
      (htk : Known (MarkAttempted s n) b.templateName) :
      Builds n s (BuildFromTemplate (MarkAttempted s n) n b.templateName).1
        (BuildFromTemplate (MarkAttempted s n) n b.templateName).2
  | templateFailed {n : String} {s s3 : SBuildState} {b : SBlueprint}
      (hfind : FindBlueprint s.blueprints n = some b)
      (hknown : ¬ Known s n)
      (hcan : b.buildCanAttempt = true)
      (hatt : b.buildAttempted = false)
      (htmpl : b.templateName ≠ "")
      (htk : ¬ Known (MarkAttempted s n) b.templateName)
      (hrec : Builds b.templateName
        (Output (MarkAttempted s n) .Info .AttemptingTemplateBuild n) none s3) :
      Builds n s none (Output s3 .Error .TemplateDependencyFailed n)
  | templateBuilt {n : String} {s s3 : SBuildState} {b : SBlueprint} {m : Mapper}
      (hfind : FindBlueprint s.blueprints n = some b)
      (hknown : ¬ Known s n)
      (hcan : b.buildCanAttempt = true)
      (hatt : b.buildAttempted = false)
      (htmpl : b.templateName ≠ "")
      (htk : ¬ Known (MarkAttempted s n) b.templateName)
      (hrec : Builds b.templateName
        (Output (MarkAttempted s n) .Info .AttemptingTemplateBuild n) (some m) s3)
      (htk3 : Known s3 b.templateName) :
      Builds n s (BuildFromTemplate s3 n b.templateName).1
        (BuildFromTemplate s3 n b.templateName).2
  | templateNotRegistered {n : String} {s s3 : SBuildState} {b : SBlueprint} {m : Mapper}
      (hfind : FindBlueprint s.blueprints n = some b)
      (hknown : ¬ Known s n)
      (hcan : b.buildCanAttempt = true)
      (hatt : b.buildAttempted = false)
      (htmpl : b.templateName ≠ "")
      (htk : ¬ Known (MarkAttempted s n) b.templateName)
      (hrec : Builds b.templateName
        (Output (MarkAttempted s n) .Info .AttemptingTemplateBuild n) (some m) s3)
      (htk3 : ¬ Known s3 b.templateName) :
      Builds n s none (Output s3 .Error .TemplateNotRegistered n)

/-- Number of blueprint entries on which no build has been attempted. -/
def UnattemptedCount (blueprints : List (String × SBlueprint)) : Nat :=
  match blueprints with
  | [] => 0
  | (_, blueprint) :: rest =>
    (if blueprint.buildAttempted = true then 0 else 1) + UnattemptedCount rest

/-- The state in which `FinishBuild` leaves the builder. -/
def FinishState (s : SBuildState) (n : String) (mapper : Mapper) : SBuildState :=
  { blueprints := UpdateBlueprint s.blueprints n
      (fun b => { b with changesFromTemplate := MovedFrom b.changesFromTemplate })
    registry := Mapper.Register s.registry mapper
    messages := s.messages ++ [⟨.Info, .SuccessfullyBuilt, n⟩] }

/-- What every build leaves in place: the blueprint names, template names and
`buildCanAttempt` flags, every blueprint already attempted, every registered
mapper name and every message output before. -/
structure Frame (s s1 : SBuildState) : Prop where
  find_none : ∀ x, FindBlueprint s.blueprints x = none → FindBlueprint s1.blueprints x = none
  find_some : ∀ x b, FindBlueprint s.blueprints x = some b →
    ∃ b1, FindBlueprint s1.blueprints x = some b1 ∧ b1.templateName = b.templateName ∧
      b1.buildCanAttempt = b.buildCanAttempt ∧ (b.buildAttempted = true → b1 = b)
  known_mono : ∀ x, Known s x → Known s1 x
  known_new : ∀ x, Known s1 x →
    Known s x ∨ ∃ b b1, FindBlueprint s.blueprints x = some b ∧ b.buildAttempted = false ∧
      FindBlueprint s1.blueprints x = some b1 ∧ b1.buildAttempted = true
  messages : ∃ new, s1.messages = s.messages ++ new

/-- Summary of one call of `MapperBuilder::Build(std::wstring_view)`: what it
leaves in place, that a failed build registers nothing, and what a successful
build constructs. -/
structure BuildOutcome (n : String) (s : SBuildState) (r : Option Mapper)
    (s1 : SBuildState) : Prop where
  frame : Frame s s1
  failure : r = none → s1.registry = s.registry
  success : ∀ m, r = some m →
    ∃ b, FindBlueprint s.blueprints n = some b ∧ b.buildAttempted = false ∧
      b.buildCanAttempt = true ∧ ¬ Known s n ∧ m.name = n ∧
      Mapper.GetByName s1.registry n = some m ∧
      ∃ start, m.elements = ApplyChanges start b.changesFromTemplate ∧
        (b.templateName = "" → start = UElementMap.empty) ∧
        (b.templateName ≠ "" → ∃ tm, Mapper.GetByName s1.registry b.templateName = some tm ∧
          start = tm.CloneElementMap)
  attempted_known : ∀ m, r = some m → ∀ x b0 b1, FindBlueprint s.blueprints x = some b0 →
    b0.buildAttempted = false → FindBlueprint s1.blueprints x = some b1 →
    b1.buildAttempted = true → Known s1 x

/-- Big-step description of the loop of `MapperBuilder::Build(void)`: a
blueprint is skipped when it has been attempted or cannot be attempted, the
loop stops with `false` at the first build that fails, and goes on after a
build that succeeds. -/
inductive Loops : List String → SBuildState → Bool → SBuildState → Prop
  | done {s : SBuildState} : Loops [] s true s
  | missing {x : String} {rest : List String} {s s1 : SBuildState} {r : Bool}
      (hfind : FindBlueprint s.blueprints x = none)
      (hrest : Loops rest s r s1) : Loops (x :: rest) s r s1
  | skipped {x : String} {rest : List String} {s s1 : SBuildState} {r : Bool}
      {b : SBlueprint}
      (hfind : FindBlueprint s.blueprints x = some b)
      (hskip : b.buildAttempted = true ∨ b.buildCanAttempt = false)
      (hrest : Loops rest s r s1) : Loops (x :: rest) s r s1
  | failed {x : String} {rest : List String} {s s1 : SBuildState} {b : SBlueprint}
      (hfind : FindBlueprint s.blueprints x = some b)
      (hatt : b.buildAttempted = false) (hcan : b.buildCanAttempt = true)
      (hbuild : Builds x s none s1) : Loops (x :: rest) s false s1
  | built {x : String} {rest : List String} {s s1 s2 : SBuildState} {r : Bool}
      {b : SBlueprint} {m : Mapper}
      (hfind : FindBlueprint s.blueprints x = some b)
      (hatt : b.buildAttempted = false) (hcan : b.buildCanAttempt = true)
      (hbuild : Builds x s (some m) s1)
      (hrest : Loops rest s1 r s2) : Loops (x :: rest) s r s2

/-- A set of blueprint names closed under taking templates, none of them
registered: every member has a blueprint that names a template in the set. -/
def CycleClosed (S : String → Prop) (s : SBuildState) : Prop :=
  ∀ x, S x → ¬ Known s x ∧
    ∃ b, FindBlueprint s.blueprints x = some b ∧ b.templateName ≠ "" ∧ S b.templateName

/-- A builder state in which a build can only fail on a template cycle: no
blueprint has been invalidated, every template name is the name of a blueprint
or of a registered mapper, and no blueprint still to be attempted has its name
registered. -/
structure Buildable (s : SBuildState) : Prop where
  can : ∀ x b, FindBlueprint s.blueprints x = some b → b.buildCanAttempt = true
  template : ∀ x b, FindBlueprint s.blueprints x = some b → b.templateName ≠ "" →
    Known s b.templateName ∨ ∃ bt, FindBlueprint s.blueprints b.templateName = some bt
  unknown : ∀ x b, FindBlueprint s.blueprints x = some b → b.buildAttempted = false →
    ¬ Known s x

/-! ## Operations on blueprints -/

/-- Modelled from the spec: the blueprint made by the default constructor
`SBlueprint()` of `MapperBuilder.h`, which is absent: no template, no changes,
no build attempted, and a build can be attempted. -/
def InitialBlueprint : SBlueprint :=
  { templateName := "", changesFromTemplate := fun _ => none,
    buildAttempted := false, buildCanAttempt := true }

/-- Insertion of an entry under a new name into the blueprints, which
`std::map` keeps in the order of their names, compared character by
character. -/
def InsertBlueprint (blueprints : List (String × SBlueprint)) (mapperName : String)
    (blueprint : SBlueprint) : List (String × SBlueprint) :=
  match blueprints with
  | [] => [(mapperName, blueprint)]
  | (name, b) :: rest =>
    if mapperName.data < name.data then (mapperName, blueprint) :: (name, b) :: rest
    else (name, b) :: InsertBlueprint rest mapperName blueprint

/-- The function `MapperBuilder::CreateBlueprint`: `emplace` inserts nothing
and reports `false` when the name is already a key. -/
def CreateBlueprint (s : SBuildState) (mapperName : String) : Bool × SBuildState :=
  if Mapper.IsMapperNameKnown s.registry mapperName then (false, s)
  else
    match FindBlueprint s.blueprints mapperName with
    | some _ => (false, s)
    | none =>
      (true, { s with blueprints := InsertBlueprint s.blueprints mapperName InitialBlueprint })

/-- The function `MapperBuilder::InvalidateBlueprint`. -/
def InvalidateBlueprint (s : SBuildState) (mapperName : String) : Bool × SBuildState :=
  match FindBlueprint s.blueprints mapperName with
  | none => (false, s)
  | some _ => (true, ModifyBlueprint s mapperName (fun b => { b with buildCanAttempt := false }))

/-- The function `MapperBuilder::SetBlueprintTemplate`. -/
def SetBlueprintTemplate (s : SBuildState) (mapperName newTemplateName : String) :
    Bool × SBuildState :=
  match FindBlueprint s.blueprints mapperName with
  | none => (false, s)
  | some _ => (true, ModifyBlueprint s mapperName (fun b => { b with templateName := newTemplateName }))

/-- Assignment `changesFromTemplate[elementIndex] = elementMapper`. -/
def AssignChange (changes : TElementMapSpec) (elementIndex : Fin kElementMapSize)
    (elementMapper : Option IElementMapper) : TElementMapSpec :=
  fun i => if i = elementIndex then some elementMapper else changes i

/-- Removal `changesFromTemplate.erase(elementIndex)`. -/
def EraseChange (changes : TElementMapSpec) (elementIndex : Fin kElementMapSize) :
    TElementMapSpec :=
  fun i => if i = elementIndex then none else changes i

/-- The blueprint after `changesFromTemplate[elementIndex] = elementMapper`. -/
def SetChange (elementIndex : Fin kElementMapSize)
    (elementMapper : Option IElementMapper) (b : SBlueprint) : SBlueprint :=
  { b with changesFromTemplate := AssignChange b.changesFromTemplate elementIndex elementMapper }

/-- The blueprint after `changesFromTemplate.erase(elementIndex)`. -/
def ClearChange (elementIndex : Fin kElementMapSize) (b : SBlueprint) :
    SBlueprint :=
  { b with changesFromTemplate := EraseChange b.changesFromTemplate elementIndex }

/-- The function `MapperBuilder::SetBlueprintElementMapper` taking an element
index. -/
def SetBlueprintElementMapper (s : SBuildState) (mapperName : String) (elementIndex : Nat)
    (elementMapper : Option IElementMapper) : Bool × SBuildState :=
  match FindBlueprint s.blueprints mapperName with
  | none => (false, s)
  | some _ =>
    if h : elementIndex < kElementMapSize then
      (true, ModifyBlueprint s mapperName
        (SetChange ⟨elementIndex, h⟩ elementMapper))
    else (false, s)

/-- The function `MapperBuilder::ClearBlueprintElementMapper` taking an element
index. -/
def ClearBlueprintElementMapper (s : SBuildState) (mapperName : String)
    (elementIndex : Nat) : Bool × SBuildState :=
  match FindBlueprint s.blueprints mapperName with
  | none => (false, s)
  | some blueprint =>
    if h : elementIndex < kElementMapSize then
      match blueprint.changesFromTemplate ⟨elementIndex, h⟩ with
      | none => (false, s)
      | some _ =>
        (true, ModifyBlueprint s mapperName (ClearChange ⟨elementIndex, h⟩))
    else (false, s)

/-- The operations of a mapper builder. -/
inductive EOperation where
  | CreateBlueprint (mapperName : String)
  | SetBlueprintElementMapper (mapperName : String) (elementIndex : Nat)
      (elementMapper : Option IElementMapper)
  | ClearBlueprintElementMapper (mapperName : String) (elementIndex : Nat)
  | SetBlueprintTemplate (mapperName newTemplateName : String)
  | InvalidateBlueprint (mapperName : String)
  | BuildByName (mapperName : String)
  | Build

/-- The state after one operation of the builder. -/
def EOperation.Apply (s : SBuildState) : EOperation → SBuildState
  | .CreateBlueprint mapperName => (MapperBuilder.CreateBlueprint s mapperName).2
  | .SetBlueprintElementMapper mapperName elementIndex elementMapper =>
    (MapperBuilder.SetBlueprintElementMapper s mapperName elementIndex elementMapper).2
  | .ClearBlueprintElementMapper mapperName elementIndex =>
    (MapperBuilder.ClearBlueprintElementMapper s mapperName elementIndex).2
  | .SetBlueprintTemplate mapperName newTemplateName =>
    (MapperBuilder.SetBlueprintTemplate s mapperName newTemplateName).2
  | .InvalidateBlueprint mapperName => (MapperBuilder.InvalidateBlueprint s mapperName).2
  | .BuildByName mapperName =>
    match MapperBuilder.BuildByName mapperName s with
    | some (_, s1) => s1
    | none => s
  | .Build =>
    match MapperBuilder.Build s with
    | some (_, s1) => s1
    | none => s

/-- The state after a sequence of operations of the builder. -/
def ApplyAll (s : SBuildState) (operations : List EOperation) : SBuildState :=
  operations.foldl EOperation.Apply s

/-! ## Builders used as examples -/

namespace Example

/-- A blueprint right after its creation and the choice of a template: no
changes, not attempted, not invalidated. -/
def Blueprint (templateName : String) : SBlueprint :=
  { templateName := templateName, changesFromTemplate := fun _ => none,
    buildAttempted := false, buildCanAttempt := true }

/-- An invalidated blueprint. -/
def Invalidated (templateName : String) : SBlueprint :=
  { Blueprint templateName with buildCanAttempt := false }

/-- Blueprints A with template B and B with template A, nothing registered. -/
def CycleAB : SBuildState :=
  { blueprints := [("A", Blueprint "B"), ("B", Blueprint "A")], registry := [],
    messages := [] }

/-- A blueprint A without template, followed by the cycle of B and C. -/
def CycleAfterSingle : SBuildState :=
  { blueprints := [("A", Blueprint ""), ("B", Blueprint "C"), ("C", Blueprint "B")],
    registry := [], messages := [] }

/-- The cycle of A and B, both blueprints invalidated. -/
def CycleInvalidated : SBuildState :=
  { blueprints := [("A", Invalidated "B"), ("B", Invalidated "A")], registry := [],
    messages := [] }

/-- Blueprint A with template B, blueprint B without template and an
invalidated blueprint C. -/
def Chain : SBuildState :=
  { blueprints := [("A", Blueprint "B"), ("B", Blueprint ""), ("C", Invalidated "")],
    registry := [], messages := [] }

/-- Changes of the template blueprint T: an axis mapper for element 0 and a
button mapper for element 1. -/
def TemplateChanges : TElementMapSpec :=
  fun i => if i = 0 then some (some (AxisMapper .X))
    else if i = 1 then some (some (ButtonMapper 0)) else none

/-- Changes of the blueprint A: element 0 is cleared, element 2 gets a POV
mapper. -/
def ChildChanges : TElementMapSpec :=
  fun i => if i = 0 then some none
    else if i = 2 then some (some (PovMapper .Up)) else none

/-- The blueprint A of `Templated`. -/
def ChildBlueprint : SBlueprint :=
  { templateName := "T", changesFromTemplate := ChildChanges,
    buildAttempted := false, buildCanAttempt := true }

/-- Blueprint A with template T and changes of its own, blueprint T without
template. -/
def Templated : SBuildState :=
  { blueprints := [("A", ChildBlueprint),
      ("T", { templateName := "", changesFromTemplate := TemplateChanges,
              buildAttempted := false, buildCanAttempt := true })],
    registry := [], messages := [] }

/-- A single blueprint A without template, nothing registered. -/
def Single : SBuildState :=
  { blueprints := [("A", Blueprint "")], registry := [], messages := [] }

/-- A blueprint A whose template T has no blueprint and is not registered. -/
def MissingTemplate : SBuildState :=
  { blueprints := [("A", Blueprint "T")], registry := [], messages := [] }

/-- The builder `MissingTemplate` after `Build("A")` has failed: the build of A
has been attempted, nothing is registered. -/
def FailedOnce : SBuildState :=
  { blueprints := [("A", { Blueprint "T" with buildAttempted := true })], registry := [],
    messages := [⟨.Info, .AttemptingTemplateBuild, "A"⟩, ⟨.Error, .UnrecognizedName, "T"⟩,
      ⟨.Error, .TemplateDependencyFailed, "A"⟩] }

/-- A blueprint A whose template T is an invalidated blueprint. -/
def InvalidTemplate : SBuildState :=
  { blueprints := [("A", Blueprint "T"), ("T", Invalidated "")], registry := [],
    messages := [] }

end Example

end MapperBuilder

/-! ## Force feedback device -/

namespace ForceFeedback

/-- Identifier of a force feedback effect (`TEffectIdentifier`). -/
abbrev TEffectIdentifier := Nat

/-- Time in milliseconds (`TEffectTimeMs`). -/
abbrev TEffectTimeMs := Nat

/-- Magnitude components of a force, one per virtual axis
(`TOrderedMagnitudeComponents`). -/
abbrev TOrderedMagnitudeComponents := EAxis → Int

/-- Modelled from the spec: the bound `kMaxMagnitude` on every magnitude
component (`ForceFeedbackTypes.h` is absent); its value is the nominal maximum
of a DirectInput force. -/
def kEffectForceMagnitudeMaximum : Int := 10000

/-- Modelled from the spec: a force feedback effect (`ForceFeedbackEffect.h` is
absent): its identity, its duration (`none` when infinite), its start delay and
the magnitude components it produces at a time local to one iteration. -/
structure Effect where
  identifier : TEffectIdentifier
  duration : Option TEffectTimeMs
  startDelay : TEffectTimeMs
  ComputeOrderedMagnitudeComponents : TEffectTimeMs → TOrderedMagnitudeComponents

/-- Describes an effect held by the device (`Device::SEffectData`). -/
structure SEffectData where
  effect : Effect
  startTime : TEffectTimeMs
  numIterationsLeft : Nat

/-- A buffer of effects keyed by their identifiers (`std::map<TEffectIdentifier,
SEffectData>`), as the list of its entries. -/
abbrev TEffectMap := List (TEffectIdentifier × SEffectData)

/-- The identifiers held by a buffer of effects. -/
def EffectKeys (effects : TEffectMap) : List TEffectIdentifier :=
  effects.map Prod.fst

/-- Whether a buffer of effects holds the identifier (`std::map::contains`). -/
def EffectContains (effects : TEffectMap) (id : TEffectIdentifier) : Bool :=
  decide (id ∈ EffectKeys effects)

/-- The entry a buffer of effects holds for the identifier (`std::map::find`). -/
def EffectFind (effects : TEffectMap) (id : TEffectIdentifier) : Option SEffectData :=
  match effects with
  | [] => none
  | (key, data) :: rest => if key = id then some data else EffectFind rest id

/-- The buffer of effects without the identifier (`std::map::erase`). -/
def EffectErase (effects : TEffectMap) (id : TEffectIdentifier) : TEffectMap :=
  effects.filter (fun entry => !decide (entry.1 = id))

/-- The buffer of effects with the entry of the identifier modified in place. -/
def EffectModify (effects : TEffectMap) (id : TEffectIdentifier)
    (f : SEffectData → SEffectData) : TEffectMap :=
  effects.map (fun entry => if entry.1 = id then (entry.1, f entry.2) else entry)

/-- The entry of an effect with its parameters replaced by those of `effect`;
the start timestamp and the iteration counter are kept. -/
def UpdateEffect (effect : Effect) (data : SEffectData) : SEffectData :=
  { data with effect := effect }

/-- The entry of an effect restarted at `startTime` with `numIterations`
iterations to play. -/
def RestartEffect (startTime : TEffectTimeMs) (numIterations : Nat) (data : SEffectData) :
    SEffectData :=
  { data with startTime := startTime, numIterationsLeft := numIterations }

/-- The force feedback device (`ForceFeedback::Device`): the effects that are
ready, the effects that are playing, the muted and paused states and the two
timestamps. The mutex is not represented: every method runs under its lock. -/
structure Device where
  readyEffects : TEffectMap
  playingEffects : TEffectMap
  stateEffectsAreMuted : Bool
  stateEffectsArePaused : Bool
  timestampBase : TEffectTimeMs
  timestampRelativeLastPlay : TEffectTimeMs

namespace Device

/-- Maximum number of effects that can be held in a device buffer, whether they
are playing or not (`Device::kEffectMaxCount`). -/
def kEffectMaxCount : Nat := 256

/-- Modelled from the spec: the device made by `Device(timestampBase)`
(`ForceFeedbackDevice.cpp` is absent): no effects, neither muted nor paused. -/
def CreateDevice (timestampBase : TEffectTimeMs) : Device :=
  { readyEffects := [], playingEffects := [], stateEffectsAreMuted := false,
    stateEffectsArePaused := false, timestampBase := timestampBase,
    timestampRelativeLastPlay := 0 }

/-- The method `Device::Clear`. -/
def Clear (d : Device) : Device :=
  { d with readyEffects := [], playingEffects := [], stateEffectsAreMuted := false,
           stateEffectsArePaused := false }

/-- The method `Device::GetMutedState`. -/
def GetMutedState (d : Device) : Bool := d.stateEffectsAreMuted

/-- The method `Device::GetPauseState`. -/
def GetPauseState (d : Device) : Bool := d.stateEffectsArePaused

/-- The method `Device::IsEffectOnDevice`. -/
def IsEffectOnDevice (d : Device) (id : TEffectIdentifier) : Bool :=
  EffectContains d.readyEffects id || EffectContains d.playingEffects id

/-- The method `Device::SetMutedState`. -/
def SetMutedState (d : Device) (muted : Bool) : Device :=
  { d with stateEffectsAreMuted := muted }

/-- The method `Device::SetPauseState`. -/
def SetPauseState (d : Device) (paused : Bool) : Device :=
  { d with stateEffectsArePaused := paused }

/-- Number of effects held by the device, ready and playing together. -/
def EffectCount (d : Device) : Nat :=
  d.readyEffects.length + d.playingEffects.length

/-- Modelled from the spec: `Device::IsEffectPlaying` of
`ForceFeedbackDevice.cpp`, which is absent. -/
def IsEffectPlaying (d : Device) (id : TEffectIdentifier) : Bool :=
  EffectContains d.playingEffects id

/-- Modelled from the spec: `Device::AddOrUpdateEffect` of
`ForceFeedbackDevice.cpp`, which is absent: an effect that is playing has its
parameters updated in place, without resetting its start timestamp or its
iteration counter; an effect that is ready has its parameters replaced; a new
effect is inserted into the ready effects, which fails if the capacity would be
exceeded. -/
def AddOrUpdateEffect (d : Device) (effect : Effect) : Bool × Device :=
  let id := effect.identifier
  if EffectContains d.playingEffects id then
    (true, { d with playingEffects := EffectModify d.playingEffects id (UpdateEffect effect) })
  else if EffectContains d.readyEffects id then
    (true, { d with readyEffects := EffectModify d.readyEffects id (UpdateEffect effect) })
  else if d.EffectCount ≥ kEffectMaxCount then (false, d)
  else (true, { d with readyEffects := d.readyEffects ++ [(id, ⟨effect, 0, 0⟩)] })

/-- Modelled from the spec: `Device::StartEffect` of `ForceFeedbackDevice.cpp`,
which is absent: requires at least one iteration and an effect on the device;
the effect leaves the ready effects and plays from the given timestamp, or from
the current relative time `now`, with the given number of iterations; an effect
already playing is restarted. -/
def StartEffect (d : Device) (id : TEffectIdentifier) (numIterations : Nat)
    (timestamp : Option TEffectTimeMs) (now : TEffectTimeMs) : Bool × Device :=
  let restart := RestartEffect (timestamp.getD now) numIterations
  if numIterations = 0 then (false, d)
  else
    match EffectFind d.readyEffects id with
    | some data =>
      let ready := EffectErase d.readyEffects id
      let playing := d.playingEffects ++ [(id, restart data)]
      (true, { d with readyEffects := ready, playingEffects := playing })
    | none =>
      if EffectContains d.playingEffects id then
        (true, { d with playingEffects := EffectModify d.playingEffects id restart })
      else (false, d)

/-- Modelled from the spec: `Device::StopAllEffects` of
`ForceFeedbackDevice.cpp`, which is absent: every playing effect moves back to
the ready effects. -/
def StopAllEffects (d : Device) : Device :=
  { d with readyEffects := d.readyEffects ++ d.playingEffects, playingEffects := [] }

/-- Modelled from the spec: `Device::StopEffect` of `ForceFeedbackDevice.cpp`,
which is absent: a playing effect moves to the ready effects; fails if the
effect is not playing. -/
def StopEffect (d : Device) (id : TEffectIdentifier) : Bool × Device :=
  match EffectFind d.playingEffects id with
  | some data =>
    (true, { d with readyEffects := d.readyEffects ++ [(id, data)],
                    playingEffects := EffectErase d.playingEffects id })
  | none => (false, d)

/-- Modelled from the spec: `Device::RemoveEffect` of
`ForceFeedbackDevice.cpp`, which is absent: the effect is removed from
whichever set contains it; fails if it is on neither. -/
def RemoveEffect (d : Device) (id : TEffectIdentifier) : Bool × Device :=
  if EffectContains d.readyEffects id then
    (true, { d with readyEffects := EffectErase d.readyEffects id })
  else if EffectContains d.playingEffects id then
    (true, { d with playingEffects := EffectErase d.playingEffects id })
  else (false, d)

/-- Outcome of playing one effect at a point in time. -/
inductive EPlayed where
  | Finished (data : SEffectData)
  | Playing (data : SEffectData) (magnitude : TOrderedMagnitudeComponents)

/-- Modelled from the spec: playback of one playing effect at the relative time
`t` (`ForceFeedbackDevice.cpp` is absent). The local time is the time since the
start of the iteration less the start delay, and not below 0. An effect of
finite duration whose local time has reached the duration is complete: its
iteration counter is decremented and, when it reaches 0, the effect is
finished; otherwise the next iteration starts where this one ended and the
effect is sampled within it. -/
def PlayEffect (t : TEffectTimeMs) (data : SEffectData) : EPlayed :=
  let localTime := t - data.startTime - data.effect.startDelay
  match data.effect.duration with
  | none => .Playing data (data.effect.ComputeOrderedMagnitudeComponents localTime)
  | some duration =>
    if localTime ≥ duration then
      if data.numIterationsLeft - 1 = 0 then
        .Finished { data with numIterationsLeft := 0 }
      else
        .Playing
          { data with startTime := data.startTime + data.effect.startDelay + duration,
                      numIterationsLeft := data.numIterationsLeft - 1 }
          (data.effect.ComputeOrderedMagnitudeComponents (localTime - duration))
    else .Playing data (data.effect.ComputeOrderedMagnitudeComponents localTime)

/-- Result of playing the playing effects: the effects that keep playing, the
effects that have finished and the sum of the magnitude components. -/
structure SPlayback where
  playing : TEffectMap
  finished : TEffectMap
  magnitude : TOrderedMagnitudeComponents

/-- Modelled from the spec: the loop of `Device::PlayEffects` over the playing
effects (`ForceFeedbackDevice.cpp` is absent). -/
def PlayEntries (t : TEffectTimeMs) : TEffectMap → SPlayback
  | [] => { playing := [], finished := [], magnitude := fun _ => 0 }
  | (id, data) :: rest =>
    let played := PlayEntries t rest
    match PlayEffect t data with
    | .Finished data1 => { played with finished := (id, data1) :: played.finished }
    | .Playing data1 magnitude =>
      { played with playing := (id, data1) :: played.playing,
                    magnitude := fun axis => magnitude axis + played.magnitude axis }

/-- Clamps a magnitude component to the range of forces. -/
def ClampMagnitude (value : Int) : Int :=
  if value > kEffectForceMagnitudeMaximum then kEffectForceMagnitudeMaximum
  else if value < -kEffectForceMagnitudeMaximum then -kEffectForceMagnitudeMaximum
  else value

/-- Modelled from the spec: `Device::PlayEffects` of `ForceFeedbackDevice.cpp`,
which is absent. `ForceFeedbackDevice.h` says of the paused state that no
effects produce any output and time stops, and that the effects do not play
and their clocks do not advance towards their duration: while the device is
paused a call plays no effect, returns the zero vector and leaves the device
as it is. Otherwise the playback time is the given timestamp, or the current
relative time `now`; it is cached as the timestamp of the last playback unless
it is older than the cached one; every playing effect is played at the
playback time and the finished ones move to the ready effects; the result is
the zero vector when the device is muted, and otherwise the clamped sum of the
magnitude components. -/
def PlayEffects (d : Device) (timestamp : Option TEffectTimeMs) (now : TEffectTimeMs) :
    TOrderedMagnitudeComponents × Device :=
  if d.stateEffectsArePaused then (fun _ => 0, d)
  else
    let t := timestamp.getD now
    let played := PlayEntries t d.playingEffects
    let d1 : Device :=
      { d with readyEffects := d.readyEffects ++ played.finished,
               playingEffects := played.playing,
               timestampRelativeLastPlay := max d.timestampRelativeLastPlay t }
    (if d.stateEffectsAreMuted then (fun _ => 0)
     else (fun axis => ClampMagnitude (played.magnitude axis)), d1)

/-- The operations of a force feedback device, each with its arguments; `now`
is the current relative time read by the operation. -/
inductive EDeviceOperation where
  | AddOrUpdateEffect (effect : Effect)
  | Clear
  | SetMutedState (muted : Bool)
  | SetPauseState (paused : Bool)
  | StartEffect (id : TEffectIdentifier) (numIterations : Nat)
      (timestamp : Option TEffectTimeMs) (now : TEffectTimeMs)
  | StopAllEffects
  | StopEffect (id : TEffectIdentifier)
  | RemoveEffect (id : TEffectIdentifier)
  | PlayEffects (timestamp : Option TEffectTimeMs) (now : TEffectTimeMs)

/-- The device after one operation. -/
def EDeviceOperation.Apply (d : Device) : EDeviceOperation → Device
  | .AddOrUpdateEffect effect => (Device.AddOrUpdateEffect d effect).2
  | .Clear => Device.Clear d
  | .SetMutedState muted => Device.SetMutedState d muted
  | .SetPauseState paused => Device.SetPauseState d paused
  | .StartEffect id numIterations timestamp now =>
    (Device.StartEffect d id numIterations timestamp now).2
  | .StopAllEffects => Device.StopAllEffects d
  | .StopEffect id => (Device.StopEffect d id).2
  | .RemoveEffect id => (Device.RemoveEffect d id).2
  | .PlayEffects timestamp now => (Device.PlayEffects d timestamp now).2

/-- The device after a sequence of operations. -/
def ApplyOperations (d : Device) (operations : List EDeviceOperation) : Device :=
  operations.foldl EDeviceOperation.Apply d

/-- The magnitude components returned by a sequence of calls of `PlayEffects`,
each with its timestamp and the current relative time, and the device after
them. -/
def PlayEffectsAll (d : Device) :
    List (Option TEffectTimeMs × TEffectTimeMs) → List TOrderedMagnitudeComponents × Device
  | [] => ([], d)
  | (timestamp, now) :: rest =>
    let played := Device.PlayEffects d timestamp now
    let others := PlayEffectsAll played.2 rest
    (played.1 :: others.1, others.2)

/-- A device on which the effect 7, of duration 100 and constant magnitude 500
on every axis, was started at time 0 for one iteration and last played at
time 50. -/
def Example.Started : Device :=
  ApplyOperations (CreateDevice 0)
    [.AddOrUpdateEffect ⟨7, some 100, 0, fun _ _ => 500⟩, .StartEffect 7 1 (some 0) 0,
     .PlayEffects (some 50) 50]

/-- A sequence of operations that adds `count` effects with the identifiers
below `count`, each of infinite duration and zero magnitude. -/
def Example.AddEffects (count : Nat) : List EDeviceOperation :=
  (List.range count).map
    (fun id => EDeviceOperation.AddOrUpdateEffect ⟨id, none, 0, fun _ _ => 0⟩)

/-- The invariant of the device buffer: no identifier is held twice, in one set
or across the two sets, and at most `kEffectMaxCount` effects are held. -/
def BufferInvariant (d : Device) : Prop :=
  (EffectKeys d.readyEffects ++ EffectKeys d.playingEffects).Nodup ∧
    d.EffectCount ≤ kEffectMaxCount

/-- Modelled from the spec: `Device::IsDeviceOutputMuted`, which
`VirtualDirectInputDevice.cpp` calls and `ForceFeedbackDevice.h` does not
declare: whether the device is muted. -/
def IsDeviceOutputMuted (d : Device) : Bool := d.stateEffectsAreMuted

/-- Modelled from the spec: `Device::IsDeviceOutputPaused`, which
`VirtualDirectInputDevice.cpp` calls and `ForceFeedbackDevice.h` does not
declare: whether the device is paused. -/
def IsDeviceOutputPaused (d : Device) : Bool := d.stateEffectsArePaused

/-- Modelled from the spec: `Device::IsDeviceEmpty`, which
`VirtualDirectInputDevice.cpp` calls and `ForceFeedbackDevice.h` does not
declare: whether the device holds no effect, ready or playing. -/
def IsDeviceEmpty (d : Device) : Bool :=
  d.readyEffects.isEmpty && d.playingEffects.isEmpty

/-- Modelled from the spec: `Device::IsDevicePlayingAnyEffects`, which
`VirtualDirectInputDevice.cpp` calls and `ForceFeedbackDevice.h` does not
declare: whether any effect is playing. -/
def IsDevicePlayingAnyEffects (d : Device) : Bool :=
  !d.playingEffects.isEmpty

end Device

end ForceFeedback

/-! ## Queries on capabilities -/

/-- Modelled helper of `SCapabilities`, whose header `ControllerTypes.h` is
absent: the types of the axes that are present, those of the first `numAxes`
entries of `axisCapabilities`. -/
def SCapabilities.PresentAxes (capabilities : SCapabilities) : List EAxis :=
  (capabilities.axisCapabilities.take capabilities.numAxes).map SAxisCapabilities.type

/-- Modelled helper `SCapabilities::FindAxis` of the absent `ControllerTypes.h`:
the index of the axis among the axes that are present, and -1 when the axis is
not present. -/
def SCapabilities.FindAxis (capabilities : SCapabilities) (axis : EAxis) : Int :=
  if axis ∈ capabilities.PresentAxes then ((capabilities.PresentAxes.indexOf axis : Nat) : Int)
  else -1

/-- Modelled helper `SCapabilities::HasAxis` of the absent `ControllerTypes.h`. -/
def SCapabilities.HasAxis (capabilities : SCapabilities) (axis : EAxis) : Bool :=
  decide (0 ≤ capabilities.FindAxis axis)

/-- Modelled helper `SCapabilities::HasButton` of the absent
`ControllerTypes.h`: the buttons present are those with an index below
`numButtons`. -/
def SCapabilities.HasButton (capabilities : SCapabilities) (button : EButton) : Bool :=
  decide (button.val < capabilities.numButtons)

/-- Modelled helper `SCapabilities::HasPov` of the absent `ControllerTypes.h`. -/
def SCapabilities.HasPov (capabilities : SCapabilities) : Bool :=
  capabilities.hasPov

/-- Modelled helper `SCapabilities::HasElement` of the absent
`ControllerTypes.h`: whether the controller has the element; the whole
controller is always present. -/
def SCapabilities.HasElement (capabilities : SCapabilities) : SElementIdentifier → Bool
  | .Axis axis => capabilities.HasAxis axis
  | .Button button => capabilities.HasButton button
  | .Pov => capabilities.HasPov
  | .WholeController => true

/-- Modelled helper `SCapabilities::ForceFeedbackIsSupportedForAxis` of the
absent `ControllerTypes.h`: whether the axis is present and supports force
feedback. -/
def SCapabilities.ForceFeedbackIsSupportedForAxis (capabilities : SCapabilities)
    (axis : EAxis) : Bool :=
  (capabilities.axisCapabilities.take capabilities.numAxes).any
    (fun entry => decide (entry.type = axis) && entry.supportsForceFeedback)

/-! ## State change events -/

/-- Content of the value union of a state change event
(`SStateChangeEventData::value`), which holds an axis value, a button state or
a POV direction according to the type of the element. -/
abbrev TStateChangeValue := Int

/-- Modelled from the spec: the data of a state change event
(`SStateChangeEventData` of the absent `StateChangeEventBuffer.h`): the element
that changed and its new value. -/
structure SStateChangeEventData where
  element : SElementIdentifier
  value : TStateChangeValue
  deriving DecidableEq, Repr

/-- Modelled from the spec: an event of the event buffer
(`StateChangeEventBuffer::SEvent`), with its timestamp and sequence number. -/
structure SEvent where
  data : SStateChangeEventData
  timestamp : Nat
  sequence : Nat
  deriving DecidableEq, Repr

/-- Modelled from the spec: the event buffer of a virtual controller
(`StateChangeEventBuffer`): the events held, oldest first, the capacity in
events, 0 meaning that the buffer is disabled, and the overflow flag. -/
structure StateChangeEventBuffer where
  events : List SEvent
  capacity : Nat
  overflowed : Bool
  deriving DecidableEq, Repr

/-! ## Virtual controller -/

/-- Owner of the force feedback buffer of the physical controller, as seen by
one virtual controller. -/
inductive EForceFeedbackOwner where
  | Nobody
  | ThisController
  | OtherController
  deriving DecidableEq, Repr

/-- Modelled from the spec: the part of `VirtualController` used by the
virtual device (`VirtualController.h` is absent): whether its capabilities
report force feedback support, the owner of the force feedback buffer of the
physical controller, that buffer, the capabilities, the event buffer and the
event filter, which tells for each element whether its changes are buffered. -/
structure VirtualController where
  forceFeedbackIsSupported : Bool
  forceFeedbackOwner : EForceFeedbackOwner
  forceFeedbackDevice : ForceFeedback.Device
  capabilities : SCapabilities := { axisCapabilities := [], numAxes := 0, numButtons := 0,
                                    hasPov := false }
  eventBuffer : StateChangeEventBuffer := { events := [], capacity := 0, overflowed := false }
  eventFilter : SElementIdentifier → Bool := fun _ => true

namespace VirtualController

/-- Modelled from the spec: `VirtualController::ForceFeedbackIsRegistered`. -/
def ForceFeedbackIsRegistered (c : VirtualController) : Bool :=
  decide (c.forceFeedbackOwner = .ThisController)

/-- Modelled from the spec: `VirtualController::ForceFeedbackGetDevice`, which
returns the force feedback device if and only if the controller is currently
registered. -/
def ForceFeedbackGetDevice (c : VirtualController) : Option ForceFeedback.Device :=
  if c.ForceFeedbackIsRegistered then some c.forceFeedbackDevice else none

/-- Modelled from the spec: `VirtualController::ForceFeedbackRegister`, a
compare-and-swap on the owner: it succeeds when nobody, or this controller,
owns the buffer and fails when another controller does. -/
def ForceFeedbackRegister (c : VirtualController) : Bool × VirtualController :=
  match c.forceFeedbackOwner with
  | .Nobody => (true, { c with forceFeedbackOwner := .ThisController })
  | .ThisController => (true, c)
  | .OtherController => (false, c)

/-- Modelled from the spec: `VirtualController::ForceFeedbackUnregister`. -/
def ForceFeedbackUnregister (c : VirtualController) : VirtualController :=
  match c.forceFeedbackOwner with
  | .ThisController => { c with forceFeedbackOwner := .Nobody }
  | _ => c

/-- The method `VirtualController::GetCapabilities`. -/
def GetCapabilities (c : VirtualController) : SCapabilities := c.capabilities

/-- Modelled from the spec: `VirtualController::IsEventBufferEnabled`: the
event buffer is enabled when its capacity is not 0. -/
def IsEventBufferEnabled (c : VirtualController) : Bool :=
  decide (c.eventBuffer.capacity ≠ 0)

/-- Modelled from the spec: `VirtualController::GetEventBufferCount`. -/
def GetEventBufferCount (c : VirtualController) : Nat :=
  c.eventBuffer.events.length

/-- Modelled from the spec: `VirtualController::IsEventBufferOverflowed`. -/
def IsEventBufferOverflowed (c : VirtualController) : Bool :=
  c.eventBuffer.overflowed

/-- Modelled from the spec: `VirtualController::PopEventBufferOldestEvents`,
which removes the given number of oldest events. -/
def PopEventBufferOldestEvents (c : VirtualController) (numEventsToPop : Nat) :
    VirtualController :=
  { c with eventBuffer := { c.eventBuffer with events := c.eventBuffer.events.drop numEventsToPop } }

/-- Modelled from the spec: `VirtualController::EventFilterAddAllElements`. -/
def EventFilterAddAllElements (c : VirtualController) : VirtualController :=
  { c with eventFilter := fun _ => true }

/-- Modelled from the spec: `VirtualController::EventFilterRemoveElement`. -/
def EventFilterRemoveElement (c : VirtualController) (element : SElementIdentifier) :
    VirtualController :=
  { c with eventFilter := fun e => if e = element then false else c.eventFilter e }

end VirtualController

end Controller

/-! ## DirectInput types and constants -/

/-- Result codes returned by the methods of the virtual device that are
modelled here (`HRESULT`). Each constructor stands for one numeric value;
names of `dinput.h` that share a value are definitions. -/
inductive HRESULT where
  | DI_OK
  | S_FALSE
  | DI_DOWNLOADSKIPPED
  | DIERR_DEVICENOTREG
  | DIERR_GENERIC
  | DIERR_INVALIDPARAM
  | DIERR_NOTBUFFERED
  | DIERR_NOTEXCLUSIVEACQUIRED
  | DIERR_OBJECTNOTFOUND
  | DIERR_OTHERAPPHASPRIO
  | DIERR_UNSUPPORTED
  | E_POINTER
  deriving DecidableEq, Repr

/-- Result code `DI_BUFFEROVERFLOW` of `dinput.h`, which is `S_FALSE`. -/
def DI_BUFFEROVERFLOW : HRESULT := .S_FALSE

/-- Force feedback command `DISFFC_RESET` of `dinput.h`. -/
def DISFFC_RESET : Nat := 0x00000001
/-- Force feedback command `DISFFC_STOPALL` of `dinput.h`. -/
def DISFFC_STOPALL : Nat := 0x00000002
/-- Force feedback command `DISFFC_PAUSE` of `dinput.h`. -/
def DISFFC_PAUSE : Nat := 0x00000004
/-- Force feedback command `DISFFC_CONTINUE` of `dinput.h`. -/
def DISFFC_CONTINUE : Nat := 0x00000008
/-- Force feedback command `DISFFC_SETACTUATORSON` of `dinput.h`. -/
def DISFFC_SETACTUATORSON : Nat := 0x00000010
/-- Force feedback command `DISFFC_SETACTUATORSOFF` of `dinput.h`. -/
def DISFFC_SETACTUATORSOFF : Nat := 0x00000020

/-- Force feedback state flag `DIGFFS_EMPTY` of `dinput.h`. -/
def DIGFFS_EMPTY : Nat := 0x00000001
/-- Force feedback state flag `DIGFFS_STOPPED` of `dinput.h`. -/
def DIGFFS_STOPPED : Nat := 0x00000002
/-- Force feedback state flag `DIGFFS_PAUSED` of `dinput.h`. -/
def DIGFFS_PAUSED : Nat := 0x00000004
/-- Force feedback state flag `DIGFFS_ACTUATORSON` of `dinput.h`. -/
def DIGFFS_ACTUATORSON : Nat := 0x00000010
/-- Force feedback state flag `DIGFFS_ACTUATORSOFF` of `dinput.h`. -/
def DIGFFS_ACTUATORSOFF : Nat := 0x00000020
/-- Force feedback state flag `DIGFFS_POWERON` of `dinput.h`. -/
def DIGFFS_POWERON : Nat := 0x00000040

/-- Enumeration callback result `DIENUM_STOP` of `dinput.h`. -/
def DIENUM_STOP : Nat := 0
/-- Enumeration callback result `DIENUM_CONTINUE` of `dinput.h`. -/
def DIENUM_CONTINUE : Nat := 1

/-- Effect type `DIEFT_ALL` of `dinput.h`. -/
def DIEFT_ALL : Nat := 0x00000000
/-- Effect type `DIEFT_CONSTANTFORCE` of `dinput.h`. -/
def DIEFT_CONSTANTFORCE : Nat := 0x00000001
/-- Effect type `DIEFT_RAMPFORCE` of `dinput.h`. -/
def DIEFT_RAMPFORCE : Nat := 0x00000002
/-- Effect type `DIEFT_PERIODIC` of `dinput.h`. -/
def DIEFT_PERIODIC : Nat := 0x00000003
/-- Effect type `DIEFT_CUSTOMFORCE` of `dinput.h`. -/
def DIEFT_CUSTOMFORCE : Nat := 0x00000005
/-- Effect type flag `DIEFT_FFATTACK` of `dinput.h`. -/
def DIEFT_FFATTACK : Nat := 0x00000200
/-- Effect type flag `DIEFT_FFFADE` of `dinput.h`. -/
def DIEFT_FFFADE : Nat := 0x00000400

/-- The macro `DIEFT_GETTYPE` of `dinput.h`: the low byte. -/
def DIEFT_GETTYPE (n : Nat) : Nat := n &&& 0xff

/-- Effect parameter flag `DIEP_DURATION` of `dinput.h`. -/
def DIEP_DURATION : Nat := 0x00000001
/-- Effect parameter flag `DIEP_SAMPLEPERIOD` of `dinput.h`. -/
def DIEP_SAMPLEPERIOD : Nat := 0x00000002
/-- Effect parameter flag `DIEP_GAIN` of `dinput.h`. -/
def DIEP_GAIN : Nat := 0x00000004
/-- Effect parameter flag `DIEP_AXES` of `dinput.h`. -/
def DIEP_AXES : Nat := 0x00000020
/-- Effect parameter flag `DIEP_DIRECTION` of `dinput.h`. -/
def DIEP_DIRECTION : Nat := 0x00000040
/-- Effect parameter flag `DIEP_ENVELOPE` of `dinput.h`. -/
def DIEP_ENVELOPE : Nat := 0x00000080
/-- Effect parameter flag `DIEP_TYPESPECIFICPARAMS` of `dinput.h`. -/
def DIEP_TYPESPECIFICPARAMS : Nat := 0x00000100
/-- Effect parameter flag `DIEP_STARTDELAY` of `dinput.h`. -/
def DIEP_STARTDELAY : Nat := 0x00000200
/-- Effect parameter flags `DIEP_ALLPARAMS_DX5` of `dinput.h`. -/
def DIEP_ALLPARAMS_DX5 : Nat := 0x000001ff
/-- Effect parameter flags `DIEP_ALLPARAMS` of `dinput.h`. -/
def DIEP_ALLPARAMS : Nat := 0x000003ff

/-- Object type `DIDFT_ABSAXIS` of `dinput.h`. -/
def DIDFT_ABSAXIS : Nat := 0x00000002
/-- Object type `DIDFT_PSHBUTTON` of `dinput.h`. -/
def DIDFT_PSHBUTTON : Nat := 0x00000004
/-- Object type `DIDFT_POV` of `dinput.h`. -/
def DIDFT_POV : Nat := 0x00000010
/-- Object type flag `DIDFT_FFACTUATOR` of `dinput.h`. -/
def DIDFT_FFACTUATOR : Nat := 0x01000000

/-- The macro `DIDFT_MAKEINSTANCE` of `dinput.h`: the argument, truncated to 16
bits, shifted left by 8 bits. -/
def DIDFT_MAKEINSTANCE (n : Int) : Nat := (n % 65536).toNat <<< 8

/-- The macro `DIDFT_GETTYPE` of `dinput.h`: the low byte. -/
def DIDFT_GETTYPE (n : Nat) : Nat := n &&& 0xff

/-- The macro `DIDFT_GETINSTANCE` of `dinput.h`: the 16 bits above the low
byte. -/
def DIDFT_GETINSTANCE (n : Nat) : Nat := (n >>> 8) &&& 0xffff

/-- Object flag `DIDOI_FFACTUATOR` of `dinput.h`. -/
def DIDOI_FFACTUATOR : Nat := 0x00000001
/-- Object flag `DIDOI_ASPECTPOSITION` of `dinput.h`. -/
def DIDOI_ASPECTPOSITION : Nat := 0x00000100

/-- Identification method `DIPH_DEVICE` of `dinput.h`. -/
def DIPH_DEVICE : Nat := 0
/-- Identification method `DIPH_BYOFFSET` of `dinput.h`. -/
def DIPH_BYOFFSET : Nat := 1
/-- Identification method `DIPH_BYID` of `dinput.h`. -/
def DIPH_BYID : Nat := 2
/-- Identification method `DIPH_BYUSAGE` of `dinput.h`. -/
def DIPH_BYUSAGE : Nat := 3

/-- Flag `DIGDD_PEEK` of `dinput.h`. -/
def DIGDD_PEEK : Nat := 0x00000001

/-- GUIDs, compared by value. The GUIDs that the virtual device names are
constructors, `GUID_ConstantForce` being `GUID.ConstantForce` and so on; every
other GUID is `Other`. -/
inductive GUID where
  | ConstantForce | RampForce | Square | Sine | Triangle | SawtoothUp | SawtoothDown
  | Spring | Damper | Inertia | Friction | CustomForce
  | XAxis | YAxis | ZAxis | RxAxis | RyAxis | RzAxis | Slider | Button | POV | Unknown
  | Other (data : Nat)
  deriving DecidableEq, Repr

/-- The template parameter `ECharMode`: the ASCII or the Unicode version of
the interfaces. -/
inductive ECharMode where
  | A
  | W
  deriving DecidableEq, Repr

/-- Size in bytes of `DIEFFECTINFOA` and of `DIEFFECTINFOW`. -/
def SizeofEffectInfo : ECharMode → Nat
  | .A => 292
  | .W => 552

/-- Size in bytes of `DIDEVICEOBJECTINSTANCEA` and of
`DIDEVICEOBJECTINSTANCEW`. -/
def SizeofDeviceObjectInstance : ECharMode → Nat
  | .A => 316
  | .W => 576

/-- Size in bytes of `DIDEVICEOBJECTINSTANCE_DX3A` and of
`DIDEVICEOBJECTINSTANCE_DX3W`. -/
def SizeofDeviceObjectInstanceCompat : ECharMode → Nat
  | .A => 292
  | .W => 552

/-- Size in bytes of `DIDEVICEOBJECTDATA`, for DirectInput 8 in a 32-bit
build. -/
def SizeofDeviceObjectData : Nat := 20

/-- Size in bytes of `DIEFFECT_DX5` in a 32-bit build. -/
def SizeofEffectDX5 : Nat := 52

/-- Size in bytes of `DIPROPHEADER`. -/
def SizeofPropHeader : Nat := 16
/-- Size in bytes of `DIPROPDWORD`. -/
def SizeofPropDword : Nat := 20
/-- Size in bytes of `DIPROPRANGE`. -/
def SizeofPropRange : Nat := 24
/-- Size in bytes of `DIPROPSTRING`. -/
def SizeofPropString : Nat := 536
/-- Size in bytes of `DIPROPGUIDANDPATH`. -/
def SizeofPropGuidAndPath : Nat := 552

/-! ## Data format of the application -/

/-- Offset into the data packet of the application (`TOffset`). -/
abbrev TOffset := Nat

/-- The data format of the application (`DataFormat`, whose header
`DataFormat.h` is absent), as its two lookups between controller elements and
offsets. -/
structure DataFormat where
  GetOffsetForElement : Controller.SElementIdentifier → Option TOffset
  GetElementForOffset : TOffset → Option Controller.SElementIdentifier

namespace DataFormat

/-- Modelled helper `DataFormat::HasElement` of the absent `DataFormat.h`: the
elements the data format contains are those with an offset. -/
def HasElement (dataFormat : DataFormat) (element : Controller.SElementIdentifier) : Bool :=
  (dataFormat.GetOffsetForElement element).isSome

/-- Modelled constant `DataFormat::kInvalidOffsetValue` of the absent
`DataFormat.h`. -/
def kInvalidOffsetValue : TOffset := 0xffffffff

end DataFormat

/-- The static conversions of `DataFormat` from values of the virtual
controller to DirectInput data words (`DataFormat::DirectInputAxisValue`,
`DataFormat::DirectInputButtonValue`, `DataFormat::DirectInputPovValue`), which
are defined in the absent `DataFormat.h` and are taken as given. -/
structure SDirectInputValue where
  DirectInputAxisValue : Controller.TStateChangeValue → Nat
  DirectInputButtonValue : Controller.TStateChangeValue → Nat
  DirectInputPovValue : Controller.TStateChangeValue → Nat

/-- The part of `DIOBJECTDATAFORMAT` of `dinput.h` that identifies an object
of a data format specification. -/
structure DIOBJECTDATAFORMAT where
  pguid : Option GUID
  dwOfs : Nat
  dwType : Nat
  dwFlags : Nat
  deriving DecidableEq, Repr

/-- The data format specification of the application, `DIDATAFORMAT` of
`dinput.h`. -/
structure DIDATAFORMAT where
  dwSize : Nat
  dwObjSize : Nat
  dwFlags : Nat
  dwDataSize : Nat
  rgodf : List DIOBJECTDATAFORMAT
  deriving DecidableEq, Repr

/-- One buffered data item, `DIDEVICEOBJECTDATA` of `dinput.h`. -/
structure DIDEVICEOBJECTDATA where
  dwOfs : Nat
  dwData : Nat
  dwTimeStamp : Nat
  dwSequence : Nat
  uAppData : Nat
  deriving DecidableEq, Repr

/-! ## Force feedback effect objects -/

/-- The effects of the force feedback layer that the effect objects wrap. -/
inductive EUnderlyingEffect where
  | ConstantForceEffect
  | RampForceEffect
  | SquareWaveEffect
  | SineWaveEffect
  | TriangleWaveEffect
  | SawtoothUpEffect
  | SawtoothDownEffect
  deriving DecidableEq, Repr

/-- A DirectInput force feedback effect object (`VirtualDirectInputEffect`, of
which the constant force, ramp force and periodic effect objects are
subclasses): the GUID it was created for and the effect it wraps. -/
structure VirtualDirectInputEffect where
  effectGuid : GUID
  underlyingEffect : EUnderlyingEffect
  deriving DecidableEq, Repr

/-- A function that constructs an effect object for a GUID
(`TForceFeedbackEffectCreatorFunc`); the associated device is not an
argument of the model. -/
abbrev TForceFeedbackEffectCreatorFunc := GUID → VirtualDirectInputEffect

/-- The registry `kForceFeedbackEffectObjectCreators` of the functions that
construct force feedback effect objects, by GUID. -/
def kForceFeedbackEffectObjectCreators : List (GUID × TForceFeedbackEffectCreatorFunc) :=
  [(.ConstantForce, fun rguidEffect => ⟨rguidEffect, .ConstantForceEffect⟩),
   (.RampForce, fun rguidEffect => ⟨rguidEffect, .RampForceEffect⟩),
   (.Square, fun rguidEffect => ⟨rguidEffect, .SquareWaveEffect⟩),
   (.Sine, fun rguidEffect => ⟨rguidEffect, .SineWaveEffect⟩),
   (.Triangle, fun rguidEffect => ⟨rguidEffect, .TriangleWaveEffect⟩),
   (.SawtoothUp, fun rguidEffect => ⟨rguidEffect, .SawtoothUpEffect⟩),
   (.SawtoothDown, fun rguidEffect => ⟨rguidEffect, .SawtoothDownEffect⟩)]

/-- The function `ForceFeedbackEffectObjectCreator`: the creation function
registered for the GUID, if there is one. -/
def ForceFeedbackEffectObjectCreator (rguidEffect : GUID) :
    Option TForceFeedbackEffectCreatorFunc :=
  (kForceFeedbackEffectObjectCreators.find? (fun entry => decide (entry.1 = rguidEffect))).map
    Prod.snd

/-- The function `ForceFeedbackEffectCreateObject`. -/
def ForceFeedbackEffectCreateObject (rguidEffect : GUID) : Option VirtualDirectInputEffect :=
  match ForceFeedbackEffectObjectCreator rguidEffect with
  | none => none
  | some forceFeedbackObjectCreator => some (forceFeedbackObjectCreator rguidEffect)

/-- The method `VirtualDirectInputDevice::ForceFeedbackEffectCanCreateObject`. -/
def ForceFeedbackEffectCanCreateObject (rguidEffect : GUID) : Bool :=
  (ForceFeedbackEffectObjectCreator rguidEffect).isSome

/-- The function `ForceFeedbackEffectType`. -/
def ForceFeedbackEffectType (rguidEffect : GUID) : Option Nat :=
  if rguidEffect = .ConstantForce then some DIEFT_CONSTANTFORCE
  else if rguidEffect = .RampForce then some DIEFT_RAMPFORCE
  else if rguidEffect = .Square then some DIEFT_PERIODIC
  else if rguidEffect = .Sine then some DIEFT_PERIODIC
  else if rguidEffect = .Triangle then some DIEFT_PERIODIC
  else if rguidEffect = .SawtoothUp then some DIEFT_PERIODIC
  else if rguidEffect = .SawtoothDown then some DIEFT_PERIODIC
  else if rguidEffect = .CustomForce then some DIEFT_CUSTOMFORCE
  else none

/-- Information about a force feedback effect, `DIEFFECTINFO` of `dinput.h`;
the friendly name is not represented. -/
structure DIEFFECTINFO where
  dwSize : Nat
  guid : GUID
  dwEffType : Nat
  dwStaticParams : Nat
  dwDynamicParams : Nat
  deriving DecidableEq, Repr

/-- The parameters that all effects support
(`kEffectSupportedParameters`). -/
def kEffectSupportedParameters : Nat :=
  DIEP_AXES ||| DIEP_DIRECTION ||| DIEP_DURATION ||| DIEP_ENVELOPE ||| DIEP_GAIN |||
    DIEP_SAMPLEPERIOD ||| DIEP_STARTDELAY ||| DIEP_TYPESPECIFICPARAMS

/-- The function `FillForceFeedbackEffectInfo`. -/
def FillForceFeedbackEffectInfo (effectInfo : DIEFFECTINFO) : DIEFFECTINFO :=
  { effectInfo with
    dwEffType := effectInfo.dwEffType ||| (DIEFT_FFATTACK ||| DIEFT_FFFADE)
    dwStaticParams := kEffectSupportedParameters
    dwDynamicParams := kEffectSupportedParameters }

/-- The parameters of an effect, `DIEFFECT` of `dinput.h`: the virtual device
reads the size member only and hands the structure to the effect object. -/
structure DIEFFECT where
  dwSize : Nat
  deriving DecidableEq, Repr

/-! ## Objects and properties of the virtual device -/

/-- HID usage data (`SHidUsageData`). -/
structure SHidUsageData where
  usagePage : Nat
  usage : Nat
  deriving DecidableEq, Repr

/-- Information about an object of the device, `DIDEVICEOBJECTINSTANCE` of
`dinput.h`; the name and the HID usage members are not represented. -/
structure DIDEVICEOBJECTINSTANCE where
  dwSize : Nat
  guidType : GUID
  dwOfs : Nat
  dwType : Nat
  dwFlags : Nat
  dwFFMaxForce : Nat
  dwFFForceResolution : Nat
  deriving DecidableEq, Repr

/-- The properties of `dinput.h`, for DirectInput 8; the virtual device tells
them apart by the address of the GUID. -/
inductive EProperty where
  | DIPROP_APPDATA
  | DIPROP_AUTOCENTER
  | DIPROP_AXISMODE
  | DIPROP_BUFFERSIZE
  | DIPROP_CALIBRATION
  | DIPROP_CALIBRATIONMODE
  | DIPROP_CPOINTS
  | DIPROP_DEADZONE
  | DIPROP_FFGAIN
  | DIPROP_FFLOAD
  | DIPROP_GETPORTDISPLAYNAME
  | DIPROP_GRANULARITY
  | DIPROP_GUIDANDPATH
  | DIPROP_INSTANCENAME
  | DIPROP_JOYSTICKID
  | DIPROP_KEYNAME
  | DIPROP_LOGICALRANGE
  | DIPROP_PHYSICALRANGE
  | DIPROP_PRODUCTNAME
  | DIPROP_RANGE
  | DIPROP_SATURATION
  | DIPROP_SCANCODE
  | DIPROP_TYPENAME
  | DIPROP_USERNAME
  | DIPROP_VIDPID
  | Other (data : Nat)
  deriving DecidableEq, Repr

/-- The header of a property, `DIPROPHEADER` of `dinput.h`. -/
structure DIPROPHEADER where
  dwSize : Nat
  dwHeaderSize : Nat
  dwObj : Nat
  dwHow : Nat
  deriving DecidableEq, Repr

/-- The function `AxisTypeGuid`. -/
def AxisTypeGuid : Controller.EAxis → GUID
  | .X => .XAxis
  | .Y => .YAxis
  | .Z => .ZAxis
  | .RotX => .RxAxis
  | .RotY => .RyAxis
  | .RotZ => .RzAxis
  | .Slider => .Slider
  | .Dial => .Slider

/-- The function `IsPropertyHeaderValid`. The pointer to the header is `none`
when it is null. -/
def IsPropertyHeaderValid (rguidProp : EProperty) (pdiph : Option DIPROPHEADER) : Bool :=
  match pdiph with
  | none => false
  | some header =>
    if SizeofPropHeader ≠ header.dwHeaderSize then false
    else if DIPH_DEVICE = header.dwHow ∧ 0 ≠ header.dwObj then false
    else
      match rguidProp with
      | .DIPROP_CALIBRATIONMODE | .DIPROP_DEADZONE | .DIPROP_GRANULARITY
      | .DIPROP_SATURATION =>
        if SizeofPropDword ≠ header.dwSize then false else true
      | .DIPROP_AUTOCENTER | .DIPROP_AXISMODE | .DIPROP_BUFFERSIZE | .DIPROP_FFGAIN
      | .DIPROP_FFLOAD | .DIPROP_JOYSTICKID | .DIPROP_VIDPID =>
        if DIPH_DEVICE ≠ header.dwHow then false
        else if SizeofPropDword ≠ header.dwSize then false
        else true
      | .DIPROP_RANGE | .DIPROP_LOGICALRANGE | .DIPROP_PHYSICALRANGE =>
        if SizeofPropRange ≠ header.dwSize then false else true
      | .DIPROP_GETPORTDISPLAYNAME | .DIPROP_INSTANCENAME | .DIPROP_PRODUCTNAME
      | .DIPROP_USERNAME =>
        if DIPH_DEVICE ≠ header.dwHow then false
        else if SizeofPropString ≠ header.dwSize then false
        else true
      | .DIPROP_GUIDANDPATH =>
        if DIPH_DEVICE ≠ header.dwHow then false
        else if SizeofPropGuidAndPath ≠ header.dwSize then false
        else true
      | _ => true

/-- Modelled helper: the offsets of the members of `Controller::SState`, whose
header `ControllerTypes.h` is absent, as the comment of
`NativeOffsetForElement` describes the native data packet: the axes first,
four bytes each, then one byte per button, then the POV. -/
def kOffsetOfButton : TOffset := 4 * Controller.EAxis.all.length

/-- The function `NativeOffsetForElement`. -/
def NativeOffsetForElement : Controller.SElementIdentifier → TOffset
  | .Axis axis => 0 + 4 * axis.toNat
  | .Button button => kOffsetOfButton + button.val
  | .Pov => kOffsetOfButton + Controller.kButtonCount
  | .WholeController => DataFormat.kInvalidOffsetValue

/-- The function `GetObjectId`. -/
def GetObjectId (controllerCapabilities : Controller.SCapabilities) :
    Controller.SElementIdentifier → Nat
  | .Axis axis => DIDFT_ABSAXIS ||| DIDFT_MAKEINSTANCE (controllerCapabilities.FindAxis axis)
  | .Button button => DIDFT_PSHBUTTON ||| DIDFT_MAKEINSTANCE (button.val : Int)
  | .Pov => DIDFT_POV ||| DIDFT_MAKEINSTANCE 0
  | .WholeController => 0

/-- The function `FillObjectInstanceInfo`, for the members that are
represented. The structure has the members after `dwFlags` when its size
exceeds that of the compatibility structure. -/
def FillObjectInstanceInfo (charMode : ECharMode)
    (controllerCapabilities : Controller.SCapabilities)
    (controllerElement : Controller.SElementIdentifier) (offset : TOffset)
    (objectInfo : DIDEVICEOBJECTINSTANCE) : DIDEVICEOBJECTINSTANCE :=
  let hasExtraMembers : Bool := decide (objectInfo.dwSize > SizeofDeviceObjectInstanceCompat charMode)
  let dwFFMaxForce := if hasExtraMembers then 0 else objectInfo.dwFFMaxForce
  let dwFFForceResolution := if hasExtraMembers then 0 else objectInfo.dwFFForceResolution
  let dwType := GetObjectId controllerCapabilities controllerElement
  match controllerElement with
  | .Axis axis =>
    if controllerCapabilities.ForceFeedbackIsSupportedForAxis axis then
      { dwSize := objectInfo.dwSize, guidType := AxisTypeGuid axis, dwOfs := offset,
        dwType := dwType ||| DIDFT_FFACTUATOR,
        dwFlags := DIDOI_ASPECTPOSITION ||| DIDOI_FFACTUATOR,
        dwFFMaxForce := if hasExtraMembers then 10 else dwFFMaxForce,
        dwFFForceResolution :=
          if hasExtraMembers then
            (Controller.ForceFeedback.kEffectForceMagnitudeMaximum.toNat : Nat)
          else dwFFForceResolution }
    else
      { dwSize := objectInfo.dwSize, guidType := AxisTypeGuid axis, dwOfs := offset,
        dwType := dwType, dwFlags := DIDOI_ASPECTPOSITION, dwFFMaxForce := dwFFMaxForce,
        dwFFForceResolution := dwFFForceResolution }
  | .Button _ =>
    { dwSize := objectInfo.dwSize, guidType := .Button, dwOfs := offset, dwType := dwType,
      dwFlags := 0, dwFFMaxForce := dwFFMaxForce, dwFFForceResolution := dwFFForceResolution }
  | .Pov =>
    { dwSize := objectInfo.dwSize, guidType := .POV, dwOfs := offset, dwType := dwType,
      dwFlags := 0, dwFFMaxForce := dwFFMaxForce, dwFFForceResolution := dwFFForceResolution }
  | .WholeController =>
    { dwSize := objectInfo.dwSize, guidType := objectInfo.guidType, dwOfs := offset,
      dwType := dwType, dwFlags := objectInfo.dwFlags, dwFFMaxForce := dwFFMaxForce,
      dwFFForceResolution := dwFFForceResolution }

/-! ## Virtual DirectInput device -/

/-- Cooperative level of a virtual device (`ECooperativeLevel`). -/
inductive ECooperativeLevel where
  | Shared
  | Exclusive
  deriving DecidableEq, Repr

/-- The state of `VirtualDirectInputDevice` that the modelled methods read and
write: the virtual controller, the cooperative level, the data format of the
application, a null pointer until it is set, the registry of the effect
objects created for the device and the character mode, which is the template
parameter of the class. Log output is not represented. -/
structure VirtualDirectInputDevice where
  controller : Controller.VirtualController
  cooperativeLevel : ECooperativeLevel
  dataFormat : Option DataFormat
  effectRegistry : List VirtualDirectInputEffect := []
  charMode : ECharMode := .W

namespace VirtualDirectInputDevice

open Controller

/-- The method `VirtualDirectInputDevice::IsApplicationDataFormatSet`. -/
def IsApplicationDataFormatSet (v : VirtualDirectInputDevice) : Bool :=
  v.dataFormat.isSome

/-- The virtual device with the force feedback device of its controller
replaced: the effect of a call made through the pointer returned by
`ForceFeedbackGetDevice`. -/
def WithForceFeedbackDevice (v : VirtualDirectInputDevice) (d : ForceFeedback.Device) :
    VirtualDirectInputDevice :=
  { v with controller := { v.controller with forceFeedbackDevice := d } }

/-- The method `VirtualDirectInputDevice::Acquire`. -/
def Acquire (v : VirtualDirectInputDevice) : HRESULT × VirtualDirectInputDevice :=
  if v.IsApplicationDataFormatSet = false then (.DIERR_INVALIDPARAM, v)
  else
    match v.cooperativeLevel with
    | .Exclusive =>
      if v.controller.ForceFeedbackIsRegistered = true then (.S_FALSE, v)
      else
        let registered := v.controller.ForceFeedbackRegister
        if registered.1 = true then (.DI_OK, { v with controller := registered.2 })
        else Prod.mk HRESULT.DIERR_OTHERAPPHASPRIO { v with controller := registered.2 }
    | _ => (.DI_OK, v)

/-- The method `VirtualDirectInputDevice::AutoAcquireAndGetForceFeedbackDevice`. -/
def AutoAcquireAndGetForceFeedbackDevice (v : VirtualDirectInputDevice) :
    Option ForceFeedback.Device × VirtualDirectInputDevice :=
  match v.controller.ForceFeedbackGetDevice with
  | some forceFeedbackDevice => (some forceFeedbackDevice, v)
  | none =>
    let acquired := (Acquire v).2
    (acquired.controller.ForceFeedbackGetDevice, acquired)

/-- The method `VirtualDirectInputDevice::SendForceFeedbackCommand`. -/
def SendForceFeedbackCommand (v : VirtualDirectInputDevice) (dwFlags : Nat) :
    HRESULT × VirtualDirectInputDevice :=
  if v.controller.forceFeedbackIsSupported = false then (.DIERR_UNSUPPORTED, v)
  else
    match AutoAcquireAndGetForceFeedbackDevice v with
    | (none, v1) => (.DIERR_NOTEXCLUSIVEACQUIRED, v1)
    | (some forceFeedbackDevice, v1) =>
      if dwFlags = DISFFC_CONTINUE then
        (.DI_OK, v1.WithForceFeedbackDevice (forceFeedbackDevice.SetPauseState false))
      else if dwFlags = DISFFC_PAUSE then
        (.DI_OK, v1.WithForceFeedbackDevice (forceFeedbackDevice.SetPauseState true))
      else if dwFlags = DISFFC_RESET then
        (.DI_OK, v1.WithForceFeedbackDevice forceFeedbackDevice.Clear)
      else if dwFlags = DISFFC_SETACTUATORSOFF then
        (.DI_OK, v1.WithForceFeedbackDevice (forceFeedbackDevice.SetMutedState true))
      else if dwFlags = DISFFC_SETACTUATORSON then
        (.DI_OK, v1.WithForceFeedbackDevice (forceFeedbackDevice.SetMutedState false))
      else if dwFlags = DISFFC_STOPALL then
        (.DI_OK, v1.WithForceFeedbackDevice forceFeedbackDevice.StopAllEffects)
      else (.DIERR_UNSUPPORTED, v1)

/-- The state word computed by `GetForceFeedbackState` for a force feedback
device; the flags are distinct bits, so that the bitwise or is their sum. -/
def ForceFeedbackDeviceState (forceFeedbackDevice : ForceFeedback.Device) : Nat :=
  let deviceIsEmpty := forceFeedbackDevice.IsDeviceEmpty
  let deviceIsPaused := forceFeedbackDevice.IsDeviceOutputPaused
  (DIGFFS_POWERON |||
    (if forceFeedbackDevice.IsDeviceOutputMuted = true then DIGFFS_ACTUATORSOFF
     else DIGFFS_ACTUATORSON)) |||
    (if deviceIsEmpty = true then
      DIGFFS_EMPTY ||| (if deviceIsPaused = true then DIGFFS_PAUSED else 0)
     else if deviceIsPaused = true then DIGFFS_PAUSED
     else if forceFeedbackDevice.IsDevicePlayingAnyEffects = false then DIGFFS_STOPPED
     else 0)

/-- The method `VirtualDirectInputDevice::GetForceFeedbackState`. The pointer
`pdwOut` is `none` when it is null and otherwise holds the word it points to;
the second component of the result is that word after the call. -/
def GetForceFeedbackState (v : VirtualDirectInputDevice) (pdwOut : Option Nat) :
    HRESULT × Option Nat × VirtualDirectInputDevice :=
  if v.controller.forceFeedbackIsSupported = false then (.DIERR_UNSUPPORTED, pdwOut, v)
  else
    match pdwOut with
    | none => (.DIERR_INVALIDPARAM, pdwOut, v)
    | some _ =>
      match AutoAcquireAndGetForceFeedbackDevice v with
      | (none, v1) => (.DIERR_NOTEXCLUSIVEACQUIRED, pdwOut, v1)
      | (some forceFeedbackDevice, v1) =>
        (.DI_OK, some (ForceFeedbackDeviceState forceFeedbackDevice), v1)

/-- The method `VirtualDirectInputDevice::GetProperty` for the property
`DIPROP_FFLOAD`. The outcomes of `IsPropertyHeaderValid` and of
`IdentifyElement`, which do not read the force feedback state, are arguments;
`dwData` is the data word of the property structure and the second component
of the result is that word after the call. -/
def GetPropertyFFLoad (v : VirtualDirectInputDevice) (isPropertyHeaderValid : Bool)
    (maybeElement : Option SElementIdentifier) (dwData : Nat) :
    HRESULT × Nat × VirtualDirectInputDevice :=
  if isPropertyHeaderValid = false then (.DIERR_INVALIDPARAM, dwData, v)
  else
    match maybeElement with
    | none => (.DIERR_OBJECTNOTFOUND, dwData, v)
    | some _ =>
      match AutoAcquireAndGetForceFeedbackDevice v with
      | (none, v1) => (.DIERR_NOTEXCLUSIVEACQUIRED, dwData, v1)
      | (some forceFeedbackDevice, v1) =>
        (.DI_OK, (if forceFeedbackDevice.IsDeviceEmpty = true then 0 else 1), v1)

/-- Whether the automatic acquisition made by a force feedback entry point
registers the controller for force feedback: the application data format is
set, the cooperative level is exclusive and nobody owns the force feedback
buffer. -/
def AutoAcquireRegisters (v : VirtualDirectInputDevice) : Bool :=
  v.IsApplicationDataFormatSet && decide (v.cooperativeLevel = .Exclusive) &&
    decide (v.controller.forceFeedbackOwner = .Nobody)

/-! ## Virtual DirectInput device: effects -/

/-- Modelled helper: the registration of a new effect object with the device,
which the constructor of the effect object makes in the absent
`VirtualDirectInputEffect.cpp`; its destructor removes the object again. -/
def ForceFeedbackEffectRegister (v : VirtualDirectInputDevice)
    (effect : VirtualDirectInputEffect) : VirtualDirectInputDevice :=
  { v with effectRegistry := v.effectRegistry ++ [effect] }

/-- The method `VirtualDirectInputDevice::CreateEffect`. The method
`SetParametersInternal` of the new effect object, which is defined in the
absent `VirtualDirectInputEffect.cpp`, is the argument of that name: it is
given the effect object, the parameters, the parameter flags and the device
and returns its result with the effect object and the device as it leaves
them. `ppdeff` is the content of the output pointer, and the second component
of the result is that content after the call. The argument `punkOuter` only
affects the log output. -/
def CreateEffect (v : VirtualDirectInputDevice)
    (SetParametersInternal : VirtualDirectInputEffect → DIEFFECT → Nat →
      VirtualDirectInputDevice → HRESULT × VirtualDirectInputEffect × VirtualDirectInputDevice)
    (rguid : GUID) (lpeff : Option DIEFFECT) (ppdeff : Option VirtualDirectInputEffect) :
    HRESULT × Option VirtualDirectInputEffect × VirtualDirectInputDevice :=
  if v.controller.forceFeedbackIsSupported = false then (.DIERR_UNSUPPORTED, ppdeff, v)
  else
    match ForceFeedbackEffectCreateObject rguid with
    | none => (.DIERR_DEVICENOTREG, ppdeff, v)
    | some newEffect =>
      match lpeff with
      | none => (.DI_OK, some newEffect, v.ForceFeedbackEffectRegister newEffect)
      | some parameters =>
        let parameterFlags :=
          if SizeofEffectDX5 = parameters.dwSize then DIEP_ALLPARAMS_DX5 else DIEP_ALLPARAMS
        let result := SetParametersInternal newEffect parameters parameterFlags v
        if result.1 = .DI_OK ∨ result.1 = .DI_DOWNLOADSKIPPED ∨
            result.1 = .DIERR_NOTEXCLUSIVEACQUIRED then
          (.DI_OK, some result.2.1, result.2.2.ForceFeedbackEffectRegister result.2.1)
        else (.DIERR_INVALIDPARAM, ppdeff, result.2.2)

/-- The loop of `EnumCreatedEffectObjects` over the registry of effect
objects: the result of the method and the effect objects passed to the
callback, in order. The callback is taken as a function of its argument. -/
def EnumCreatedEffects (lpCallback : VirtualDirectInputEffect → Nat) :
    List VirtualDirectInputEffect → HRESULT × List VirtualDirectInputEffect
  | [] => (.DI_OK, [])
  | currentEffect :: rest =>
    if lpCallback currentEffect = DIENUM_CONTINUE then
      ((EnumCreatedEffects lpCallback rest).1,
        currentEffect :: (EnumCreatedEffects lpCallback rest).2)
    else if lpCallback currentEffect = DIENUM_STOP then (.DI_OK, [currentEffect])
    else (.DIERR_INVALIDPARAM, [currentEffect])

/-- The method `VirtualDirectInputDevice::EnumCreatedEffectObjects`: its
result and the effect objects with which the callback is invoked, in order.
The callback pointer is `none` when it is null. -/
def EnumCreatedEffectObjects (v : VirtualDirectInputDevice)
    (lpCallback : Option (VirtualDirectInputEffect → Nat)) (fl : Nat) :
    HRESULT × List VirtualDirectInputEffect :=
  match lpCallback with
  | none => (.DIERR_INVALIDPARAM, [])
  | some callback =>
    if 0 ≠ fl then (.DIERR_INVALIDPARAM, [])
    else if v.controller.forceFeedbackIsSupported = false then (.DI_OK, [])
    else EnumCreatedEffects callback v.effectRegistry

/-- The loop of `EnumEffects` over one array `kEffectGuids`: the effect
descriptors with which the callback is invoked, in order, and the result with
which the method returns from inside the loop, if it does. The call of
`value()` on the effect type cannot fail for a GUID that has a creator. -/
def EnumEffectGuids (charMode : ECharMode) (lpCallback : DIEFFECTINFO → Nat) :
    List GUID → List DIEFFECTINFO × Option HRESULT
  | [] => ([], none)
  | effectGuid :: rest =>
    if ForceFeedbackEffectCanCreateObject effectGuid = true then
      let effectDescriptor := FillForceFeedbackEffectInfo
        { dwSize := SizeofEffectInfo charMode, guid := effectGuid,
          dwEffType := (ForceFeedbackEffectType effectGuid).getD 0,
          dwStaticParams := 0, dwDynamicParams := 0 }
      if lpCallback effectDescriptor = DIENUM_CONTINUE then
        (effectDescriptor :: (EnumEffectGuids charMode lpCallback rest).1,
          (EnumEffectGuids charMode lpCallback rest).2)
      else if lpCallback effectDescriptor = DIENUM_STOP then
        ([effectDescriptor], some .DI_OK)
      else ([effectDescriptor], some .DIERR_INVALIDPARAM)
    else EnumEffectGuids charMode lpCallback rest

/-- The blocks of `EnumEffects`, one per kind of effect, each with the flag
that tells whether it is run and its array `kEffectGuids`: the effect
descriptors with which the callback is invoked and the result of the
method. -/
def EnumEffectBlocks (charMode : ECharMode) (lpCallback : DIEFFECTINFO → Nat) :
    List (Bool × List GUID) → List DIEFFECTINFO × HRESULT
  | [] => ([], .DI_OK)
  | (willEnumerate, kEffectGuids) :: rest =>
    if willEnumerate = true then
      match EnumEffectGuids charMode lpCallback kEffectGuids with
      | (presented, some result) => (presented, result)
      | (presented, none) =>
        (presented ++ (EnumEffectBlocks charMode lpCallback rest).1,
          (EnumEffectBlocks charMode lpCallback rest).2)
    else EnumEffectBlocks charMode lpCallback rest

/-- The method `VirtualDirectInputDevice::EnumEffects`: its result and the
effect descriptors with which the callback is invoked, in order. The callback
pointer is `none` when it is null; the callback is taken as a function of
its argument. -/
def EnumEffects (v : VirtualDirectInputDevice) (lpCallback : Option (DIEFFECTINFO → Nat))
    (dwEffType : Nat) : HRESULT × List DIEFFECTINFO :=
  match lpCallback with
  | none => (.DIERR_INVALIDPARAM, [])
  | some callback =>
    if v.controller.forceFeedbackIsSupported = false then (.DI_OK, [])
    else
      let willEnumerateConstantForce : Bool :=
        decide (DIEFT_ALL = dwEffType ∨ DIEFT_CONSTANTFORCE = DIEFT_GETTYPE dwEffType)
      let willEnumerateRampForce : Bool :=
        decide (DIEFT_ALL = dwEffType ∨ DIEFT_RAMPFORCE = DIEFT_GETTYPE dwEffType)
      let willEnumeratePeriodic : Bool :=
        decide (DIEFT_ALL = dwEffType ∨ DIEFT_PERIODIC = DIEFT_GETTYPE dwEffType)
      let willEnumerateCustomForce : Bool :=
        decide (DIEFT_ALL = dwEffType ∨ DIEFT_CUSTOMFORCE = DIEFT_GETTYPE dwEffType)
      let enumerated := EnumEffectBlocks v.charMode callback
        [(willEnumerateConstantForce, [.ConstantForce]),
         (willEnumerateRampForce, [.RampForce]),
         (willEnumeratePeriodic, [.Square, .Sine, .Triangle, .SawtoothUp, .SawtoothDown]),
         (willEnumerateCustomForce, [.CustomForce])]
      (enumerated.2, enumerated.1)

/-- The method `VirtualDirectInputDevice::GetEffectInfo`. The pointer `pdei` is
`none` when it is null and otherwise holds the structure it points to; the
second component of the result is that structure after the call. -/
def GetEffectInfo (v : VirtualDirectInputDevice) (pdei : Option DIEFFECTINFO) (rguid : GUID) :
    HRESULT × Option DIEFFECTINFO :=
  if v.controller.forceFeedbackIsSupported = false then (.DIERR_INVALIDPARAM, pdei)
  else
    match pdei with
    | none => (.DIERR_INVALIDPARAM, pdei)
    | some effectInfo =>
      if SizeofEffectInfo v.charMode ≠ effectInfo.dwSize then (.DIERR_INVALIDPARAM, pdei)
      else
        match ForceFeedbackEffectType rguid with
        | none => (.DIERR_INVALIDPARAM, pdei)
        | some effectType =>
          (.DI_OK, some (FillForceFeedbackEffectInfo
            { dwSize := SizeofEffectInfo v.charMode, guid := rguid, dwEffType := effectType,
              dwStaticParams := 0, dwDynamicParams := 0 }))

/-! ## Virtual DirectInput device: objects and properties -/

/-- The method `VirtualDirectInputDevice::IdentifyElement`. The function
`ControllerElementFromHidUsageData` of the absent `ControllerIdentification.h`
is the argument of that name. An entry of `axisCapabilities` past the end of
the list is a zero-initialised entry of the array, whose type is the axis X. -/
def IdentifyElement (v : VirtualDirectInputDevice)
    (ControllerElementFromHidUsageData : SHidUsageData → Option SElementIdentifier)
    (dwObj dwHow : Nat) : Option SElementIdentifier :=
  if dwHow = DIPH_DEVICE then
    if 0 = dwObj then some .WholeController else none
  else if dwHow = DIPH_BYOFFSET then
    match v.dataFormat with
    | some dataFormat => dataFormat.GetElementForOffset dwObj
    | none => none
  else if dwHow = DIPH_BYID then
    let kType := DIDFT_GETTYPE dwObj
    let kIndex := DIDFT_GETINSTANCE dwObj
    if kType = DIDFT_ABSAXIS then
      if kIndex < EAxis.all.length ∧ kIndex < v.controller.GetCapabilities.numAxes then
        some (.Axis
          ((v.controller.GetCapabilities.axisCapabilities.get? kIndex).elim EAxis.X
            SAxisCapabilities.type))
      else none
    else if kType = DIDFT_PSHBUTTON then
      if h : kIndex < kButtonCount ∧ kIndex < v.controller.GetCapabilities.numButtons then
        some (.Button ⟨kIndex, h.1⟩)
      else none
    else if kType = DIDFT_POV then
      if kIndex = 0 then some .Pov else none
    else none
  else if dwHow = DIPH_BYUSAGE then
    let hidUsage := (dwObj >>> 0) &&& 0x0000ffff
    let hidUsagePage := (dwObj >>> 16) &&& 0x0000ffff
    match ControllerElementFromHidUsageData { usagePage := hidUsagePage, usage := hidUsage } with
    | some controllerElement =>
      if v.controller.GetCapabilities.HasElement controllerElement then some controllerElement
      else none
    | none => none
  else none

/-- The method `VirtualDirectInputDevice::IdentifyObjectById`. -/
def IdentifyObjectById (v : VirtualDirectInputDevice) (element : SElementIdentifier) :
    Option Nat :=
  if 0 ≠ GetObjectId v.controller.GetCapabilities element then
    some (GetObjectId v.controller.GetCapabilities element)
  else none

/-- The method `VirtualDirectInputDevice::GetObjectInfo`. The pointer `pdidoi`
is `none` when it is null and otherwise holds the structure it points to; the
second component of the result is that structure after the call. -/
def GetObjectInfo (v : VirtualDirectInputDevice)
    (ControllerElementFromHidUsageData : SHidUsageData → Option SElementIdentifier)
    (pdidoi : Option DIDEVICEOBJECTINSTANCE) (dwObj dwHow : Nat) :
    HRESULT × Option DIDEVICEOBJECTINSTANCE :=
  match pdidoi with
  | none => (.E_POINTER, pdidoi)
  | some objectInfo =>
    if objectInfo.dwSize ≠ SizeofDeviceObjectInstance v.charMode ∧
        objectInfo.dwSize ≠ SizeofDeviceObjectInstanceCompat v.charMode then
      (.DIERR_INVALIDPARAM, pdidoi)
    else
      match IdentifyElement v ControllerElementFromHidUsageData dwObj dwHow with
      | none => (.DIERR_OBJECTNOTFOUND, pdidoi)
      | some element =>
        if element = .WholeController then (.DIERR_INVALIDPARAM, pdidoi)
        else
          let offset :=
            match v.dataFormat with
            | some dataFormat =>
              (dataFormat.GetOffsetForElement element).getD DataFormat.kInvalidOffsetValue
            | none => NativeOffsetForElement element
          (.DI_OK, some (FillObjectInstanceInfo v.charMode v.controller.GetCapabilities
            element offset objectInfo))

/-- The method `VirtualDirectInputDevice::GetProperty` up to its switch on the
property: the validation of the header and the identification of the element.
The switch, which handles each property for the identified element, is the
argument `propertySwitch`; `unchanged` is the outcome of a call that returns
before the switch. -/
def GetProperty {α : Type} (v : VirtualDirectInputDevice)
    (ControllerElementFromHidUsageData : SHidUsageData → Option SElementIdentifier)
    (unchanged : α) (propertySwitch : SElementIdentifier → HRESULT × α)
    (rguidProp : EProperty) (pdiph : Option DIPROPHEADER) : HRESULT × α :=
  if IsPropertyHeaderValid rguidProp pdiph = false then (.DIERR_INVALIDPARAM, unchanged)
  else
    match pdiph with
    | none => (.DIERR_INVALIDPARAM, unchanged)
    | some header =>
      match IdentifyElement v ControllerElementFromHidUsageData header.dwObj header.dwHow with
      | none => (.DIERR_OBJECTNOTFOUND, unchanged)
      | some element => propertySwitch element

/-- The method `VirtualDirectInputDevice::SetProperty` up to its switch on the
property: the validation of the header and the identification of the element.
The switch, which handles each property for the identified element, is the
argument `propertySwitch`; `unchanged` is the outcome of a call that returns
before the switch. -/
def SetProperty {α : Type} (v : VirtualDirectInputDevice)
    (ControllerElementFromHidUsageData : SHidUsageData → Option SElementIdentifier)
    (unchanged : α) (propertySwitch : SElementIdentifier → HRESULT × α)
    (rguidProp : EProperty) (pdiph : Option DIPROPHEADER) : HRESULT × α :=
  if IsPropertyHeaderValid rguidProp pdiph = false then (.DIERR_INVALIDPARAM, unchanged)
  else
    match pdiph with
    | none => (.DIERR_INVALIDPARAM, unchanged)
    | some header =>
      match IdentifyElement v ControllerElementFromHidUsageData header.dwObj header.dwHow with
      | none => (.DIERR_OBJECTNOTFOUND, unchanged)
      | some element => propertySwitch element

/-! ## Virtual DirectInput device: buffered data and data format -/

/-- How the loop of `GetDeviceData` over the events ends: it completes, it
returns from the method with a result, or the call of `value()` on a missing
offset throws. -/
inductive ELoopExit where
  | Completed
  | Returned (result : HRESULT)
  | Thrown
  deriving DecidableEq, Repr

/-- The loop of `GetDeviceData` that writes one data item per event, for the
events with the indices below `numEventsAffected`, oldest first: the items
written and how the loop ends. -/
def WriteObjectData (dataFormat : DataFormat) (directInputValue : SDirectInputValue) :
    List SEvent → List DIDEVICEOBJECTDATA × ELoopExit
  | [] => ([], .Completed)
  | event :: rest =>
    match dataFormat.GetOffsetForElement event.data.element with
    | none => ([], .Thrown)
    | some dwOfs =>
      let written (dwData : Nat) : List DIDEVICEOBJECTDATA × ELoopExit :=
        ({ dwOfs := dwOfs, dwData := dwData, dwTimeStamp := event.timestamp,
           dwSequence := event.sequence, uAppData := 0 } ::
            (WriteObjectData dataFormat directInputValue rest).1,
          (WriteObjectData dataFormat directInputValue rest).2)
      match event.data.element with
      | .Axis _ => written (directInputValue.DirectInputAxisValue event.data.value)
      | .Button _ => written (directInputValue.DirectInputButtonValue event.data.value)
      | .Pov => written (directInputValue.DirectInputPovValue event.data.value)
      | .WholeController =>
        ([{ dwOfs := dwOfs, dwData := 0, dwTimeStamp := event.timestamp,
            dwSequence := event.sequence, uAppData := 0 }], .Returned .DIERR_GENERIC)

/-- Outcome of `GetDeviceData`: the result, the array `rgdod` and the word
`*pdwInOut` after the call, and the device. -/
structure SDeviceData where
  result : HRESULT
  rgdod : Option (List DIDEVICEOBJECTDATA)
  pdwInOut : Option Nat
  device : VirtualDirectInputDevice

/-- The method `VirtualDirectInputDevice::GetDeviceData`. The pointers `rgdod`
and `pdwInOut` are `none` when they are null and otherwise hold the array and
the word they point to. The result is `none` when the method throws. -/
def GetDeviceData (v : VirtualDirectInputDevice) (directInputValue : SDirectInputValue)
    (cbObjectData : Nat) (rgdod : Option (List DIDEVICEOBJECTDATA)) (pdwInOut : Option Nat)
    (dwFlags : Nat) : Option SDeviceData :=
  let invalid : Option SDeviceData := some ⟨.DIERR_INVALIDPARAM, rgdod, pdwInOut, v⟩
  match v.dataFormat, pdwInOut with
  | none, _ => invalid
  | _, none => invalid
  | some dataFormat, some requested =>
    if SizeofDeviceObjectData ≠ cbObjectData then invalid
    else if dwFlags ≠ 0 ∧ dwFlags ≠ DIGDD_PEEK then invalid
    else if v.controller.IsEventBufferEnabled = false then
      some ⟨.DIERR_NOTBUFFERED, rgdod, pdwInOut, v⟩
    else
      let numEventsAffected := min requested (v.controller.GetEventBufferCount % 4294967296)
      let eventBufferOverflowed := v.controller.IsEventBufferOverflowed
      let shouldPopEvents : Bool := decide (0 = dwFlags &&& DIGDD_PEEK)
      let popped : VirtualDirectInputDevice :=
        if shouldPopEvents = true then
          { v with controller := v.controller.PopEventBufferOldestEvents numEventsAffected }
        else v
      let result : HRESULT := if eventBufferOverflowed = true then DI_BUFFEROVERFLOW else .DI_OK
      match rgdod with
      | none => some ⟨result, rgdod, some numEventsAffected, popped⟩
      | some items =>
        match WriteObjectData dataFormat directInputValue
            (v.controller.eventBuffer.events.take numEventsAffected) with
        | (written, .Completed) =>
          some ⟨result, some (written ++ items.drop written.length), some numEventsAffected,
            popped⟩
        | (written, .Returned early) =>
          some ⟨early, some (written ++ items.drop written.length), pdwInOut, v⟩
        | (_, .Thrown) => none

/-- The loop of `SetDataFormat` that removes from the event filter each of the
given elements that the new data format does not contain. -/
def EventFilterRemoveMissing (newDataFormat : DataFormat) :
    List SElementIdentifier → VirtualController → VirtualController
  | [], c => c
  | element :: rest, c =>
    EventFilterRemoveMissing newDataFormat rest
      (if newDataFormat.HasElement element = false then c.EventFilterRemoveElement element
       else c)

/-- The method `VirtualDirectInputDevice::SetDataFormat`. The pointer `lpdf` is
`none` when it is null. The function `DataFormat::CreateFromApplicationFormatSpec`
of the absent `DataFormat.h` is the argument of that name; it returns `none`
for a null pointer. -/
def SetDataFormat (v : VirtualDirectInputDevice)
    (CreateFromApplicationFormatSpec : DIDATAFORMAT → SCapabilities → Option DataFormat)
    (lpdf : Option DIDATAFORMAT) : HRESULT × VirtualDirectInputDevice :=
  match lpdf with
  | none => (.DIERR_INVALIDPARAM, v)
  | some applicationFormatSpec =>
    match CreateFromApplicationFormatSpec applicationFormatSpec v.controller.GetCapabilities with
    | none => (.DIERR_INVALIDPARAM, v)
    | some newDataFormat =>
      let c1 := v.controller.EventFilterAddAllElements
      let c2 := EventFilterRemoveMissing newDataFormat (EAxis.all.map SElementIdentifier.Axis) c1
      let c3 := EventFilterRemoveMissing newDataFormat
        ((List.finRange kButtonCount).map SElementIdentifier.Button) c2
      let c4 := EventFilterRemoveMissing newDataFormat [SElementIdentifier.Pov] c3
      (.DI_OK, { v with controller := c4, dataFormat := some newDataFormat })

namespace Example

/-- A data format of the application with the axes X and Y at the offsets 0
and 4 and the button B1 at the offset 8. -/
def Format : DataFormat :=
  { GetOffsetForElement := fun element =>
      if element = .Axis .X then some 0
      else if element = .Axis .Y then some 4
      else if element = .Button 0 then some 8
      else none,
    GetElementForOffset := fun offset =>
      if offset = 0 then some (.Axis .X)
      else if offset = 4 then some (.Axis .Y)
      else if offset = 8 then some (.Button 0)
      else none }

/-- A virtual device with force feedback support that the application has
prepared for exclusive access, with its data format set, and has not
acquired: nobody owns the force feedback buffer, which is as constructed. -/
def UnacquiredExclusive : VirtualDirectInputDevice :=
  { controller :=
      { forceFeedbackIsSupported := true, forceFeedbackOwner := .Nobody,
        forceFeedbackDevice := ForceFeedback.Device.CreateDevice 0 },
    cooperativeLevel := .Exclusive, dataFormat := some Format }

/-- A virtual device with force feedback support, its data format set and the
shared cooperative level, not acquired. -/
def UnacquiredShared : VirtualDirectInputDevice :=
  { UnacquiredExclusive with cooperativeLevel := .Shared }

/-- A force feedback effect of infinite duration and zero magnitude. -/
def Effect (identifier : ForceFeedback.TEffectIdentifier) : ForceFeedback.Effect :=
  { identifier := identifier, duration := none, startDelay := 0,
    ComputeOrderedMagnitudeComponents := fun _ _ => 0 }

/-- A force feedback device that is paused and holds one effect, which is
ready. -/
def PausedDevice : ForceFeedback.Device :=
  { readyEffects := [(1, ⟨Effect 1, 0, 0⟩)], playingEffects := [],
    stateEffectsAreMuted := false, stateEffectsArePaused := true, timestampBase := 0,
    timestampRelativeLastPlay := 0 }

/-- A virtual device that is acquired in exclusive mode, so that its
controller is registered for force feedback, with the paused force feedback
device. -/
def AcquiredPaused : VirtualDirectInputDevice :=
  { controller :=
      { forceFeedbackIsSupported := true, forceFeedbackOwner := .ThisController,
        forceFeedbackDevice := PausedDevice },
    cooperativeLevel := .Exclusive, dataFormat := some Format }

/-- Capabilities with the axes X and Y, four buttons and no POV; no axis
supports force feedback. -/
def Capabilities : SCapabilities :=
  { axisCapabilities := [⟨.X, false⟩, ⟨.Y, false⟩], numAxes := 2, numButtons := 4,
    hasPov := false }

/-- A virtual device without force feedback support: its controller has the
axes X and Y, four buttons and no POV, and an event buffer for eight events
that holds three events and has not overflowed; the data format is set and
one effect object is in the registry of effect objects. -/
def NoForceFeedback : VirtualDirectInputDevice :=
  { controller :=
      { forceFeedbackIsSupported := false, forceFeedbackOwner := .Nobody,
        forceFeedbackDevice := ForceFeedback.Device.CreateDevice 0,
        capabilities := Capabilities,
        eventBuffer :=
          { events := [⟨⟨.Axis .X, 100⟩, 10, 1⟩, ⟨⟨.Button 0, 1⟩, 11, 2⟩, ⟨⟨.Axis .Y, -5⟩, 12, 3⟩],
            capacity := 8, overflowed := false } },
    cooperativeLevel := .Shared, dataFormat := some Format,
    effectRegistry := [⟨.Sine, .SineWaveEffect⟩] }

/-- A virtual device with force feedback support whose controller has the
axes X and Y, four buttons and no POV. -/
def ForceFeedbackCapable : VirtualDirectInputDevice :=
  { NoForceFeedback with
    controller := { NoForceFeedback.controller with forceFeedbackIsSupported := true } }

/-- A callback of an enumeration that always asks to continue. -/
def ContinueEnumeration {α : Type} : α → Nat := fun _ => DIENUM_CONTINUE

/-- A stand-in for `SetParametersInternal` that accepts every parameter and
changes nothing. -/
def AcceptParameters : VirtualDirectInputEffect → DIEFFECT → Nat → VirtualDirectInputDevice →
    HRESULT × VirtualDirectInputEffect × VirtualDirectInputDevice :=
  fun effect _ _ device => (.DI_OK, effect, device)

/-- A stand-in for `ControllerElementFromHidUsageData`: the usages 0x30 and
0x31 of the generic desktop page are the axes X and Y, the usage 0x39 of that
page is the POV, and the usages of the button page are the buttons. -/
def ElementFromHidUsage (hidUsageData : SHidUsageData) : Option SElementIdentifier :=
  if hidUsageData.usagePage = 0x01 then
    if hidUsageData.usage = 0x30 then some (.Axis .X)
    else if hidUsageData.usage = 0x31 then some (.Axis .Y)
    else if hidUsageData.usage = 0x39 then some .Pov
    else none
  else if h : hidUsageData.usagePage = 0x09 ∧ 0 < hidUsageData.usage ∧
      hidUsageData.usage - 1 < kButtonCount then
    some (.Button ⟨hidUsageData.usage - 1, h.2.2⟩)
  else none

/-- A data format that contains the button 0 alone, at offset 0. -/
def ButtonFormat : DataFormat :=
  { GetOffsetForElement := fun element => if element = .Button 0 then some 0 else none,
    GetElementForOffset := fun offset => if offset = 0 then some (.Button 0) else none }

/-- A stand-in for `DataFormat::CreateFromApplicationFormatSpec` that creates
the data format `ButtonFormat` from every specification. -/
def CreateButtonFormat : DIDATAFORMAT → SCapabilities → Option DataFormat :=
  fun _ _ => some ButtonFormat

/-- A data format specification of an application, without objects. -/
def FormatSpec : DIDATAFORMAT :=
  { dwSize := 24, dwObjSize := 16, dwFlags := 0, dwDataSize := 4, rgodf := [] }

/-- Conversions to DirectInput data words that keep the magnitude of the
value. -/
def DirectInputValue : SDirectInputValue :=
  { DirectInputAxisValue := Int.natAbs, DirectInputButtonValue := Int.natAbs,
    DirectInputPovValue := Int.natAbs }

end Example

end VirtualDirectInputDevice

namespace Controller

/-! # Lemmas and theorems -/

namespace MapperBuilder

/-! ## Lemmas on blueprint lookup and update -/

theorem FindBlueprint_update_same (bps : List (String × SBlueprint)) (n : String)
    (f : SBlueprint → SBlueprint) :
    FindBlueprint (UpdateBlueprint bps n f) n = (FindBlueprint bps n).map f := by
  induction bps with
  | nil => rfl
  | cons e rest ih =>
    obtain ⟨k, b⟩ := e
    by_cases h : k = n
    · simp [UpdateBlueprint, FindBlueprint, h]
    · simp [UpdateBlueprint, FindBlueprint, h, ih]

theorem FindBlueprint_update_other (bps : List (String × SBlueprint)) (n x : String)
    (f : SBlueprint → SBlueprint) (hx : x ≠ n) :
    FindBlueprint (UpdateBlueprint bps n f) x = FindBlueprint bps x := by
  induction bps with
  | nil => rfl
  | cons e rest ih =>
    obtain ⟨k, b⟩ := e
    have hnx : ¬ n = x := fun h => hx h.symm
    by_cases h : k = n
    · subst h
      simp [UpdateBlueprint, FindBlueprint, hnx]
    · by_cases hk : k = x
      · subst hk
        simp [UpdateBlueprint, FindBlueprint, h]
      · simp [UpdateBlueprint, FindBlueprint, h, hk, ih]

theorem UpdateBlueprint_length (bps : List (String × SBlueprint)) (n : String)
    (f : SBlueprint → SBlueprint) :
    (UpdateBlueprint bps n f).length = bps.length := by
  induction bps with
  | nil => rfl
  | cons e rest ih =>
    obtain ⟨k, b⟩ := e
    by_cases h : k = n
    · simp [UpdateBlueprint, h]
    · simp [UpdateBlueprint, h, ih]

theorem FindBlueprint_mem_keys (bps : List (String × SBlueprint)) (n : String) (b : SBlueprint)
    (h : FindBlueprint bps n = some b) : n ∈ bps.map Prod.fst := by
  induction bps with
  | nil => simp [FindBlueprint] at h
  | cons e rest ih =>
    obtain ⟨k, b1⟩ := e
    by_cases hk : k = n
    · simp [hk]
    · simp only [FindBlueprint, hk, if_false] at h
      simp [ih h]

theorem UnattemptedCount_mark (bps : List (String × SBlueprint)) (n : String) (b : SBlueprint)
    (h : FindBlueprint bps n = some b) (hatt : b.buildAttempted = false) :
    UnattemptedCount (UpdateBlueprint bps n (fun b => { b with buildAttempted := true })) + 1
      = UnattemptedCount bps := by
  induction bps with
  | nil => simp [FindBlueprint] at h
  | cons e rest ih =>
    obtain ⟨k, b1⟩ := e
    by_cases hk : k = n
    · simp only [FindBlueprint, hk, if_true, Option.some.injEq] at h
      subst h
      simp [UpdateBlueprint, UnattemptedCount, hk, hatt]
      omega
    · simp only [FindBlueprint, hk, if_false] at h
      have := ih h
      simp only [UpdateBlueprint, hk, if_false, UnattemptedCount]
      omega

theorem UnattemptedCount_le_length (bps : List (String × SBlueprint)) :
    UnattemptedCount bps ≤ bps.length := by
  induction bps with
  | nil => simp [UnattemptedCount]
  | cons e rest ih =>
    obtain ⟨k, b1⟩ := e
    simp only [UnattemptedCount, List.length_cons]
    split <;> omega

/-! ## The function and its big-step description -/

theorem BuildByNameFuel_sound (fuel : Nat) :
    ∀ (n : String) (s : SBuildState) (r : Option Mapper) (s1 : SBuildState),
      BuildByNameFuel fuel n s = some (r, s1) → Builds n s r s1 := by
  induction fuel with
  | zero => intro n s r s1 h; simp [BuildByNameFuel] at h
  | succ f ih =>
    intro n s r s1 h
    unfold BuildByNameFuel at h
    split at h
    · rename_i hfind
      simp only [Option.some.injEq, Prod.mk.injEq] at h
      obtain ⟨rfl, rfl⟩ := h
      exact Builds.unrecognized hfind
    · rename_i b hfind
      split at h
      · rename_i hk
        simp only [Option.some.injEq, Prod.mk.injEq] at h
        obtain ⟨rfl, rfl⟩ := h
        exact Builds.alreadyExists hfind hk
      · rename_i hk
        split at h
        · rename_i hcan
          simp only [Option.some.injEq, Prod.mk.injEq] at h
          obtain ⟨rfl, rfl⟩ := h
          exact Builds.invalid hfind hk hcan
        · rename_i hcan
          have hcan1 : b.buildCanAttempt = true := by
            cases hb : b.buildCanAttempt
            · exact absurd hb hcan
            · rfl
          split at h
          · rename_i hatt
            simp only [Option.some.injEq, Prod.mk.injEq] at h
            obtain ⟨rfl, rfl⟩ := h
            exact Builds.circular hfind hk hcan1 hatt
          · rename_i hatt
            have hatt1 : b.buildAttempted = false := by
              cases hb : b.buildAttempted
              · rfl
              · exact absurd hb hatt
            simp only at h
            split at h
            · rename_i htmpl
              simp only [Option.some.injEq] at h
              have h1 := congrArg Prod.fst h
              have h2 := congrArg Prod.snd h
              simp only at h1 h2
              subst h1; subst h2
              exact Builds.noTemplate hfind hk hcan1 hatt1 htmpl
            · rename_i htmpl
              split at h
              · rename_i htk
                simp only [Option.some.injEq] at h
                have h1 := congrArg Prod.fst h
                have h2 := congrArg Prod.snd h
                simp only at h1 h2
                subst h1; subst h2
                exact Builds.templateKnown hfind hk hcan1 hatt1 htmpl htk
              · rename_i htk
                split at h
                · exact absurd h (by simp)
                · rename_i s3 hrec
                  simp only [Option.some.injEq, Prod.mk.injEq] at h
                  obtain ⟨rfl, rfl⟩ := h
                  exact Builds.templateFailed hfind hk hcan1 hatt1 htmpl htk (ih _ _ _ _ hrec)
                · rename_i m s3 hrec
                  split at h
                  · rename_i htk3
                    simp only [Option.some.injEq] at h
                    have h1 := congrArg Prod.fst h
                    have h2 := congrArg Prod.snd h
                    simp only at h1 h2
                    subst h1; subst h2
                    exact Builds.templateBuilt hfind hk hcan1 hatt1 htmpl htk
                      (ih _ _ _ _ hrec) htk3
                  · rename_i htk3
                    simp only [Option.some.injEq, Prod.mk.injEq] at h
                    obtain ⟨rfl, rfl⟩ := h
                    exact Builds.templateNotRegistered hfind hk hcan1 hatt1 htmpl htk
                      (ih _ _ _ _ hrec) htk3

theorem BuildByNameFuel_total (fuel : Nat) :
    ∀ (n : String) (s : SBuildState), UnattemptedCount s.blueprints < fuel →
      ∃ r s1, BuildByNameFuel fuel n s = some (r, s1) := by
  induction fuel with
  | zero => intro n s h; omega
  | succ f ih =>
    intro n s hlt
    unfold BuildByNameFuel
    split
    · exact ⟨_, _, rfl⟩
    · rename_i b hfind
      split
      · exact ⟨_, _, rfl⟩
      · split
        · exact ⟨_, _, rfl⟩
        · split
          · exact ⟨_, _, rfl⟩
          · rename_i hatt
            have hatt1 : b.buildAttempted = false := by
              cases hb : b.buildAttempted
              · rfl
              · exact absurd hb hatt
            simp only
            split
            · exact ⟨_, _, rfl⟩
            · split
              · exact ⟨_, _, rfl⟩
              · have hcount := UnattemptedCount_mark s.blueprints n b hfind hatt1
                have hlt2 : UnattemptedCount
                    (Output (MarkAttempted s n) .Info .AttemptingTemplateBuild n).blueprints
                    < f := by
                  simp only [Output, MarkAttempted, ModifyBlueprint]
                  omega
                obtain ⟨r, s3, hrec⟩ := ih b.templateName _ hlt2
                rw [hrec]
                cases r with
                | none => exact ⟨_, _, rfl⟩
                | some m =>
                  simp only
                  split
                  · exact ⟨_, _, rfl⟩
                  · exact ⟨_, _, rfl⟩

theorem BuildByName_total (n : String) (s : SBuildState) :
    ∃ r s1, BuildByName n s = some (r, s1) :=
  BuildByNameFuel_total _ n s (Nat.lt_succ_of_le (UnattemptedCount_le_length s.blueprints))

theorem BuildByName_sound (n : String) (s : SBuildState) (r : Option Mapper)
    (s1 : SBuildState) (h : BuildByName n s = some (r, s1)) : Builds n s r s1 :=
  BuildByNameFuel_sound _ n s r s1 h

/-! ## Elementary steps of a build -/

theorem GetByName_register (registry : TMapperRegistry) (m : Mapper) (x : String) :
    Mapper.GetByName (Mapper.Register registry m) x
      = if m.name = x then some m else Mapper.GetByName registry x := by
  simp only [Mapper.GetByName, Mapper.Register, List.find?_cons]
  by_cases h : m.name = x
  · simp [h]
  · have hb : (m.name == x) = false := by simpa using h
    simp [h, hb]

theorem GetByName_name (registry : TMapperRegistry) (x : String) (m : Mapper)
    (h : Mapper.GetByName registry x = some m) : m.name = x := by
  have := List.find?_some h
  simpa using this

theorem Known_iff (s : SBuildState) (x : String) :
    Known s x ↔ ∃ m, Mapper.GetByName s.registry x = some m := by
  unfold Known Mapper.IsMapperNameKnown
  exact Option.isSome_iff_exists

theorem FindBlueprint_mark_same (s : SBuildState) (n : String) :
    FindBlueprint (MarkAttempted s n).blueprints n
      = (FindBlueprint s.blueprints n).map (fun b => { b with buildAttempted := true }) :=
  FindBlueprint_update_same _ _ _

theorem FindBlueprint_mark_other (s : SBuildState) (n x : String) (hx : x ≠ n) :
    FindBlueprint (MarkAttempted s n).blueprints x = FindBlueprint s.blueprints x :=
  FindBlueprint_update_other _ _ _ _ hx

theorem FinishBuild_eq (s : SBuildState) (n : String) (start : UElementMap) (b : SBlueprint)
    (h : FindBlueprint s.blueprints n = some b) :
    FinishBuild s n start
      = (some (Mapper.Create n (ApplyChanges start b.changesFromTemplate)),
          FinishState s n (Mapper.Create n (ApplyChanges start b.changesFromTemplate))) := by
  simp [FinishBuild, h, FinishState, Output, ModifyBlueprint]

theorem BuildFromTemplate_eq (s : SBuildState) (n t : String) (b : SBlueprint)
    (h : FindBlueprint s.blueprints n = some b) (ht : Known s t) :
    ∃ tm, Mapper.GetByName s.registry t = some tm ∧
      BuildFromTemplate s n t
        = (some (Mapper.Create n (ApplyChanges tm.CloneElementMap b.changesFromTemplate)),
            FinishState s n (Mapper.Create n (ApplyChanges tm.CloneElementMap b.changesFromTemplate))) := by
  obtain ⟨tm, htm⟩ := (Known_iff s t).1 ht
  refine ⟨tm, htm, ?_⟩
  simp [BuildFromTemplate, htm, FinishBuild_eq s n _ b h]

theorem Frame.refl (s : SBuildState) : Frame s s where
  find_none := fun _ h => h
  find_some := fun _ b h => ⟨b, h, rfl, rfl, fun _ => rfl⟩
  known_mono := fun _ h => h
  known_new := fun _ h => Or.inl h
  messages := ⟨[], by simp⟩

theorem Frame.trans {s s1 s2 : SBuildState} (h1 : Frame s s1) (h2 : Frame s1 s2) :
    Frame s s2 where
  find_none := fun x h => h2.find_none x (h1.find_none x h)
  find_some := by
    intro x b h
    obtain ⟨b1, hb1, ht1, hc1, ha1⟩ := h1.find_some x b h
    obtain ⟨b2, hb2, ht2, hc2, ha2⟩ := h2.find_some x b1 hb1
    refine ⟨b2, hb2, ht2.trans ht1, hc2.trans hc1, ?_⟩
    intro hatt
    have e1 := ha1 hatt
    subst e1
    exact ha2 hatt
  known_mono := fun x h => h2.known_mono x (h1.known_mono x h)
  known_new := by
    intro x h
    rcases h2.known_new x h with h | ⟨b1, b2, hb1, ha1, hb2, ha2⟩
    · rcases h1.known_new x h with h | ⟨b0, b1, hb0, ha0, hb1, ha1⟩
      · exact Or.inl h
      · obtain ⟨b2, hb2, _, _, ha2⟩ := h2.find_some x b1 hb1
        have e := ha2 ha1
        subst e
        exact Or.inr ⟨b0, b2, hb0, ha0, hb2, ha1⟩
    · cases h0 : FindBlueprint s.blueprints x with
      | none => rw [h1.find_none x h0] at hb1; cases hb1
      | some b0 =>
        obtain ⟨b1x, hb1x, _, _, ha1x⟩ := h1.find_some x b0 h0
        rw [hb1] at hb1x
        cases hb1x
        cases hatt : b0.buildAttempted with
        | false => exact Or.inr ⟨b0, b2, rfl, hatt, hb2, ha2⟩
        | true =>
          have e := ha1x hatt
          subst e
          rw [hatt] at ha1
          cases ha1
  messages := by
    obtain ⟨n1, e1⟩ := h1.messages
    obtain ⟨n2, e2⟩ := h2.messages
    exact ⟨n1 ++ n2, by rw [e2, e1, List.append_assoc]⟩

theorem Frame_output (s : SBuildState) (severity : ESeverity) (text : EBuildMessage)
    (n : String) : Frame s (Output s severity text n) where
  find_none := fun _ h => h
  find_some := fun _ b h => ⟨b, h, rfl, rfl, fun _ => rfl⟩
  known_mono := fun _ h => h
  known_new := fun _ h => Or.inl h
  messages := ⟨_, rfl⟩

theorem Frame_mark (s : SBuildState) (n : String) (b : SBlueprint)
    (hfind : FindBlueprint s.blueprints n = some b) (hatt : b.buildAttempted = false) :
    Frame s (MarkAttempted s n) where
  find_none := by
    intro x h
    by_cases hx : x = n
    · subst hx; rw [FindBlueprint_mark_same, h]; rfl
    · rw [FindBlueprint_mark_other s n x hx]; exact h
  find_some := by
    intro x bx h
    by_cases hx : x = n
    · subst hx
      rw [hfind] at h
      cases h
      refine ⟨{ b with buildAttempted := true },
        by rw [FindBlueprint_mark_same, hfind]; rfl, rfl, rfl, ?_⟩
      intro h2; rw [hatt] at h2; cases h2
    · exact ⟨bx, by rw [FindBlueprint_mark_other s n x hx]; exact h, rfl, rfl, fun _ => rfl⟩
  known_mono := fun _ h => h
  known_new := fun _ h => Or.inl h
  messages := ⟨[], by simp [MarkAttempted, ModifyBlueprint]⟩

theorem FindBlueprint_finish_same (s : SBuildState) (n : String) (mapper : Mapper) :
    FindBlueprint (FinishState s n mapper).blueprints n
      = (FindBlueprint s.blueprints n).map
          (fun b => { b with changesFromTemplate := MovedFrom b.changesFromTemplate }) :=
  FindBlueprint_update_same _ _ _

theorem FindBlueprint_finish_other (s : SBuildState) (n x : String) (mapper : Mapper)
    (hx : x ≠ n) :
    FindBlueprint (FinishState s n mapper).blueprints x = FindBlueprint s.blueprints x :=
  FindBlueprint_update_other _ _ _ _ hx

theorem Known_finish (s : SBuildState) (n x : String) (mapper : Mapper)
    (hname : mapper.name = n) :
    Known (FinishState s n mapper) x ↔ (n = x ∨ Known s x) := by
  rw [Known_iff, Known_iff]
  simp only [FinishState, GetByName_register, hname]
  by_cases h : n = x
  · simp [h]
  · simp [h]

theorem Frame_finish (s0 sk : SBuildState) (n : String) (mapper : Mapper) (b0 bk : SBlueprint)
    (hname : mapper.name = n)
    (hframe : Frame s0 sk)
    (h0 : FindBlueprint s0.blueprints n = some b0) (hatt0 : b0.buildAttempted = false)
    (hk : FindBlueprint sk.blueprints n = some bk) (hattk : bk.buildAttempted = true) :
    Frame s0 (FinishState sk n mapper) where
  find_none := by
    intro x h
    have h1 := hframe.find_none x h
    by_cases hx : x = n
    · subst hx; rw [FindBlueprint_finish_same, h1]; rfl
    · rw [FindBlueprint_finish_other sk n x mapper hx]; exact h1
  find_some := by
    intro x bx h
    obtain ⟨b1, hb1, ht1, hc1, ha1⟩ := hframe.find_some x bx h
    by_cases hx : x = n
    · subst hx
      rw [h0] at h
      cases h
      refine ⟨{ b1 with changesFromTemplate := MovedFrom b1.changesFromTemplate },
        by rw [FindBlueprint_finish_same, hb1]; rfl, ht1, hc1, ?_⟩
      intro h2; rw [hatt0] at h2; cases h2
    · exact ⟨b1, by rw [FindBlueprint_finish_other sk n x mapper hx]; exact hb1, ht1, hc1, ha1⟩
  known_mono := by
    intro x h
    exact (Known_finish sk n x mapper hname).2 (Or.inr (hframe.known_mono x h))
  known_new := by
    intro x h
    rcases (Known_finish sk n x mapper hname).1 h with h | h
    · subst h
      exact Or.inr ⟨b0, { bk with changesFromTemplate := MovedFrom bk.changesFromTemplate },
        h0, hatt0, by rw [FindBlueprint_finish_same, hk]; rfl, hattk⟩
    · rcases hframe.known_new x h with h | ⟨bx, b1, hbx, hax, hb1, ha1⟩
      · exact Or.inl h
      · by_cases hx : x = n
        · subst hx
          exact Or.inr ⟨b0, { bk with changesFromTemplate := MovedFrom bk.changesFromTemplate },
            h0, hatt0, by rw [FindBlueprint_finish_same, hk]; rfl, hattk⟩
        · exact Or.inr ⟨bx, b1, hbx, hax,
            by rw [FindBlueprint_finish_other sk n x mapper hx]; exact hb1, ha1⟩
  messages := by
    obtain ⟨n1, e1⟩ := hframe.messages
    exact ⟨n1 ++ [⟨.Info, .SuccessfullyBuilt, n⟩], by simp [FinishState, e1]⟩

/-! ## What a build does -/

theorem BuildOutcome_failed (n : String) (s s1 : SBuildState) (hframe : Frame s s1)
    (hreg : s1.registry = s.registry) : BuildOutcome n s none s1 where
  frame := hframe
  failure := fun _ => hreg
  success := fun m h => by cases h
  attempted_known := fun m h => by cases h

theorem BuildOutcome_finish (s sk : SBuildState) (n : String) (b : SBlueprint)
    (start : UElementMap)
    (hfind : FindBlueprint s.blueprints n = some b) (hatt : b.buildAttempted = false)
    (hcan : b.buildCanAttempt = true) (hknown : ¬ Known s n)
    (hframe : Frame s sk) (hknownk : ¬ Known sk n)
    (hk : FindBlueprint sk.blueprints n = some { b with buildAttempted := true })
    (hstart : (b.templateName = "" → start = UElementMap.empty) ∧
      (b.templateName ≠ "" → ∃ tm, Mapper.GetByName sk.registry b.templateName = some tm ∧
        start = tm.CloneElementMap))
    (hE : ∀ x b0 b1, x ≠ n → FindBlueprint s.blueprints x = some b0 →
      b0.buildAttempted = false → FindBlueprint sk.blueprints x = some b1 →
      b1.buildAttempted = true → Known sk x) :
    BuildOutcome n s (some (Mapper.Create n (ApplyChanges start b.changesFromTemplate)))
      (FinishState sk n (Mapper.Create n (ApplyChanges start b.changesFromTemplate))) where
  frame := Frame_finish s sk n _ b _ rfl hframe hfind hatt hk rfl
  failure := fun h => by cases h
  success := by
    intro m hm
    cases hm
    refine ⟨b, hfind, hatt, hcan, hknown, rfl, ?_, start, rfl, hstart.1, ?_⟩
    · simp [FinishState, GetByName_register, Mapper.Create]
    · intro ht
      obtain ⟨tm, htm, hs⟩ := hstart.2 ht
      refine ⟨tm, ?_, hs⟩
      have hne : ¬ n = b.templateName := by
        intro e
        apply hknownk
        rw [Known_iff]
        exact ⟨tm, by rw [e]; exact htm⟩
      simp [FinishState, GetByName_register, hne, htm, Mapper.Create]
  attempted_known := by
    intro m _ x b0 b1 h0 ha0 h1 ha1
    by_cases hx : x = n
    · subst hx
      exact (Known_finish sk x x _ rfl).2 (Or.inl rfl)
    · rw [FindBlueprint_finish_other sk n x _ hx] at h1
      exact (Known_finish sk n x _ rfl).2 (Or.inr (hE x b0 b1 hx h0 ha0 h1 ha1))

theorem Frame_begin (s : SBuildState) (n : String) (b : SBlueprint)
    (hfind : FindBlueprint s.blueprints n = some b) (hatt : b.buildAttempted = false) :
    Frame s (Output (MarkAttempted s n) .Info .AttemptingTemplateBuild n) :=
  (Frame_mark s n b hfind hatt).trans (Frame_output _ _ _ _)

theorem Builds_outcome {n : String} {s : SBuildState} {r : Option Mapper} {s1 : SBuildState}
    (h : Builds n s r s1) : BuildOutcome n s r s1 := by
  induction h with
  | unrecognized hfind => exact BuildOutcome_failed _ _ _ (Frame_output _ _ _ _) rfl
  | alreadyExists hfind hknown => exact BuildOutcome_failed _ _ _ (Frame_output _ _ _ _) rfl
  | invalid hfind hknown hcan => exact BuildOutcome_failed _ _ _ (Frame_output _ _ _ _) rfl
  | circular hfind hknown hcan hatt =>
    exact BuildOutcome_failed _ _ _ (Frame_output _ _ _ _) rfl
  | @noTemplate n s b hfind hknown hcan hatt htmpl =>
    have hk : FindBlueprint (MarkAttempted s n).blueprints n
        = some { b with buildAttempted := true } := by
      rw [FindBlueprint_mark_same, hfind]; rfl
    rw [FinishBuild_eq _ n _ _ hk]
    refine BuildOutcome_finish s (MarkAttempted s n) n b UElementMap.empty hfind hatt hcan
      hknown (Frame_mark s n b hfind hatt) hknown hk ⟨fun _ => rfl, fun h => absurd htmpl h⟩ ?_
    intro x b0 b1 hx h0 ha0 h1 ha1
    rw [FindBlueprint_mark_other s n x hx, h0] at h1
    cases h1
    rw [ha0] at ha1
    cases ha1
  | @templateKnown n s b hfind hknown hcan hatt htmpl htk =>
    have hk : FindBlueprint (MarkAttempted s n).blueprints n
        = some { b with buildAttempted := true } := by
      rw [FindBlueprint_mark_same, hfind]; rfl
    obtain ⟨tm, htm, heq⟩ := BuildFromTemplate_eq (MarkAttempted s n) n b.templateName _ hk htk
    rw [heq]
    refine BuildOutcome_finish s (MarkAttempted s n) n b tm.CloneElementMap hfind hatt hcan
      hknown (Frame_mark s n b hfind hatt) hknown hk
      ⟨fun h => absurd h htmpl, fun _ => ⟨tm, htm, rfl⟩⟩ ?_
    intro x b0 b1 hx h0 ha0 h1 ha1
    rw [FindBlueprint_mark_other s n x hx, h0] at h1
    cases h1
    rw [ha0] at ha1
    cases ha1
  | @templateFailed n s s3 b hfind hknown hcan hatt htmpl htk hrec ih =>
    refine BuildOutcome_failed _ _ _
      (((Frame_begin s n b hfind hatt).trans ih.frame).trans (Frame_output _ _ _ _)) ?_
    have := ih.failure rfl
    simpa [Output, MarkAttempted, ModifyBlueprint] using this
  | @templateBuilt n s s3 b m hfind hknown hcan hatt htmpl htk hrec htk3 ih =>
    have h2 : FindBlueprint
        (Output (MarkAttempted s n) .Info .AttemptingTemplateBuild n).blueprints n
        = some { b with buildAttempted := true } := by
      show FindBlueprint (MarkAttempted s n).blueprints n = _
      rw [FindBlueprint_mark_same, hfind]; rfl
    have hk : FindBlueprint s3.blueprints n = some { b with buildAttempted := true } := by
      obtain ⟨b3, hb3, _, _, ha3⟩ := ih.frame.find_some n _ h2
      rw [hb3, ha3 rfl]
    have hknownk : ¬ Known s3 n := by
      intro h
      rcases ih.frame.known_new n h with h | ⟨b0, b1, hb0, ha0, _, _⟩
      · exact hknown h
      · rw [h2] at hb0
        cases hb0
        cases ha0
    obtain ⟨tm, htm, heq⟩ := BuildFromTemplate_eq s3 n b.templateName _ hk htk3
    rw [heq]
    refine BuildOutcome_finish s s3 n b tm.CloneElementMap hfind hatt hcan hknown
      ((Frame_begin s n b hfind hatt).trans ih.frame) hknownk hk
      ⟨fun h => absurd h htmpl, fun _ => ⟨tm, htm, rfl⟩⟩ ?_
    intro x b0 b1 hx h0 ha0 h1 ha1
    refine ih.attempted_known m rfl x b0 b1 ?_ ha0 h1 ha1
    show FindBlueprint (MarkAttempted s n).blueprints x = _
    rw [FindBlueprint_mark_other s n x hx]
    exact h0
  | @templateNotRegistered n s s3 b m hfind hknown hcan hatt htmpl htk hrec htk3 ih =>
    exfalso
    obtain ⟨b1, _, _, _, _, hname, hget, _⟩ := ih.success m rfl
    exact htk3 ((Known_iff s3 _).2 ⟨m, hget⟩)

/-! ## The loop of the no-argument build -/

theorem BuildLoop_sound (names : List String) :
    ∀ (s : SBuildState), ∃ r s1, BuildLoop names s = some (r, s1) ∧ Loops names s r s1 := by
  induction names with
  | nil => intro s; exact ⟨true, s, rfl, Loops.done⟩
  | cons x rest ih =>
    intro s
    unfold BuildLoop
    split
    · rename_i hfind
      obtain ⟨r, s1, h1, h2⟩ := ih s
      exact ⟨r, s1, h1, Loops.missing hfind h2⟩
    · rename_i b hfind
      split
      · rename_i hskip
        obtain ⟨r, s1, h1, h2⟩ := ih s
        exact ⟨r, s1, h1, Loops.skipped hfind hskip h2⟩
      · rename_i hskip
        have hatt : b.buildAttempted = false := by
          cases hb : b.buildAttempted
          · rfl
          · exact absurd (Or.inl hb) hskip
        have hcan : b.buildCanAttempt = true := by
          cases hb : b.buildCanAttempt
          · exact absurd (Or.inr hb) hskip
          · rfl
        obtain ⟨r, s1, hb⟩ := BuildByName_total x s
        have hrel := BuildByName_sound x s r s1 hb
        rw [hb]
        cases r with
        | none => exact ⟨false, s1, rfl, Loops.failed hfind hatt hcan hrel⟩
        | some m =>
          obtain ⟨r2, s2, h1, h2⟩ := ih s1
          exact ⟨r2, s2, h1, Loops.built hfind hatt hcan hrel h2⟩

theorem Loops_frame {names : List String} {s : SBuildState} {r : Bool} {s1 : SBuildState}
    (h : Loops names s r s1) : Frame s s1 := by
  induction h with
  | done => exact Frame.refl _
  | missing _ _ ih => exact ih
  | skipped _ _ _ ih => exact ih
  | failed _ _ _ hbuild => exact (Builds_outcome hbuild).frame
  | built _ _ _ hbuild _ ih => exact (Builds_outcome hbuild).frame.trans ih

theorem Loops_success_known {names : List String} {s : SBuildState} {r : Bool}
    {s1 : SBuildState} (h : Loops names s r s1) :
    r = true → ∀ n, n ∈ names → ∀ b, FindBlueprint s.blueprints n = some b →
      b.buildAttempted = false → b.buildCanAttempt = true → Known s1 n := by
  induction h with
  | done => intro _ n hn; cases hn
  | @missing x rest s s1 r hfind hrest ih =>
    intro hr n hn b hb hatt hcan
    rcases List.mem_cons.1 hn with e | hmem
    · subst e; rw [hfind] at hb; cases hb
    · exact ih hr n hmem b hb hatt hcan
  | @skipped x rest s s1 r bx hfind hskip hrest ih =>
    intro hr n hn b hb hatt hcan
    rcases List.mem_cons.1 hn with e | hmem
    · subst e
      rw [hfind] at hb
      cases hb
      rcases hskip with h | h
      · rw [hatt] at h; cases h
      · rw [hcan] at h; cases h
    · exact ih hr n hmem b hb hatt hcan
  | failed _ _ _ _ => intro hr; cases hr
  | @built x rest s s1 s2 r bx m hfind hattx hcanx hbuild hrest ih =>
    intro hr n hn b hb hatt hcan
    have hout := Builds_outcome hbuild
    have hframe2 := Loops_frame hrest
    obtain ⟨b1, hb1, _, hc1, _⟩ := hout.frame.find_some n b hb
    cases hatt1 : b1.buildAttempted with
    | true =>
      exact hframe2.known_mono n (hout.attempted_known m rfl n b b1 hb hatt hb1 hatt1)
    | false =>
      rcases List.mem_cons.1 hn with e | hmem
      · subst e
        obtain ⟨_, _, _, _, _, _, hget, _⟩ := hout.success m rfl
        exact hframe2.known_mono n ((Known_iff s1 n).2 ⟨m, hget⟩)
      · exact ih hr n hmem b1 hb1 hatt1 (hc1.trans hcan)

/-! ## Template cycles -/

theorem TemplateOf_some (s : SBuildState) (x t : String) (h : TemplateOf s x = some t) :
    ∃ b, FindBlueprint s.blueprints x = some b ∧ b.templateName ≠ "" ∧ b.templateName = t := by
  unfold TemplateOf at h
  split at h
  · cases h
  · rename_i b hb
    split at h
    · cases h
    · rename_i hne
      simp only [Option.some.injEq] at h
      exact ⟨b, hb, hne, h⟩

theorem TemplateChain_step (s : SBuildState) (j : Nat) :
    ∀ (x y t : String), TemplateChain s j x = some y → TemplateOf s y = some t →
      TemplateChain s (j + 1) x = some t := by
  induction j with
  | zero =>
    intro x y t h ht
    simp only [TemplateChain, Option.some.injEq] at h
    subst h
    simp [TemplateChain, ht]
  | succ j ih =>
    intro x y t h ht
    unfold TemplateChain at h
    split at h
    · cases h
    · rename_i u hu
      have := ih u y t h ht
      rw [TemplateChain, hu]
      exact this

theorem OnTemplateCycle_template (s : SBuildState) (x : String) (h : OnTemplateCycle s x) :
    ∃ b, FindBlueprint s.blueprints x = some b ∧ b.templateName ≠ "" ∧
      OnTemplateCycle s b.templateName := by
  obtain ⟨k, hk, hchain⟩ := h
  obtain ⟨j, rfl⟩ : ∃ j, k = j + 1 := ⟨k - 1, by omega⟩
  unfold TemplateChain at hchain
  split at hchain
  · cases hchain
  · rename_i t ht
    obtain ⟨b, hb, hne, hbt⟩ := TemplateOf_some s x t ht
    subst hbt
    exact ⟨b, hb, hne, j + 1, by omega, TemplateChain_step s j _ x _ hchain ht⟩

theorem OnTemplateCycle_closed (s : SBuildState)
    (hunreg : ∀ x, OnTemplateCycle s x → ¬ Known s x) :
    CycleClosed (OnTemplateCycle s) s :=
  fun x hx => ⟨hunreg x hx, OnTemplateCycle_template s x hx⟩

theorem CycleClosed_frame (S : String → Prop) (s s1 : SBuildState) (hframe : Frame s s1)
    (hreg : s1.registry = s.registry) (h : CycleClosed S s) : CycleClosed S s1 := by
  intro x hx
  obtain ⟨hk, b, hb, hne, hS⟩ := h x hx
  obtain ⟨b1, hb1, ht1, _, _⟩ := hframe.find_some x b hb
  refine ⟨?_, b1, hb1, by rw [ht1]; exact hne, by rw [ht1]; exact hS⟩
  intro hk1
  apply hk
  unfold Known at hk1 ⊢
  rw [hreg] at hk1
  exact hk1

theorem CycleClosed_finish (S : String → Prop) (sk : SBuildState) (n : String)
    (mapper : Mapper) (hname : mapper.name = n) (hn : ¬ S n) (h : CycleClosed S sk) :
    CycleClosed S (FinishState sk n mapper) := by
  intro x hx
  obtain ⟨hk, b, hb, hne, hS⟩ := h x hx
  have hxn : x ≠ n := fun e => hn (e ▸ hx)
  refine ⟨?_, b, by rw [FindBlueprint_finish_other sk n x mapper hxn]; exact hb, hne, hS⟩
  intro hk1
  rcases (Known_finish sk n x mapper hname).1 hk1 with e | hk2
  · exact hxn e.symm
  · exact hk hk2

theorem CycleClosed_mark (S : String → Prop) (s : SBuildState) (n : String) (b : SBlueprint)
    (hfind : FindBlueprint s.blueprints n = some b) (hatt : b.buildAttempted = false)
    (h : CycleClosed S s) : CycleClosed S (MarkAttempted s n) :=
  CycleClosed_frame S s _ (Frame_mark s n b hfind hatt) rfl h

theorem CycleClosed_begin (S : String → Prop) (s : SBuildState) (n : String) (b : SBlueprint)
    (hfind : FindBlueprint s.blueprints n = some b) (hatt : b.buildAttempted = false)
    (h : CycleClosed S s) :
    CycleClosed S (Output (MarkAttempted s n) .Info .AttemptingTemplateBuild n) :=
  CycleClosed_frame S s _ (Frame_begin s n b hfind hatt) rfl h

theorem CycleClosed_output (S : String → Prop) (s : SBuildState) (severity : ESeverity)
    (text : EBuildMessage) (n : String) (h : CycleClosed S s) :
    CycleClosed S (Output s severity text n) :=
  CycleClosed_frame S s _ (Frame_output s severity text n) rfl h

theorem Builds_cycle (S : String → Prop) {n : String} {s : SBuildState} {r : Option Mapper}
    {s1 : SBuildState} (h : Builds n s r s1) :
    CycleClosed S s → CycleClosed S s1 ∧ (S n → r = none) := by
  induction h with
  | unrecognized hfind => exact fun hS => ⟨CycleClosed_output S _ _ _ _ hS, fun _ => rfl⟩
  | alreadyExists hfind hknown =>
    exact fun hS => ⟨CycleClosed_output S _ _ _ _ hS, fun _ => rfl⟩
  | invalid hfind hknown hcan =>
    exact fun hS => ⟨CycleClosed_output S _ _ _ _ hS, fun _ => rfl⟩
  | circular hfind hknown hcan hatt =>
    exact fun hS => ⟨CycleClosed_output S _ _ _ _ hS, fun _ => rfl⟩
  | @noTemplate n s b hfind hknown hcan hatt htmpl =>
    intro hS
    have hn : ¬ S n := by
      intro hSn
      obtain ⟨_, b1, hb1, hne, _⟩ := hS n hSn
      rw [hfind] at hb1
      cases hb1
      exact hne htmpl
    have hk : FindBlueprint (MarkAttempted s n).blueprints n
        = some { b with buildAttempted := true } := by
      rw [FindBlueprint_mark_same, hfind]; rfl
    rw [FinishBuild_eq _ n _ _ hk]
    exact ⟨CycleClosed_finish S _ n _ rfl hn (CycleClosed_mark S s n b hfind hatt hS),
      fun hSn => absurd hSn hn⟩
  | @templateKnown n s b hfind hknown hcan hatt htmpl htk =>
    intro hS
    have hn : ¬ S n := by
      intro hSn
      obtain ⟨_, b1, hb1, _, hSt⟩ := hS n hSn
      rw [hfind] at hb1
      cases hb1
      exact (hS _ hSt).1 htk
    have hk : FindBlueprint (MarkAttempted s n).blueprints n
        = some { b with buildAttempted := true } := by
      rw [FindBlueprint_mark_same, hfind]; rfl
    obtain ⟨tm, htm, heq⟩ := BuildFromTemplate_eq (MarkAttempted s n) n b.templateName _ hk htk
    rw [heq]
    exact ⟨CycleClosed_finish S _ n _ rfl hn (CycleClosed_mark S s n b hfind hatt hS),
      fun hSn => absurd hSn hn⟩
  | @templateFailed n s s3 b hfind hknown hcan hatt htmpl htk hrec ih =>
    intro hS
    exact ⟨CycleClosed_output S _ _ _ _ (ih (CycleClosed_begin S s n b hfind hatt hS)).1,
      fun _ => rfl⟩
  | @templateBuilt n s s3 b m hfind hknown hcan hatt htmpl htk hrec htk3 ih =>
    intro hS
    obtain ⟨hS3, hrt⟩ := ih (CycleClosed_begin S s n b hfind hatt hS)
    have hn : ¬ S n := by
      intro hSn
      obtain ⟨_, b1, hb1, _, hSt⟩ := hS n hSn
      rw [hfind] at hb1
      cases hb1
      cases hrt hSt
    have h2 : FindBlueprint
        (Output (MarkAttempted s n) .Info .AttemptingTemplateBuild n).blueprints n
        = some { b with buildAttempted := true } := by
      show FindBlueprint (MarkAttempted s n).blueprints n = _
      rw [FindBlueprint_mark_same, hfind]; rfl
    have hk : FindBlueprint s3.blueprints n = some { b with buildAttempted := true } := by
      obtain ⟨b3, hb3, _, _, ha3⟩ := (Builds_outcome hrec).frame.find_some n _ h2
      rw [hb3, ha3 rfl]
    obtain ⟨tm, htm, heq⟩ := BuildFromTemplate_eq s3 n b.templateName _ hk htk3
    rw [heq]
    exact ⟨CycleClosed_finish S _ n _ rfl hn hS3, fun hSn => absurd hSn hn⟩
  | @templateNotRegistered n s s3 b m hfind hknown hcan hatt htmpl htk hrec htk3 ih =>
    intro hS
    exact ⟨CycleClosed_output S _ _ _ _ (ih (CycleClosed_begin S s n b hfind hatt hS)).1,
      fun _ => rfl⟩

theorem Loops_cycle (S : String → Prop) {names : List String} {s : SBuildState} {r : Bool}
    {s1 : SBuildState} (h : Loops names s r s1) :
    CycleClosed S s → CycleClosed S s1 ∧
      ((∃ c, c ∈ names ∧ S c ∧ ∃ b, FindBlueprint s.blueprints c = some b ∧
          b.buildAttempted = false ∧ b.buildCanAttempt = true) → r = false) := by
  induction h with
  | done =>
    intro hS
    exact ⟨hS, fun ⟨c, hc, _⟩ => by cases hc⟩
  | @missing x rest s s1 r hfind hrest ih =>
    intro hS
    refine ⟨(ih hS).1, ?_⟩
    rintro ⟨c, hc, hSc, b, hb, hatt, hcan⟩
    rcases List.mem_cons.1 hc with e | hmem
    · subst e; rw [hfind] at hb; cases hb
    · exact (ih hS).2 ⟨c, hmem, hSc, b, hb, hatt, hcan⟩
  | @skipped x rest s s1 r bx hfind hskip hrest ih =>
    intro hS
    refine ⟨(ih hS).1, ?_⟩
    rintro ⟨c, hc, hSc, b, hb, hatt, hcan⟩
    rcases List.mem_cons.1 hc with e | hmem
    · subst e
      rw [hfind] at hb
      cases hb
      rcases hskip with h | h
      · rw [hatt] at h; cases h
      · rw [hcan] at h; cases h
    · exact (ih hS).2 ⟨c, hmem, hSc, b, hb, hatt, hcan⟩
  | @failed x rest s s1 bx hfind hatt hcan hbuild =>
    intro hS
    exact ⟨(Builds_cycle S hbuild hS).1, fun _ => rfl⟩
  | @built x rest s s1 s2 r bx m hfind hattx hcanx hbuild hrest ih =>
    intro hS
    obtain ⟨hS1, hx⟩ := Builds_cycle S hbuild hS
    refine ⟨(ih hS1).1, ?_⟩
    rintro ⟨c, hc, hSc, b, hb, hatt, hcan⟩
    have hout := Builds_outcome hbuild
    have hcx : c ≠ x := by
      intro e
      subst e
      cases hx hSc
    have hmem : c ∈ rest := by
      rcases List.mem_cons.1 hc with e | hmem
      · exact absurd e hcx
      · exact hmem
    obtain ⟨b1, hb1, _, hc1, _⟩ := hout.frame.find_some c b hb
    have hatt1 : b1.buildAttempted = false := by
      cases hb1a : b1.buildAttempted with
      | false => rfl
      | true =>
        exact absurd (hout.attempted_known m rfl c b b1 hb hatt hb1 hb1a) (hS1 c hSc).1
    exact (ih hS1).2 ⟨c, hmem, hSc, b1, hb1, hatt1, hc1.trans hcan⟩

/-! ## Messages of a build -/

theorem FirstError_append_none (a b : List SMessage) (h : FirstError a = none) :
    FirstError (a ++ b) = FirstError b := by
  unfold FirstError at h ⊢
  rw [List.find?_append]
  cases hfa : List.find? (fun m => decide (m.severity = ESeverity.Error)) a with
  | none => simp
  | some m => rw [hfa] at h; cases h

theorem FirstError_append_some (a b : List SMessage) (e : EBuildMessage)
    (h : FirstError a = some e) : FirstError (a ++ b) = some e := by
  unfold FirstError at h ⊢
  rw [List.find?_append]
  cases hfa : List.find? (fun m => decide (m.severity = ESeverity.Error)) a with
  | none => rw [hfa] at h; cases h
  | some m => rw [hfa] at h; simpa using h

theorem NewMessages_eq (s s1 : SBuildState) (new : List SMessage)
    (h : s1.messages = s.messages ++ new) : NewMessages s s1 = new := by
  simp [NewMessages, h]

theorem Frame_find_back {s s1 : SBuildState} (hframe : Frame s s1) (x : String)
    (b1 : SBlueprint) (h1 : FindBlueprint s1.blueprints x = some b1) :
    ∃ b, FindBlueprint s.blueprints x = some b ∧ b1.templateName = b.templateName ∧
      b1.buildCanAttempt = b.buildCanAttempt ∧ (b.buildAttempted = true → b1 = b) := by
  cases h0 : FindBlueprint s.blueprints x with
  | none => rw [hframe.find_none x h0] at h1; cases h1
  | some b =>
    obtain ⟨b1x, hb1x, ht, hc, ha⟩ := hframe.find_some x b h0
    rw [h1] at hb1x
    cases hb1x
    exact ⟨b, rfl, ht, hc, ha⟩

theorem Buildable_frame {s s1 : SBuildState} (hframe : Frame s s1) (h : Buildable s) :
    Buildable s1 where
  can := by
    intro x b1 h1
    obtain ⟨b, hb, _, hc, _⟩ := Frame_find_back hframe x b1 h1
    rw [hc]
    exact h.can x b hb
  template := by
    intro x b1 h1 hne
    obtain ⟨b, hb, ht, _, _⟩ := Frame_find_back hframe x b1 h1
    rw [ht] at hne ⊢
    rcases h.template x b hb hne with hk | ⟨bt, hbt⟩
    · exact Or.inl (hframe.known_mono _ hk)
    · obtain ⟨bt1, hbt1, _⟩ := hframe.find_some _ bt hbt
      exact Or.inr ⟨bt1, hbt1⟩
  unknown := by
    intro x b1 h1 hatt hk
    obtain ⟨b, hb, _, _, ha⟩ := Frame_find_back hframe x b1 h1
    have hatt0 : b.buildAttempted = false := by
      cases hba : b.buildAttempted with
      | false => rfl
      | true =>
        have e := ha hba
        subst e
        rw [hatt] at hba
        cases hba
    rcases hframe.known_new x hk with hk0 | ⟨b0, b1', _, _, hb1', ha1'⟩
    · exact h.unknown x b hb hatt0 hk0
    · rw [h1] at hb1'
      cases hb1'
      rw [hatt] at ha1'
      cases ha1'

theorem Builds_messages {n : String} {s : SBuildState} {r : Option Mapper} {s1 : SBuildState}
    (h : Builds n s r s1) :
    Buildable s → (∃ b, FindBlueprint s.blueprints n = some b) → ¬ Known s n →
      ∃ new, s1.messages = s.messages ++ new ∧
        FirstError new = if r.isSome = true then none
          else some EBuildMessage.CircularTemplateDependency := by
  induction h with
  | unrecognized hfind =>
    rintro _ ⟨b, hb⟩ _
    rw [hfind] at hb
    cases hb
  | alreadyExists hfind hknown => exact fun _ _ hk => absurd hknown hk
  | @invalid n s b hfind hknown hcan =>
    intro hgood _ _
    have := hgood.can n b hfind
    rw [hcan] at this
    cases this
  | circular hfind hknown hcan hatt =>
    intro _ _ _
    exact ⟨_, rfl, by simp [FirstError]⟩
  | @noTemplate n s b hfind hknown hcan hatt htmpl =>
    intro _ _ _
    have hk : FindBlueprint (MarkAttempted s n).blueprints n
        = some { b with buildAttempted := true } := by
      rw [FindBlueprint_mark_same, hfind]; rfl
    rw [FinishBuild_eq _ n _ _ hk]
    exact ⟨[⟨.Info, .SuccessfullyBuilt, n⟩], rfl, by simp [FirstError]⟩
  | @templateKnown n s b hfind hknown hcan hatt htmpl htk =>
    intro _ _ _
    have hk : FindBlueprint (MarkAttempted s n).blueprints n
        = some { b with buildAttempted := true } := by
      rw [FindBlueprint_mark_same, hfind]; rfl
    obtain ⟨tm, htm, heq⟩ := BuildFromTemplate_eq (MarkAttempted s n) n b.templateName _ hk htk
    rw [heq]
    exact ⟨[⟨.Info, .SuccessfullyBuilt, n⟩], rfl, by simp [FirstError]⟩
  | @templateFailed n s s3 b hfind hknown hcan hatt htmpl htk hrec ih =>
    intro hgood _ _
    have hframe := Frame_begin s n b hfind hatt
    have hfindt : ∃ bt, FindBlueprint
        (Output (MarkAttempted s n) .Info .AttemptingTemplateBuild n).blueprints
        b.templateName = some bt := by
      rcases hgood.template n b hfind htmpl with hk | ⟨bt, hbt⟩
      · exact absurd hk htk
      · obtain ⟨bt1, hbt1, _⟩ := hframe.find_some _ bt hbt
        exact ⟨bt1, hbt1⟩
    obtain ⟨new3, h3, hfe⟩ := ih (Buildable_frame hframe hgood) hfindt htk
    refine ⟨[⟨.Info, .AttemptingTemplateBuild, n⟩] ++ new3
      ++ [⟨.Error, .TemplateDependencyFailed, n⟩], ?_, ?_⟩
    · simp only [Output, h3, MarkAttempted, ModifyBlueprint, List.append_assoc]
    · simp only [Option.isSome_none, Bool.false_eq_true, if_false] at hfe ⊢
      rw [List.append_assoc]
      rw [FirstError_append_none _ _ (by simp [FirstError])]
      exact FirstError_append_some _ _ _ hfe
  | @templateBuilt n s s3 b m hfind hknown hcan hatt htmpl htk hrec htk3 ih =>
    intro hgood _ _
    have hframe := Frame_begin s n b hfind hatt
    have hfindt : ∃ bt, FindBlueprint
        (Output (MarkAttempted s n) .Info .AttemptingTemplateBuild n).blueprints
        b.templateName = some bt := by
      rcases hgood.template n b hfind htmpl with hk | ⟨bt, hbt⟩
      · exact absurd hk htk
      · obtain ⟨bt1, hbt1, _⟩ := hframe.find_some _ bt hbt
        exact ⟨bt1, hbt1⟩
    obtain ⟨new3, h3, hfe⟩ := ih (Buildable_frame hframe hgood) hfindt htk
    have h2 : FindBlueprint
        (Output (MarkAttempted s n) .Info .AttemptingTemplateBuild n).blueprints n
        = some { b with buildAttempted := true } := by
      show FindBlueprint (MarkAttempted s n).blueprints n = _
      rw [FindBlueprint_mark_same, hfind]; rfl
    have hk : FindBlueprint s3.blueprints n = some { b with buildAttempted := true } := by
      obtain ⟨b3, hb3, _, _, ha3⟩ := (Builds_outcome hrec).frame.find_some n _ h2
      rw [hb3, ha3 rfl]
    obtain ⟨tm, htm, heq⟩ := BuildFromTemplate_eq s3 n b.templateName _ hk htk3
    rw [heq]
    refine ⟨[⟨.Info, .AttemptingTemplateBuild, n⟩] ++ new3
      ++ [⟨.Info, .SuccessfullyBuilt, n⟩], ?_, ?_⟩
    · simp only [FinishState, Output, h3, MarkAttempted, ModifyBlueprint, List.append_assoc]
    · simp only [Option.isSome_some, if_true] at hfe ⊢
      rw [List.append_assoc]
      rw [FirstError_append_none _ _ (by simp [FirstError])]
      rw [FirstError_append_none _ _ hfe]
      simp [FirstError]
  | @templateNotRegistered n s s3 b m hfind hknown hcan hatt htmpl htk hrec htk3 ih =>
    intro _ _ _
    exfalso
    obtain ⟨b1, _, _, _, _, hname, hget, _⟩ := (Builds_outcome hrec).success m rfl
    exact htk3 ((Known_iff s3 _).2 ⟨m, hget⟩)

theorem Loops_messages {names : List String} {s : SBuildState} {r : Bool} {s1 : SBuildState}
    (h : Loops names s r s1) :
    Buildable s → ∃ new, s1.messages = s.messages ++ new ∧
      FirstError new = if r = true then none
        else some EBuildMessage.CircularTemplateDependency := by
  induction h with
  | done => exact fun _ => ⟨[], by simp, by simp [FirstError]⟩
  | missing _ _ ih => exact ih
  | skipped _ _ _ ih => exact ih
  | @failed x rest s s1 b hfind hatt hcan hbuild =>
    intro hgood
    obtain ⟨new, h1, h2⟩ :=
      Builds_messages hbuild hgood ⟨b, hfind⟩ (hgood.unknown x b hfind hatt)
    exact ⟨new, h1, by simpa using h2⟩
  | @built x rest s s1 s2 r b m hfind hatt hcan hbuild hrest ih =>
    intro hgood
    obtain ⟨new1, h1, hf1⟩ :=
      Builds_messages hbuild hgood ⟨b, hfind⟩ (hgood.unknown x b hfind hatt)
    obtain ⟨new2, h2, hf2⟩ := ih (Buildable_frame (Builds_outcome hbuild).frame hgood)
    refine ⟨new1 ++ new2, by rw [h2, h1, List.append_assoc], ?_⟩
    rw [FirstError_append_none _ _ (by simpa using hf1)]
    exact hf2

end MapperBuilder

/-! ## Lemmas on the state mapping -/

theorem ClampAnalogValue_bounds (value : Int) :
    kAnalogValueMin ≤ ClampAnalogValue value ∧ ClampAnalogValue value ≤ kAnalogValueMax := by
  unfold ClampAnalogValue
  split
  · simp [kAnalogValueMin, kAnalogValueMax]
  · split
    · simp [kAnalogValueMin, kAnalogValueMax]
    · constructor <;> omega

theorem ClampAnalogValue_above (value : Int) (h : value > kAnalogValueMax) :
    ClampAnalogValue value = kAnalogValueMax := by
  simp [ClampAnalogValue, h]

theorem ClampAnalogValue_below (value : Int) (h : value < kAnalogValueMin) :
    ClampAnalogValue value = kAnalogValueMin := by
  have h2 : ¬ value > kAnalogValueMax := by
    simp only [kAnalogValueMin, kAnalogValueMax] at h ⊢
    omega
  simp [ClampAnalogValue, h, h2]

theorem ClampAnalogValue_within (value : Int) (h1 : kAnalogValueMin ≤ value)
    (h2 : value ≤ kAnalogValueMax) : ClampAnalogValue value = value := by
  have h3 : ¬ value > kAnalogValueMax := by omega
  have h4 : ¬ value < kAnalogValueMin := by omega
  simp [ClampAnalogValue, h3, h4]

theorem filter_filterMap_tag {α β : Type} [DecidableEq α] (f : α → Option β) (tag : β → α)
    (htag : ∀ x y, f x = some y → tag y = x) (e : α) :
    ∀ (l : List α), l.Nodup → e ∈ l →
      (l.filterMap f).filter (fun y => decide (tag y = e)) = (f e).toList := by
  intro l
  induction l with
  | nil => intro _ he; cases he
  | cons x rest ih =>
    intro hnd he
    have hnd' := List.nodup_cons.1 hnd
    have hrest : ∀ (hne : e ∉ rest),
        (rest.filterMap f).filter (fun y => decide (tag y = e)) = [] := by
      intro hne
      apply List.filter_eq_nil_iff.2
      intro y hy
      obtain ⟨z, hz, hfz⟩ := List.mem_filterMap.1 hy
      have := htag z y hfz
      simp only [decide_eq_true_eq]
      intro e2
      apply hne
      rw [← e2, this]
      exact hz
    by_cases hx : x = e
    · subst hx
      cases hfx : f x with
      | none => simp [List.filterMap_cons, hfx, hrest hnd'.1]
      | some y =>
        have hty := htag x y hfx
        simp [List.filterMap_cons, hfx, List.filter_cons, hty, hrest hnd'.1]
    · have he' : e ∈ rest := by
        rcases List.mem_cons.1 he with h | h
        · exact absurd h.symm hx
        · exact h
      cases hfx : f x with
      | none => simp [List.filterMap_cons, hfx, ih hnd'.2 he']
      | some y =>
        have hty := htag x y hfx
        have hne : ¬ tag y = e := by rw [hty]; exact hx
        simp [List.filterMap_cons, hfx, List.filter_cons, hne, ih hnd'.2 he']

theorem ContributionCalls_filter (elements : UElementMap) (p : SPhysicalState)
    (i : Fin kElementMapSize) :
    (ContributionCalls elements p).filter (fun c => decide (c.index = i))
      = ((elements i).map (fun m => ⟨i, m, p.Reading i⟩)).toList := by
  unfold ContributionCalls
  refine filter_filterMap_tag
    (fun i => (elements i).map (fun m => (⟨i, m, p.Reading i⟩ : SContributionCall)))
    SContributionCall.index ?_ i _ (List.nodup_finRange _) (List.mem_finRange i)
  intro x y hxy
  cases hx : elements x with
  | none => simp [hx] at hxy
  | some m =>
    simp only [hx, Option.map_some', Option.some.injEq] at hxy
    rw [← hxy]

theorem ContributionCalls_empty (elements : UElementMap) (p : SPhysicalState)
    (h : ∀ i, elements i = none) : ContributionCalls elements p = [] := by
  unfold ContributionCalls
  apply List.filterMap_eq_nil_iff.2
  intro e _
  simp [h]

theorem ContributionCalls_mem (elements : UElementMap) (p : SPhysicalState)
    (c : SContributionCall) (hc : c ∈ ContributionCalls elements p) :
    elements c.index = some c.elementMapper ∧ c.reading = p.Reading c.index := by
  unfold ContributionCalls at hc
  obtain ⟨j, _, hj⟩ := List.mem_filterMap.1 hc
  cases hm : elements j with
  | none => simp [hm] at hj
  | some m =>
    simp only [hm, Option.map_some', Option.some.injEq] at hj
    subst hj
    exact ⟨hm, rfl⟩

theorem ContributionCalls_single (elements : UElementMap) (p : SPhysicalState)
    (i : Fin kElementMapSize) (m : IElementMapper) (hi : elements i = some m)
    (hothers : ∀ j, j ≠ i → elements j = none) :
    ContributionCalls elements p = [⟨i, m, p.Reading i⟩] := by
  have hall : (ContributionCalls elements p).filter (fun c => decide (c.index = i))
      = ContributionCalls elements p := by
    apply List.filter_eq_self.2
    intro c hc
    have hmem := (ContributionCalls_mem elements p c hc).1
    by_cases hci : c.index = i
    · simp [hci]
    · rw [hothers c.index hci] at hmem
      cases hmem
  rw [← hall, ContributionCalls_filter, hi]
  rfl

theorem ContributionCalls_length (elements : UElementMap) (p : SPhysicalState) :
    (ContributionCalls elements p).length
      = ((List.finRange kElementMapSize).filter (fun i => (elements i).isSome)).length := by
  unfold ContributionCalls
  generalize List.finRange kElementMapSize = l
  induction l with
  | nil => rfl
  | cons x rest ih =>
    cases hx : elements x with
    | none => simp [List.filterMap_cons, List.filter_cons, hx, ih]
    | some m => simp [List.filterMap_cons, List.filter_cons, hx, ih]

theorem Reading_extended (p : SPhysicalState) (i : Fin kElementMapSize) (h : 20 ≤ i.val) :
    p.Reading i = p.extended i := by
  unfold SPhysicalState.Reading
  split <;> first | rfl | omega

/-! ## Lemmas on capabilities -/

theorem mem_TargetElements (elements : UElementMap) (t : SElementIdentifier) :
    t ∈ TargetElements elements ↔ ∃ i m, elements i = some m ∧ t ∈ m.GetTargetElements := by
  unfold TargetElements
  rw [List.mem_flatMap]
  constructor
  · rintro ⟨i, _, ht⟩
    cases hm : elements i with
    | none => simp [hm] at ht
    | some m => exact ⟨i, m, hm, by simpa [hm] using ht⟩
  · rintro ⟨i, m, hm, ht⟩
    exact ⟨i, List.mem_finRange i, by simpa [hm] using ht⟩

theorem ButtonCount_ge (l : List SElementIdentifier) (b : EButton)
    (h : SElementIdentifier.Button b ∈ l) : b.val + 1 ≤ ButtonCount l := by
  induction l with
  | nil => cases h
  | cons t rest ih =>
    rcases List.mem_cons.1 h with e | hmem
    · subst e
      simp [ButtonCount]
    · have := ih hmem
      cases t <;> simp only [ButtonCount] <;> omega

theorem ButtonCount_attained (l : List SElementIdentifier) (h : ButtonCount l ≠ 0) :
    ∃ b, SElementIdentifier.Button b ∈ l ∧ ButtonCount l = b.val + 1 := by
  induction l with
  | nil => simp [ButtonCount] at h
  | cons t rest ih =>
    cases t with
    | Button b =>
      simp only [ButtonCount] at h ⊢
      by_cases hle : ButtonCount rest ≤ b.val + 1
      · exact ⟨b, List.mem_cons_self _ _, by omega⟩
      · have hne : ButtonCount rest ≠ 0 := by omega
        obtain ⟨b2, hb2, he⟩ := ih hne
        exact ⟨b2, List.mem_cons_of_mem _ hb2, by omega⟩
    | Axis a =>
      simp only [ButtonCount] at h ⊢
      obtain ⟨b2, hb2, he⟩ := ih h
      exact ⟨b2, List.mem_cons_of_mem _ hb2, he⟩
    | Pov =>
      simp only [ButtonCount] at h ⊢
      obtain ⟨b2, hb2, he⟩ := ih h
      exact ⟨b2, List.mem_cons_of_mem _ hb2, he⟩
    | WholeController =>
      simp only [ButtonCount] at h ⊢
      obtain ⟨b2, hb2, he⟩ := ih h
      exact ⟨b2, List.mem_cons_of_mem _ hb2, he⟩

theorem ButtonCount_congr (l1 l2 : List SElementIdentifier)
    (h : ∀ b, SElementIdentifier.Button b ∈ l1 ↔ SElementIdentifier.Button b ∈ l2) :
    ButtonCount l1 = ButtonCount l2 := by
  have key : ∀ (a c : List SElementIdentifier),
      (∀ b, SElementIdentifier.Button b ∈ a → SElementIdentifier.Button b ∈ c) →
      ButtonCount a ≤ ButtonCount c := by
    intro a c hac
    by_cases h0 : ButtonCount a = 0
    · omega
    · obtain ⟨b, hb, he⟩ := ButtonCount_attained a h0
      have := ButtonCount_ge c b (hac b hb)
      omega
  exact Nat.le_antisymm (key l1 l2 (fun b => (h b).1)) (key l2 l1 (fun b => (h b).2))

theorem EAxis.mem_all_axes (a : EAxis) : a ∈ EAxis.all := by
  cases a <;> simp [EAxis.all]

theorem EAxis.sorted_all_axes : EAxis.all.Pairwise (fun a b => a.toNat < b.toNat) := by
  decide

theorem axisType_eq (elements : UElementMap) (actuators : SForceFeedbackActuatorMap) :
    (DeriveCapabilities elements actuators).axisType
      = EAxis.all.filter
          (fun axis => decide (axis ∈ kRequiredAxes) ||
            decide (SElementIdentifier.Axis axis ∈ TargetElements elements)) := by
  simp only [DeriveCapabilities, SCapabilities.axisType, List.map_map]
  exact List.map_id _

theorem TargetElements_empty (elements : UElementMap) (hempty : ∀ i, elements i = none) :
    TargetElements elements = [] := by
  apply List.eq_nil_iff_forall_not_mem.2
  intro t ht
  obtain ⟨i, m, hm, _⟩ := (mem_TargetElements elements t).1 ht
  rw [hempty i] at hm
  cases hm

theorem mem_TargetElements_update (elements : UElementMap) (i : Fin kElementMapSize)
    (m : IElementMapper) (hi : elements i = none) (t : SElementIdentifier) :
    t ∈ TargetElements (Function.update elements i (some m))
      ↔ t ∈ m.GetTargetElements ∨ t ∈ TargetElements elements := by
  rw [mem_TargetElements, mem_TargetElements]
  constructor
  · rintro ⟨j, mj, hj, ht⟩
    by_cases hji : j = i
    · subst hji
      simp only [Function.update_same, Option.some.injEq] at hj
      subst hj
      exact Or.inl ht
    · rw [Function.update_noteq hji] at hj
      exact Or.inr ⟨j, mj, hj, ht⟩
  · rintro (ht | ⟨j, mj, hj, ht⟩)
    · exact ⟨i, m, by simp, ht⟩
    · have hji : j ≠ i := by
        intro e
        subst e
        rw [hi] at hj
        cases hj
      exact ⟨j, mj, by rw [Function.update_noteq hji]; exact hj, ht⟩

/-! ## Theorems on the mapper builder -/

namespace MapperBuilder

theorem Loops_all_skipped {names : List String} {s : SBuildState} {r : Bool}
    {s1 : SBuildState} (h : Loops names s r s1) :
    (∀ n b, FindBlueprint s.blueprints n = some b →
      b.buildAttempted = true ∨ b.buildCanAttempt = false) → r = true ∧ s1 = s := by
  induction h with
  | done => exact fun _ => ⟨rfl, rfl⟩
  | missing _ _ ih => exact ih
  | skipped _ _ _ ih => exact ih
  | @failed x rest s s1 b hfind hatt hcan hbuild =>
    intro hall
    rcases hall x b hfind with h | h
    · rw [hatt] at h; cases h
    · rw [hcan] at h; cases h
  | @built x rest s s1 s2 r b m hfind hatt hcan hbuild hrest ih =>
    intro hall
    rcases hall x b hfind with h | h
    · rw [hatt] at h; cases h
    · rw [hcan] at h; cases h

/-- C1 (counterexample): the claim that `Build()` on a builder with a template
cycle fails and leaves no layout registered is false. With a blueprint A
without template followed by the cycle of B and C, `Build()` fails but A has
been built and registered; with a cycle of invalidated blueprints `Build()`
skips them, succeeds and outputs no error. -/
theorem Build_cycle_counterexample :
    OnTemplateCycle Example.CycleAfterSingle "B" ∧
    (Build Example.CycleAfterSingle).map (fun r => (r.1, r.2.registry.map Mapper.name))
      = some (false, ["A"]) ∧
    OnTemplateCycle Example.CycleInvalidated "A" ∧
    (Build Example.CycleInvalidated).map
        (fun r => (r.1, r.2.registry.map Mapper.name, r.2.messages))
      = some (true, [], []) :=
  ⟨⟨2, by decide, by decide⟩, by decide, ⟨2, by decide, by decide⟩, by decide⟩

/-- C1 (amended): when no blueprint on a template cycle is registered and some
blueprint on a cycle is buildable and not yet attempted, `Build()` fails and
none of the blueprints on a template cycle becomes a registered mapper; if
moreover no blueprint is invalidated, every template names a blueprint or a
registered mapper and no unattempted blueprint is registered, the first error
output is the circular template dependency. -/
theorem Build_cycle_fails (s : SBuildState) (c : String) (b : SBlueprint)
    (hcycle : OnTemplateCycle s c)
    (hfind : FindBlueprint s.blueprints c = some b)
    (hatt : b.buildAttempted = false) (hcan : b.buildCanAttempt = true)
    (hunreg : ∀ x, OnTemplateCycle s x → ¬ Known s x) :
    ∃ s1, Build s = some (false, s1) ∧
      (∀ x, OnTemplateCycle s x → ¬ Known s1 x) ∧
      (Buildable s →
        FirstError (NewMessages s s1) = some EBuildMessage.CircularTemplateDependency) := by
  obtain ⟨r, s1, hb, hloop⟩ := BuildLoop_sound (s.blueprints.map Prod.fst) s
  obtain ⟨hS1, hr⟩ := Loops_cycle (OnTemplateCycle s) hloop (OnTemplateCycle_closed s hunreg)
  have hfalse : r = false :=
    hr ⟨c, FindBlueprint_mem_keys _ _ _ hfind, hcycle, b, hfind, hatt, hcan⟩
  subst hfalse
  refine ⟨s1, hb, fun x hx => (hS1 x hx).1, ?_⟩
  intro hgood
  obtain ⟨new, hnew, hfe⟩ := Loops_messages hloop hgood
  rw [NewMessages_eq s s1 new hnew]
  simpa using hfe

theorem Example.CycleAB_unregistered (x : String) : ¬ Known Example.CycleAB x := by
  simp [Known, Mapper.IsMapperNameKnown, Mapper.GetByName, Example.CycleAB]

theorem Example.CycleAB_buildable : Buildable Example.CycleAB where
  can := by
    intro x b h
    simp only [Example.CycleAB, FindBlueprint] at h
    split at h
    · cases h; rfl
    · split at h
      · cases h; rfl
      · cases h
  template := by
    intro x b h _
    simp only [Example.CycleAB, FindBlueprint] at h
    split at h
    · cases h
      exact Or.inr ⟨Example.Blueprint "A", rfl⟩
    · split at h
      · cases h
        exact Or.inr ⟨Example.Blueprint "B", rfl⟩
      · cases h
  unknown := fun x _ _ _ => Example.CycleAB_unregistered x

/-- C1 (witness): for blueprints A with template B and B with template A,
`Build()` fails, the first error is the circular template dependency and
neither A nor B is registered. -/
theorem Build_cycle_fails_witness :
    Buildable Example.CycleAB ∧
    ∃ s1, Build Example.CycleAB = some (false, s1) ∧
      (∀ x, OnTemplateCycle Example.CycleAB x → ¬ Known s1 x) ∧
      FirstError (NewMessages Example.CycleAB s1)
        = some EBuildMessage.CircularTemplateDependency := by
  obtain ⟨s1, h1, h2, h3⟩ := Build_cycle_fails Example.CycleAB "A" (Example.Blueprint "B")
    ⟨2, by decide, by decide⟩ rfl rfl rfl (fun x _ => Example.CycleAB_unregistered x)
  exact ⟨Example.CycleAB_buildable, s1, h1, h2, h3 Example.CycleAB_buildable⟩

/-- C4: when `Build(name)` succeeds, the mapper it constructs and registers
under the name holds at every element index the blueprint's own element mapper
where the blueprint records a change (a recorded null pointer leaves no mapper
there), and otherwise a copy of the element of the registered template mapper,
or no mapper when the blueprint has no template. -/
theorem Build_element_map (s s1 : SBuildState) (n : String) (m : Mapper) (b : SBlueprint)
    (hbuild : BuildByName n s = some (some m, s1))
    (hfind : FindBlueprint s.blueprints n = some b) :
    m.name = n ∧ Mapper.GetByName s1.registry n = some m ∧
    ∀ i : Fin kElementMapSize,
      (∀ e, b.changesFromTemplate i = some e → m.elements i = e) ∧
      (b.changesFromTemplate i = none →
        (b.templateName = "" → m.elements i = none) ∧
        (b.templateName ≠ "" →
          ∃ tm, Mapper.GetByName s1.registry b.templateName = some tm ∧
            m.elements i = tm.elements i)) := by
  obtain ⟨b1, hb1, _, _, _, hname, hget, start, helems, hempty, htmpl⟩ :=
    (Builds_outcome (BuildByName_sound n s _ s1 hbuild)).success m rfl
  rw [hfind] at hb1
  cases hb1
  refine ⟨hname, hget, ?_⟩
  intro i
  constructor
  · intro e he
    rw [helems]
    simp [ApplyChanges, he]
  · intro hnone
    constructor
    · intro ht
      rw [helems, hempty ht]
      simp [ApplyChanges, hnone, UElementMap.empty]
    · intro ht
      obtain ⟨tm, htm, hstart⟩ := htmpl ht
      refine ⟨tm, htm, ?_⟩
      rw [helems, hstart]
      show ApplyChanges tm.elements b.changesFromTemplate i = tm.elements i
      simp [ApplyChanges, hnone]

/-- C4 (witness): blueprint A has template T, clears element 0 and sets a POV
mapper for element 2; T sets an axis mapper for element 0 and a button mapper
for element 1. The mapper built for A has no mapper at element 0, the button
mapper of the registered mapper T at element 1, the POV mapper at element 2
and, as T, no mapper at element 3. -/
theorem Build_element_map_witness :
    ∃ m s1 tm, BuildByName "A" Example.Templated = some (some m, s1) ∧
      Mapper.GetByName s1.registry "T" = some tm ∧
      tm.elements 0 = some (AxisMapper .X) ∧ m.elements 0 = none ∧
      m.elements 1 = tm.elements 1 ∧ m.elements 1 = some (ButtonMapper 0) ∧
      m.elements 2 = some (PovMapper .Up) ∧
      m.elements 3 = tm.elements 3 ∧ m.elements 3 = none := by
  obtain ⟨m, s1, hbuild, hreg⟩ :
      ∃ m s1, BuildByName "A" Example.Templated = some (some m, s1) ∧
        Mapper.GetByName s1.registry "T" = some (Mapper.Create "T"
          (ApplyChanges UElementMap.empty Example.TemplateChanges)) := ⟨_, _, rfl, rfl⟩
  have h := Build_element_map Example.Templated s1 "A" m Example.ChildBlueprint hbuild rfl
  obtain ⟨tm, htm, h1⟩ := ((h.2.2 1).2 rfl).2 (by decide)
  obtain ⟨tm3, htm3, h3⟩ := ((h.2.2 3).2 rfl).2 (by decide)
  rw [htm] at htm3
  cases htm3
  have htm2 : Mapper.GetByName s1.registry "T" = some tm := htm
  rw [hreg] at htm2
  cases htm2
  exact ⟨m, s1, _, hbuild, htm, rfl, (h.2.2 0).1 none rfl, h1, by rw [h1]; rfl,
    (h.2.2 2).1 (some (PovMapper .Up)) rfl, h3, by rw [h3]; rfl⟩

/-- C5: `Build()` always returns; it runs the loop that skips the blueprints
already attempted or invalidated, stops with `false` at the first build that
fails and goes on after a build that succeeds. Whenever it returns `true`,
every blueprint that was unattempted and buildable before the call is a
registered mapper afterwards, whatever the order of the blueprints; and a
builder whose blueprints are all attempted or invalidated makes `Build()`
return `true` without any change. -/
theorem Build_registers_all (s : SBuildState) :
    ∃ r s1, Build s = some (r, s1) ∧ Loops (s.blueprints.map Prod.fst) s r s1 ∧
      (r = true → ∀ n b, FindBlueprint s.blueprints n = some b →
        b.buildAttempted = false → b.buildCanAttempt = true → Known s1 n) ∧
      ((∀ n b, FindBlueprint s.blueprints n = some b →
        b.buildAttempted = true ∨ b.buildCanAttempt = false) → r = true ∧ s1 = s) := by
  obtain ⟨r, s1, hb, hloop⟩ := BuildLoop_sound (s.blueprints.map Prod.fst) s
  refine ⟨r, s1, hb, hloop, ?_, Loops_all_skipped hloop⟩
  intro hr n b hfind hatt hcan
  exact Loops_success_known hloop hr n (FindBlueprint_mem_keys _ _ _ hfind) b hfind hatt hcan

/-- C5 (witness): with blueprint A built on template B, blueprint B and an
invalidated blueprint C, `Build()` returns `true`, A and B are registered and C
is not. -/
theorem Build_registers_all_witness :
    ∃ s1, Build Example.Chain = some (true, s1) ∧ Known s1 "A" ∧ Known s1 "B" ∧
      ¬ Known s1 "C" := by
  obtain ⟨r, s1, hb, _, hreg, _⟩ := Build_registers_all Example.Chain
  have hr : (Build Example.Chain).map Prod.fst = some true := by decide
  have hc : (Build Example.Chain).map (fun x => decide (Known x.2 "C")) = some false := by
    decide
  rw [hb] at hr hc
  simp only [Option.map_some', Option.some.injEq] at hr hc
  subst hr
  exact ⟨s1, hb, hreg rfl "A" (Example.Blueprint "B") rfl rfl rfl,
    hreg rfl "B" (Example.Blueprint "") rfl rfl rfl, by simpa using hc⟩

end MapperBuilder

/-! ## Theorems on the state mapping -/

/-- C2: every axis value of the state produced by the physical-to-virtual
mapping lies between `kAnalogValueMin` and `kAnalogValueMax`: it is the sum of
the contributions clamped to the nearer bound. With all four stick axes mapped
to axis X and all at `kAnalogValueMax` the sum is four times the bound and X is
`kAnalogValueMax`; with all four mapped to RotX and all at `kAnalogValueMin`,
RotX is `kAnalogValueMin`; every other field is zero. -/
theorem MapStatePhysicalToVirtual_saturates :
    (∀ (mapper : Mapper) (p : SPhysicalState) (source : Nat) (a : EAxis),
      kAnalogValueMin ≤ (mapper.MapStatePhysicalToVirtual p source).axis a ∧
      (mapper.MapStatePhysicalToVirtual p source).axis a ≤ kAnalogValueMax ∧
      ((AccumulateContributions mapper.elements p).axis a > kAnalogValueMax →
        (mapper.MapStatePhysicalToVirtual p source).axis a = kAnalogValueMax) ∧
      ((AccumulateContributions mapper.elements p).axis a < kAnalogValueMin →
        (mapper.MapStatePhysicalToVirtual p source).axis a = kAnalogValueMin) ∧
      (kAnalogValueMin ≤ (AccumulateContributions mapper.elements p).axis a →
        (AccumulateContributions mapper.elements p).axis a ≤ kAnalogValueMax →
        (mapper.MapStatePhysicalToVirtual p source).axis a
          = (AccumulateContributions mapper.elements p).axis a)) ∧
    ((AccumulateContributions Example.SaturationPositive.elements Example.AllSticksMax).axis
        EAxis.X = 4 * kAnalogValueMax ∧
      (Example.SaturationPositive.MapStatePhysicalToVirtual Example.AllSticksMax 0).axis
        EAxis.X = kAnalogValueMax ∧
      (∀ a, a ≠ EAxis.X →
        (Example.SaturationPositive.MapStatePhysicalToVirtual Example.AllSticksMax 0).axis a
          = 0) ∧
      (∀ b, (Example.SaturationPositive.MapStatePhysicalToVirtual
        Example.AllSticksMax 0).button b = false) ∧
      (∀ d, (Example.SaturationPositive.MapStatePhysicalToVirtual
        Example.AllSticksMax 0).povDirection d = false)) ∧
    ((AccumulateContributions Example.SaturationNegative.elements Example.AllSticksMin).axis
        EAxis.RotX = 4 * kAnalogValueMin ∧
      (Example.SaturationNegative.MapStatePhysicalToVirtual Example.AllSticksMin 0).axis
        EAxis.RotX = kAnalogValueMin ∧
      (∀ a, a ≠ EAxis.RotX →
        (Example.SaturationNegative.MapStatePhysicalToVirtual Example.AllSticksMin 0).axis a
          = 0) ∧
      (∀ b, (Example.SaturationNegative.MapStatePhysicalToVirtual
        Example.AllSticksMin 0).button b = false) ∧
      (∀ d, (Example.SaturationNegative.MapStatePhysicalToVirtual
        Example.AllSticksMin 0).povDirection d = false)) := by
  refine ⟨?_, ⟨by decide, by decide, ?_, fun _ => rfl, fun _ => rfl⟩,
    ⟨by decide, by decide, ?_, fun _ => rfl, fun _ => rfl⟩⟩
  · intro mapper p source a
    refine ⟨(ClampAnalogValue_bounds _).1, (ClampAnalogValue_bounds _).2, ?_, ?_, ?_⟩
    · exact ClampAnalogValue_above _
    · exact ClampAnalogValue_below _
    · exact ClampAnalogValue_within _
  · intro a ha
    cases a <;> first | exact absurd rfl ha | rfl
  · intro a ha
    cases a <;> first | exact absurd rfl ha | rfl

/-- C3: the state returned by one mapping pass is the clamped result of its
invocations, applied in order to the neutral state, and the pass invokes each
non-null element mapper exactly once: through the analog operation with the
reading of its stick axis for the four stick axes, through the trigger
operation for LT and RT, through the button operation for the d-pad and the
ten buttons, and with the reading the snapshot holds for its element for the
elements after the first twenty; a slot without mapper has no invocation, and
every invocation is that of the mapper of its slot. A layout with a single
element mapper returns the clamped contribution of that mapper to the neutral
state, made with the reading of its own element. -/
theorem MapStatePhysicalToVirtual_routes (mapper : Mapper) (p : SPhysicalState)
    (source : Nat) :
    (mapper.MapStatePhysicalToVirtual p source
      = ((ContributionCalls mapper.elements p).foldl
          (fun state call => call.elementMapper.Contribute state call.reading)
          SState.neutral).ClampAxes) ∧
    (∀ entry ∈ [((0 : Fin kElementMapSize), SReading.Analog p.sThumbLX),
        (1, .Analog p.sThumbLY), (2, .Analog p.sThumbRX), (3, .Analog p.sThumbRY),
        (4, .Button p.dpadUp), (5, .Button p.dpadDown), (6, .Button p.dpadLeft),
        (7, .Button p.dpadRight), (8, .Trigger p.bLeftTrigger), (9, .Trigger p.bRightTrigger),
        (10, .Button p.buttonA), (11, .Button p.buttonB), (12, .Button p.buttonX),
        (13, .Button p.buttonY), (14, .Button p.buttonLB), (15, .Button p.buttonRB),
        (16, .Button p.buttonBack), (17, .Button p.buttonStart), (18, .Button p.buttonLS),
        (19, .Button p.buttonRS)],
      ∀ m, mapper.elements entry.1 = some m →
        (ContributionCalls mapper.elements p).filter (fun c => decide (c.index = entry.1))
          = [⟨entry.1, m, entry.2⟩] ∧
        ((∀ j, j ≠ entry.1 → mapper.elements j = none) →
          mapper.MapStatePhysicalToVirtual p source
            = (m.Contribute SState.neutral entry.2).ClampAxes)) ∧
    (∀ i : Fin kElementMapSize, 20 ≤ i.val → ∀ m, mapper.elements i = some m →
      (ContributionCalls mapper.elements p).filter (fun c => decide (c.index = i))
        = [⟨i, m, p.extended i⟩] ∧
      ((∀ j, j ≠ i → mapper.elements j = none) →
        mapper.MapStatePhysicalToVirtual p source
          = (m.Contribute SState.neutral (p.extended i)).ClampAxes)) ∧
    (∀ i, mapper.elements i = none →
      (ContributionCalls mapper.elements p).filter (fun c => decide (c.index = i)) = []) ∧
    (∀ c ∈ ContributionCalls mapper.elements p,
      mapper.elements c.index = some c.elementMapper) ∧
    ((ContributionCalls mapper.elements p).length
      = ((List.finRange kElementMapSize).filter
          (fun i => (mapper.elements i).isSome)).length) ∧
    (∀ (state : SState) (m : IElementMapper) (analog : Int) (trigger : Nat) (pressed : Bool),
      m.Contribute state (.Analog analog) = m.ContributeFromAnalogValue state analog ∧
      m.Contribute state (.Trigger trigger) = m.ContributeFromTriggerValue state trigger ∧
      m.Contribute state (.Button pressed) = m.ContributeFromButtonValue state pressed) := by
  have hone : ∀ (i : Fin kElementMapSize) (m : IElementMapper) (r : SReading),
      p.Reading i = r → mapper.elements i = some m →
      (ContributionCalls mapper.elements p).filter (fun c => decide (c.index = i))
          = [⟨i, m, r⟩] ∧
        ((∀ j, j ≠ i → mapper.elements j = none) →
          mapper.MapStatePhysicalToVirtual p source
            = (m.Contribute SState.neutral r).ClampAxes) := by
    intro i m r hr hm
    subst hr
    constructor
    · rw [ContributionCalls_filter, hm]
      rfl
    · intro hothers
      show (AccumulateContributions mapper.elements p).ClampAxes = _
      unfold AccumulateContributions
      rw [ContributionCalls_single mapper.elements p i m hm hothers]
      rfl
  refine ⟨rfl, ?_, ?_, ?_, ?_, ContributionCalls_length _ _, fun _ _ _ _ _ => ⟨rfl, rfl, rfl⟩⟩
  · intro entry hentry m hm
    refine hone entry.1 m entry.2 ?_ hm
    simp only [List.mem_cons, List.mem_singleton, List.not_mem_nil, or_false] at hentry
    rcases hentry with h | h | h | h | h | h | h | h | h | h | h | h | h | h | h | h | h | h |
      h | h <;> (subst h; rfl)
  · intro i hi m hm
    exact hone i m (p.extended i) (Reading_extended p i hi) hm
  · intro i hm
    rw [ContributionCalls_filter, hm]
    rfl
  · intro c hc
    exact (ContributionCalls_mem mapper.elements p c hc).1

/-- C3 (witness): with an axis mapper on the right trigger alone, a pass over
the deflected snapshot makes one invocation, with the reading 128 of the right
trigger, and returns the clamped contribution of the trigger operation of that
mapper to the neutral state: axis Z holds the contribution of the reading. -/
theorem MapStatePhysicalToVirtual_routes_witness :
    (ContributionCalls Example.TriggerToAxis.elements Example.Deflected).map
        (fun c => (c.index, c.reading)) = [(9, .Trigger 128)] ∧
    Example.TriggerToAxis.MapStatePhysicalToVirtual Example.Deflected 0
      = ((AxisMapper .Z).ContributeFromTriggerValue SState.neutral 128).ClampAxes ∧
    (Example.TriggerToAxis.MapStatePhysicalToVirtual Example.Deflected 0).axis .Z
      = 128 * kAnalogValueMax / 255 := by
  have h := ((MapStatePhysicalToVirtual_routes Example.TriggerToAxis Example.Deflected 0).2.1
    (9, .Trigger 128) (by decide) (AxisMapper .Z) rfl)
  refine ⟨by decide, h.2 ?_, by decide⟩
  intro j hj
  show (if j = 9 then _ else _) = _
  rw [if_neg hj]
  rfl

/-- C10: a layout with no element mappers maps every physical controller state
to the all-zero virtual state: all axes 0, all buttons released, all POV
components false. -/
theorem MapStatePhysicalToVirtual_empty (mapper : Mapper) (p : SPhysicalState)
    (source : Nat) (hempty : ∀ i, mapper.elements i = none) :
    (∀ a, (mapper.MapStatePhysicalToVirtual p source).axis a = 0) ∧
    (∀ b, (mapper.MapStatePhysicalToVirtual p source).button b = false) ∧
    (∀ d, (mapper.MapStatePhysicalToVirtual p source).povDirection d = false) := by
  have hacc : AccumulateContributions mapper.elements p = SState.neutral := by
    unfold AccumulateContributions
    rw [ContributionCalls_empty mapper.elements p hempty]
    rfl
  refine ⟨?_, ?_, ?_⟩
  · intro a
    show ClampAnalogValue ((AccumulateContributions mapper.elements p).axis a) = 0
    rw [hacc]
    exact ClampAnalogValue_within 0 (by decide) (by decide)
  · intro b
    show (AccumulateContributions mapper.elements p).button b = false
    rw [hacc]
    rfl
  · intro d
    show (AccumulateContributions mapper.elements p).povDirection d = false
    rw [hacc]
    rfl

/-- C10 (witness): the empty mapper maps the deflected snapshot of the test
case to the all-zero state. -/
theorem MapStatePhysicalToVirtual_empty_witness :
    (∀ a, (Example.EmptyMapper.MapStatePhysicalToVirtual Example.Deflected 0).axis a = 0) ∧
    (∀ b, (Example.EmptyMapper.MapStatePhysicalToVirtual Example.Deflected 0).button b
      = false) ∧
    (∀ d, (Example.EmptyMapper.MapStatePhysicalToVirtual Example.Deflected 0).povDirection d
      = false) :=
  MapStatePhysicalToVirtual_empty Example.EmptyMapper Example.Deflected 0 (fun _ => rfl)

/-! ## Theorems on capabilities -/

/-- C6 (counterexample): the claim that the number of buttons is one more than
the highest button index targeted is false. The layout whose only element
mapper targets the button B1, of index 0, has two buttons, not one; and the
layout of the claim with mappers targeting B2, B6, B10 and B4 has the two axes
X and Y, not no axes. -/
theorem GetCapabilities_numButtons_counterexample :
    TargetElements Example.FirstButton.elements = [SElementIdentifier.Button 0] ∧
    Example.FirstButton.GetCapabilities.numButtons = 2 ∧
    Example.DisjointButtons.GetCapabilities.numButtons = 10 ∧
    Example.DisjointButtons.GetCapabilities.numAxes = 2 ∧
    Example.DisjointButtons.GetCapabilities.axisType = [EAxis.X, EAxis.Y] :=
  ⟨by decide, by decide, by decide, by decide, by decide⟩

/-- C6 (amended): the number of buttons in the capabilities of a layout is the
larger of `kMinNumButtons`, which is 2, and one more than the highest button
index that any of its element mappers targets: it is at least `kMinNumButtons`,
no targeted button lies at or beyond it, and it is `kMinNumButtons` or some
targeted button attains it. Mappers targeting B2, B6, B10 and B4 give 10
buttons with the required axes X and Y and no POV; three mappers all targeting
B6 give 6 buttons. -/
theorem GetCapabilities_numButtons :
    (∀ (mapper : Mapper),
      kMinNumButtons ≤ mapper.GetCapabilities.numButtons ∧
      (∀ i m, ∀ b : EButton, mapper.elements i = some m →
        SElementIdentifier.Button b ∈ m.GetTargetElements →
        b.val + 1 ≤ mapper.GetCapabilities.numButtons) ∧
      (mapper.GetCapabilities.numButtons = kMinNumButtons ∨
        ∃ i m, ∃ b : EButton, mapper.elements i = some m ∧
          SElementIdentifier.Button b ∈ m.GetTargetElements ∧
          mapper.GetCapabilities.numButtons = b.val + 1)) ∧
    kMinNumButtons = 2 ∧
    (Example.DisjointButtons.GetCapabilities.numButtons = 10 ∧
      Example.DisjointButtons.GetCapabilities.axisType = [EAxis.X, EAxis.Y] ∧
      Example.DisjointButtons.GetCapabilities.numAxes = 2 ∧
      Example.DisjointButtons.GetCapabilities.hasPov = false) ∧
    (Example.SingleButton.GetCapabilities.numButtons = 6 ∧
      Example.SingleButton.GetCapabilities.axisType = [EAxis.X, EAxis.Y] ∧
      Example.SingleButton.GetCapabilities.numAxes = 2 ∧
      Example.SingleButton.GetCapabilities.hasPov = false) := by
  refine ⟨?_, rfl, ⟨by decide, by decide, by decide, by decide⟩,
    ⟨by decide, by decide, by decide, by decide⟩⟩
  intro mapper
  have hnum : mapper.GetCapabilities.numButtons
      = max kMinNumButtons (ButtonCount (TargetElements mapper.elements)) := rfl
  refine ⟨?_, ?_, ?_⟩
  · rw [hnum]
    exact Nat.le_max_left _ _
  · intro i m b hm hb
    have hge := ButtonCount_ge _ b ((mem_TargetElements mapper.elements _).2 ⟨i, m, hm, hb⟩)
    rw [hnum]
    exact Nat.le_trans hge (Nat.le_max_right _ _)
  · rw [hnum]
    by_cases hle : ButtonCount (TargetElements mapper.elements) ≤ kMinNumButtons
    · exact Or.inl (Nat.max_eq_left hle)
    · have hne : ButtonCount (TargetElements mapper.elements) ≠ 0 := by omega
      obtain ⟨b2, hb2, he⟩ := ButtonCount_attained _ hne
      obtain ⟨i2, m2, hm2, ht2⟩ := (mem_TargetElements mapper.elements _).1 hb2
      refine Or.inr ⟨i2, m2, b2, hm2, ht2, ?_⟩
      rw [← he]
      exact Nat.max_eq_right (by omega)

/-- C7 (counterexample): the claim that a layout without element mappers has
no axes and no buttons is false: the empty mapper has capabilities with two
axes and two buttons. -/
theorem GetCapabilities_empty_counterexample :
    (∀ i, Example.EmptyMapper.elements i = none) ∧
    Example.EmptyMapper.GetCapabilities.numAxes = 2 ∧
    Example.EmptyMapper.GetCapabilities.numButtons = 2 :=
  ⟨fun _ => rfl, by decide, by decide⟩

/-- C7 (amended): a layout that has no element mappers at all has capabilities
with exactly what is required on all virtual controllers: the axes X and Y,
both supporting force feedback, `kMinNumButtons` buttons and no POV. -/
theorem GetCapabilities_empty (mapper : Mapper) (hempty : ∀ i, mapper.elements i = none) :
    mapper.GetCapabilities.axisType = kRequiredAxes ∧
    mapper.GetCapabilities.axisCapabilities = [⟨EAxis.X, true⟩, ⟨EAxis.Y, true⟩] ∧
    mapper.GetCapabilities.numAxes = 2 ∧
    mapper.GetCapabilities.numButtons = kMinNumButtons ∧
    mapper.GetCapabilities.hasPov = false := by
  have htargets := TargetElements_empty mapper.elements hempty
  simp [Mapper.GetCapabilities, DeriveCapabilities, SCapabilities.axisType, htargets,
    ButtonCount, kRequiredAxes, kRequiredForceFeedbackAxes, kMinNumButtons, kIsPovRequired,
    EAxis.all]

/-- C7 (witness): the empty mapper of the test case has capabilities with the
axes X and Y, two buttons and no POV. -/
theorem GetCapabilities_empty_witness :
    Example.EmptyMapper.GetCapabilities.axisType = [EAxis.X, EAxis.Y] ∧
    Example.EmptyMapper.GetCapabilities.axisCapabilities
      = [⟨EAxis.X, true⟩, ⟨EAxis.Y, true⟩] ∧
    Example.EmptyMapper.GetCapabilities.numAxes = 2 ∧
    Example.EmptyMapper.GetCapabilities.numButtons = 2 ∧
    Example.EmptyMapper.GetCapabilities.hasPov = false :=
  GetCapabilities_empty Example.EmptyMapper (fun _ => rfl)

/-- C8 (counterexample): the claim that the axes listed are exactly the axes
targeted by the element mappers is false: the layout of the claim, whose
mappers target Y, RotX, RotX and Y, lists the axes X, Y and RotX, three axes,
although no element mapper targets X, and has two buttons. -/
theorem GetCapabilities_axes_counterexample :
    SElementIdentifier.Axis EAxis.X ∉ TargetElements Example.MultipleAxes.elements ∧
    Example.MultipleAxes.GetCapabilities.axisType = [EAxis.X, EAxis.Y, EAxis.RotX] ∧
    Example.MultipleAxes.GetCapabilities.numAxes = 3 ∧
    Example.MultipleAxes.GetCapabilities.numButtons = 2 :=
  ⟨by decide, by decide, by decide, by decide⟩

/-- C8 (amended): the axes listed in the capabilities of a layout are exactly
the required axes X and Y together with the virtual axes targeted by at least
one of its element mappers, each listed once, in ascending enumerator order,
and `numAxes` is their count. Mappers targeting Y, RotX, RotX and Y give the
axes X, Y and RotX, three axes, the two required buttons and no POV. -/
theorem GetCapabilities_axes :
    (∀ (mapper : Mapper),
      (∀ a, a ∈ mapper.GetCapabilities.axisType ↔
        a ∈ kRequiredAxes ∨
          ∃ i m, mapper.elements i = some m ∧
            SElementIdentifier.Axis a ∈ m.GetTargetElements) ∧
      mapper.GetCapabilities.axisType.Nodup ∧
      mapper.GetCapabilities.axisType.Pairwise (fun a b => a.toNat < b.toNat) ∧
      mapper.GetCapabilities.numAxes = mapper.GetCapabilities.axisType.length) ∧
    kRequiredAxes = [EAxis.X, EAxis.Y] ∧
    (Example.MultipleAxes.GetCapabilities.axisType = [EAxis.X, EAxis.Y, EAxis.RotX] ∧
      Example.MultipleAxes.GetCapabilities.numAxes = 3 ∧
      Example.MultipleAxes.GetCapabilities.numButtons = 2 ∧
      Example.MultipleAxes.GetCapabilities.hasPov = false) := by
  refine ⟨?_, rfl, ⟨by decide, by decide, by decide, by decide⟩⟩
  intro mapper
  have hsorted : mapper.GetCapabilities.axisType.Pairwise (fun a b => a.toNat < b.toNat) := by
    unfold Mapper.GetCapabilities
    rw [axisType_eq]
    exact EAxis.sorted_all_axes.filter _
  refine ⟨?_, ?_, hsorted, ?_⟩
  · intro a
    unfold Mapper.GetCapabilities
    rw [axisType_eq, List.mem_filter, ← mem_TargetElements]
    simp [EAxis.mem_all_axes]
  · refine hsorted.imp ?_
    intro a b hab e
    rw [e] at hab
    exact Nat.lt_irrefl _ hab
  · simp [Mapper.GetCapabilities, DeriveCapabilities, SCapabilities.axisType]

/-- C9: the capabilities of a layout report a POV hat if and only if at least
one of its element mappers targets the POV; an element mapper that targets
nothing but the POV, placed on a free element, changes neither the axes nor
the number of buttons. One mapper on one POV direction gives a POV and the
axes and buttons of the layout without element mappers, which are the two
required axes and the two required buttons, and so do eight mappers on all
four directions. -/
theorem GetCapabilities_hasPov :
    (∀ (mapper : Mapper),
      (mapper.GetCapabilities.hasPov = true ↔
        ∃ i m, mapper.elements i = some m ∧ SElementIdentifier.Pov ∈ m.GetTargetElements)) ∧
    (∀ (elements : UElementMap) (actuators : SForceFeedbackActuatorMap)
      (i : Fin kElementMapSize) (m : IElementMapper),
      elements i = none → (∀ t, t ∈ m.GetTargetElements → t = SElementIdentifier.Pov) →
      (DeriveCapabilities (Function.update elements i (some m)) actuators).axisCapabilities
        = (DeriveCapabilities elements actuators).axisCapabilities ∧
      (DeriveCapabilities (Function.update elements i (some m)) actuators).numAxes
        = (DeriveCapabilities elements actuators).numAxes ∧
      (DeriveCapabilities (Function.update elements i (some m)) actuators).numButtons
        = (DeriveCapabilities elements actuators).numButtons) ∧
    (Example.IncompletePov.GetCapabilities.hasPov = true ∧
      Example.IncompletePov.GetCapabilities.numAxes
        = Example.EmptyMapper.GetCapabilities.numAxes ∧
      Example.IncompletePov.GetCapabilities.numButtons
        = Example.EmptyMapper.GetCapabilities.numButtons) ∧
    (Example.CompletePov.GetCapabilities.hasPov = true ∧
      Example.CompletePov.GetCapabilities.numAxes
        = Example.EmptyMapper.GetCapabilities.numAxes ∧
      Example.CompletePov.GetCapabilities.numButtons
        = Example.EmptyMapper.GetCapabilities.numButtons) ∧
    (Example.EmptyMapper.GetCapabilities.hasPov = false ∧
      Example.EmptyMapper.GetCapabilities.numAxes = 2 ∧
      Example.EmptyMapper.GetCapabilities.numButtons = 2) := by
  refine ⟨?_, ?_, ⟨by decide, by decide, by decide⟩, ⟨by decide, by decide, by decide⟩,
    ⟨by decide, by decide, by decide⟩⟩
  · intro mapper
    rw [← mem_TargetElements]
    simp [Mapper.GetCapabilities, DeriveCapabilities, kIsPovRequired]
  · intro elements actuators i m hi hpov
    have haxis : ∀ a, SElementIdentifier.Axis a ∈
        TargetElements (Function.update elements i (some m))
        ↔ SElementIdentifier.Axis a ∈ TargetElements elements := by
      intro a
      rw [mem_TargetElements_update elements i m hi]
      constructor
      · rintro (h | h)
        · cases hpov _ h
        · exact h
      · exact Or.inr
    have hbutton : ∀ b, SElementIdentifier.Button b ∈
        TargetElements (Function.update elements i (some m))
        ↔ SElementIdentifier.Button b ∈ TargetElements elements := by
      intro b
      rw [mem_TargetElements_update elements i m hi]
      constructor
      · rintro (h | h)
        · cases hpov _ h
        · exact h
      · exact Or.inr
    have hfilter : EAxis.all.filter (fun axis => decide (axis ∈ kRequiredAxes) ||
          decide (SElementIdentifier.Axis axis ∈
            TargetElements (Function.update elements i (some m))))
        = EAxis.all.filter (fun axis => decide (axis ∈ kRequiredAxes) ||
          decide (SElementIdentifier.Axis axis ∈ TargetElements elements)) := by
      apply List.filter_congr
      intro a _
      simp [haxis a]
    refine ⟨?_, ?_, ?_⟩
    · simp only [DeriveCapabilities, hfilter]
    · simp only [DeriveCapabilities, hfilter]
    · simp only [DeriveCapabilities]
      rw [ButtonCount_congr _ _ hbutton]

/-! ## Theorems on the operations on blueprints -/

namespace MapperBuilder

theorem FindBlueprint_insert_other (bps : List (String × SBlueprint)) (n x : String)
    (b : SBlueprint) (hx : x ≠ n) :
    FindBlueprint (InsertBlueprint bps n b) x = FindBlueprint bps x := by
  have hnx : ¬ n = x := fun h => hx h.symm
  induction bps with
  | nil => simp [InsertBlueprint, FindBlueprint, hnx]
  | cons e rest ih =>
    obtain ⟨k, bk⟩ := e
    unfold InsertBlueprint
    split
    · simp [FindBlueprint, hnx]
    · by_cases hk : k = x
      · simp [FindBlueprint, hk]
      · simp [FindBlueprint, hk, ih]

theorem FindBlueprint_insert_same (bps : List (String × SBlueprint)) (n : String)
    (b : SBlueprint) (hn : FindBlueprint bps n = none) :
    FindBlueprint (InsertBlueprint bps n b) n = some b := by
  induction bps with
  | nil => simp [InsertBlueprint, FindBlueprint]
  | cons e rest ih =>
    obtain ⟨k, bk⟩ := e
    by_cases hk : k = n
    · simp [FindBlueprint, hk] at hn
    · simp only [FindBlueprint, hk, if_false] at hn
      unfold InsertBlueprint
      split
      · simp [FindBlueprint]
      · simp [FindBlueprint, hk, ih hn]

theorem FindBlueprint_modify (s : SBuildState) (n x : String) (f : SBlueprint → SBlueprint) :
    FindBlueprint (ModifyBlueprint s n f).blueprints x
      = if x = n then (FindBlueprint s.blueprints x).map f else FindBlueprint s.blueprints x := by
  by_cases hx : x = n
  · subst hx
    simp [ModifyBlueprint, FindBlueprint_update_same]
  · simp [ModifyBlueprint, FindBlueprint_update_other _ _ _ _ hx, hx]

theorem UpdateBlueprint_update (bps : List (String × SBlueprint)) (n : String)
    (f g : SBlueprint → SBlueprint) :
    UpdateBlueprint (UpdateBlueprint bps n f) n g = UpdateBlueprint bps n (fun b => g (f b)) := by
  induction bps with
  | nil => rfl
  | cons e rest ih =>
    obtain ⟨k, bk⟩ := e
    by_cases hk : k = n
    · simp [UpdateBlueprint, hk]
    · simp [UpdateBlueprint, hk, ih]

theorem UpdateBlueprint_fixed (bps : List (String × SBlueprint)) (n : String)
    (f : SBlueprint → SBlueprint)
    (hf : ∀ b, FindBlueprint bps n = some b → f b = b) : UpdateBlueprint bps n f = bps := by
  induction bps with
  | nil => rfl
  | cons e rest ih =>
    obtain ⟨k, bk⟩ := e
    by_cases hk : k = n
    · have := hf bk (by simp [FindBlueprint, hk])
      simp [UpdateBlueprint, hk, this]
    · have hrest : ∀ b, FindBlueprint rest n = some b → f b = b := by
        intro b hb
        exact hf b (by simp [FindBlueprint, hk, hb])
      simp [UpdateBlueprint, hk, ih hrest]

/-- C11: `CreateBlueprint(name)` fails exactly when a mapper of that name is
registered or a blueprint of that name exists, and then changes nothing;
otherwise it succeeds, a blueprint of that name exists afterwards and all other
blueprints and the registry are as before. -/
theorem CreateBlueprint_succeeds_iff (s : SBuildState) (n : String) :
    ((CreateBlueprint s n).1 = false ↔
      (Known s n ∨ ∃ b, FindBlueprint s.blueprints n = some b)) ∧
    ((CreateBlueprint s n).1 = false → (CreateBlueprint s n).2 = s) ∧
    ((CreateBlueprint s n).1 = true →
      DoesBlueprintNameExist (CreateBlueprint s n).2 n = true ∧
      FindBlueprint (CreateBlueprint s n).2.blueprints n = some InitialBlueprint ∧
      (∀ x, x ≠ n →
        FindBlueprint (CreateBlueprint s n).2.blueprints x = FindBlueprint s.blueprints x) ∧
      (CreateBlueprint s n).2.registry = s.registry) := by
  unfold CreateBlueprint
  by_cases hk : Mapper.IsMapperNameKnown s.registry n = true
  · simp [hk, Known]
  · cases hf : FindBlueprint s.blueprints n with
    | some b => simp [hk, hf, Known]
    | none =>
      simp only [hk, hf, if_false, Known, Bool.true_eq_false, false_or, exists_false,
        false_implies, true_implies, true_and, Bool.false_eq_true, iff_false, not_false_eq_true,
        reduceCtorEq]
      refine ⟨?_, FindBlueprint_insert_same _ _ _ hf,
        fun x hx => FindBlueprint_insert_other _ _ _ _ hx, trivial⟩
      simp [DoesBlueprintNameExist, FindBlueprint_insert_same _ _ _ hf]

/-- C15: `SetBlueprintElementMapper(name, i, m)` succeeds exactly when a
blueprint of that name exists and `i` is below the number of slots of the
element map; it then records `m` as the change for `i` and touches nothing
else. `ClearBlueprintElementMapper(name, i)` succeeds exactly when such a
blueprint holds a change for `i`, and removes only that change. A failed call
of either leaves the builder unchanged, and clearing `i` right after setting it
on a blueprint without change for `i` restores the builder. -/
theorem SetBlueprintElementMapper_ClearBlueprintElementMapper (s : SBuildState)
    (n : String) (i : Nat) (m : Option IElementMapper) :
    ((SetBlueprintElementMapper s n i m).1 = true ↔
      ((∃ b, FindBlueprint s.blueprints n = some b) ∧ i < kElementMapSize)) ∧
    ((SetBlueprintElementMapper s n i m).1 = false → (SetBlueprintElementMapper s n i m).2 = s) ∧
    (∀ b (h : i < kElementMapSize), FindBlueprint s.blueprints n = some b →
      FindBlueprint (SetBlueprintElementMapper s n i m).2.blueprints n
        = some (SetChange ⟨i, h⟩ m b) ∧
      (SetChange ⟨i, h⟩ m b).changesFromTemplate ⟨i, h⟩ = some m ∧
      (∀ j, j ≠ ⟨i, h⟩ →
        (SetChange ⟨i, h⟩ m b).changesFromTemplate j = b.changesFromTemplate j) ∧
      (SetChange ⟨i, h⟩ m b).templateName = b.templateName ∧
      (SetChange ⟨i, h⟩ m b).buildAttempted = b.buildAttempted ∧
      (SetChange ⟨i, h⟩ m b).buildCanAttempt = b.buildCanAttempt ∧
      (∀ x, x ≠ n → FindBlueprint (SetBlueprintElementMapper s n i m).2.blueprints x
        = FindBlueprint s.blueprints x) ∧
      (SetBlueprintElementMapper s n i m).2.registry = s.registry) ∧
    ((ClearBlueprintElementMapper s n i).1 = true ↔
      ∃ b, ∃ h : i < kElementMapSize, FindBlueprint s.blueprints n = some b ∧
        (b.changesFromTemplate ⟨i, h⟩).isSome = true) ∧
    ((ClearBlueprintElementMapper s n i).1 = false → (ClearBlueprintElementMapper s n i).2 = s) ∧
    (∀ b (h : i < kElementMapSize), FindBlueprint s.blueprints n = some b →
      (b.changesFromTemplate ⟨i, h⟩).isSome = true →
      FindBlueprint (ClearBlueprintElementMapper s n i).2.blueprints n
        = some (ClearChange ⟨i, h⟩ b) ∧
      (ClearChange ⟨i, h⟩ b).changesFromTemplate ⟨i, h⟩ = none ∧
      (∀ j, j ≠ ⟨i, h⟩ →
        (ClearChange ⟨i, h⟩ b).changesFromTemplate j = b.changesFromTemplate j) ∧
      (ClearChange ⟨i, h⟩ b).templateName = b.templateName ∧
      (ClearChange ⟨i, h⟩ b).buildAttempted = b.buildAttempted ∧
      (ClearChange ⟨i, h⟩ b).buildCanAttempt = b.buildCanAttempt ∧
      (∀ x, x ≠ n → FindBlueprint (ClearBlueprintElementMapper s n i).2.blueprints x
        = FindBlueprint s.blueprints x) ∧
      (ClearBlueprintElementMapper s n i).2.registry = s.registry) ∧
    (∀ b (h : i < kElementMapSize), FindBlueprint s.blueprints n = some b →
      b.changesFromTemplate ⟨i, h⟩ = none →
      ClearBlueprintElementMapper (SetBlueprintElementMapper s n i m).2 n i = (true, s)) := by
  refine ⟨?_, ?_, ?_, ?_, ?_, ?_, ?_⟩
  · unfold SetBlueprintElementMapper
    cases hf : FindBlueprint s.blueprints n with
    | none => simp
    | some b =>
      by_cases h : i < kElementMapSize
      · simp [h]
      · simp [h]
  · unfold SetBlueprintElementMapper
    cases hf : FindBlueprint s.blueprints n with
    | none => simp
    | some b =>
      by_cases h : i < kElementMapSize
      · simp [h]
      · simp [h]
  · intro b h hf
    have hset : (SetBlueprintElementMapper s n i m).2
        = ModifyBlueprint s n (SetChange ⟨i, h⟩ m) := by
      simp [SetBlueprintElementMapper, hf, h]
    rw [hset]
    refine ⟨by simp [FindBlueprint_modify, hf],
      by simp [SetChange, AssignChange], ?_, rfl, rfl, rfl, ?_, rfl⟩
    · intro j hj
      simp [SetChange, AssignChange, hj]
    · intro x hx
      simp [FindBlueprint_modify, hx]
  · unfold ClearBlueprintElementMapper
    cases hf : FindBlueprint s.blueprints n with
    | none => simp
    | some b =>
      by_cases h : i < kElementMapSize
      · cases hc : b.changesFromTemplate ⟨i, h⟩ with
        | none => simp [h, hc]
        | some e => simp [h, hc]
      · simp [h]
  · unfold ClearBlueprintElementMapper
    cases hf : FindBlueprint s.blueprints n with
    | none => simp
    | some b =>
      by_cases h : i < kElementMapSize
      · cases hc : b.changesFromTemplate ⟨i, h⟩ with
        | none => simp [h, hc]
        | some e => simp [h, hc]
      · simp [h]
  · intro b h hf hc
    obtain ⟨e, he⟩ := Option.isSome_iff_exists.1 hc
    have hclear : (ClearBlueprintElementMapper s n i).2
        = ModifyBlueprint s n (ClearChange ⟨i, h⟩) := by
      simp [ClearBlueprintElementMapper, hf, h, he]
    rw [hclear]
    refine ⟨by simp [FindBlueprint_modify, hf],
      by simp [ClearChange, EraseChange], ?_, rfl, rfl, rfl, ?_, rfl⟩
    · intro j hj
      simp [ClearChange, EraseChange, hj]
    · intro x hx
      simp [FindBlueprint_modify, hx]
  · intro b h hf hc
    have hset : (SetBlueprintElementMapper s n i m).2
        = ModifyBlueprint s n (SetChange ⟨i, h⟩ m) := by
      simp [SetBlueprintElementMapper, hf, h]
    rw [hset]
    have hfind2 : FindBlueprint
        (ModifyBlueprint s n (SetChange ⟨i, h⟩ m)).blueprints n
        = some (SetChange ⟨i, h⟩ m b) := by
      simp [FindBlueprint_modify, hf]
    have hback : ∀ b2, FindBlueprint s.blueprints n = some b2 →
        ClearChange ⟨i, h⟩ (SetChange ⟨i, h⟩ m b2) = b2 := by
      intro b2 hb2
      rw [hf] at hb2
      cases hb2
      have herase : EraseChange (AssignChange b.changesFromTemplate ⟨i, h⟩ m) ⟨i, h⟩
          = b.changesFromTemplate := by
        funext j
        by_cases hj : j = ⟨i, h⟩
        · subst hj
          simp [EraseChange, hc]
        · simp [EraseChange, AssignChange, hj]
      show (⟨b.templateName, EraseChange (AssignChange b.changesFromTemplate ⟨i, h⟩ m) ⟨i, h⟩,
        b.buildAttempted, b.buildCanAttempt⟩ : SBlueprint) = b
      rw [herase]
    have hstep : ClearBlueprintElementMapper
        (ModifyBlueprint s n (SetChange ⟨i, h⟩ m)) n i
        = (true, ModifyBlueprint (ModifyBlueprint s n (SetChange ⟨i, h⟩ m)) n
            (ClearChange ⟨i, h⟩)) := by
      unfold ClearBlueprintElementMapper
      rw [hfind2]
      simp [h, SetChange, AssignChange]
    rw [hstep]
    have hmod : ModifyBlueprint (ModifyBlueprint s n (SetChange ⟨i, h⟩ m)) n
        (ClearChange ⟨i, h⟩) = s := by
      show ({ blueprints := UpdateBlueprint (UpdateBlueprint s.blueprints n _) n _,
              registry := s.registry, messages := s.messages } : SBuildState) = s
      rw [UpdateBlueprint_update, UpdateBlueprint_fixed _ _ _ hback]
    rw [hmod]

/-- A blueprint that cannot be attempted stays so under every operation of the
builder. -/
theorem Apply_keeps_invalidated (op : EOperation) (s : SBuildState) (n : String)
    (b : SBlueprint) (hfind : FindBlueprint s.blueprints n = some b)
    (hcan : b.buildCanAttempt = false) :
    ∃ b1, FindBlueprint (op.Apply s).blueprints n = some b1 ∧ b1.buildCanAttempt = false := by
  have hmodify : ∀ (x : String) (f : SBlueprint → SBlueprint),
      (∀ c, c.buildCanAttempt = false → (f c).buildCanAttempt = false) →
      ∃ b1, FindBlueprint (ModifyBlueprint s x f).blueprints n = some b1 ∧
        b1.buildCanAttempt = false := by
    intro x f hf
    rw [FindBlueprint_modify]
    by_cases hx : n = x
    · subst hx
      exact ⟨f b, by simp [hfind], hf b hcan⟩
    · exact ⟨b, by simp [hx, hfind], hcan⟩
  have hframe : ∀ s1, Frame s s1 →
      ∃ b1, FindBlueprint s1.blueprints n = some b1 ∧ b1.buildCanAttempt = false := by
    intro s1 hfr
    obtain ⟨b1, hb1, _, hc1, _⟩ := hfr.find_some n b hfind
    exact ⟨b1, hb1, hc1.trans hcan⟩
  cases op with
  | CreateBlueprint x =>
    show ∃ b1, FindBlueprint (CreateBlueprint s x).2.blueprints n = some b1 ∧ _
    unfold CreateBlueprint
    split
    · exact ⟨b, hfind, hcan⟩
    · split
      · exact ⟨b, hfind, hcan⟩
      · rename_i hx
        have hne : n ≠ x := by
          intro e
          rw [e, hx] at hfind
          cases hfind
        exact ⟨b, by simp [FindBlueprint_insert_other _ _ _ _ hne, hfind], hcan⟩
  | SetBlueprintElementMapper x i m =>
    show ∃ b1, FindBlueprint (SetBlueprintElementMapper s x i m).2.blueprints n = some b1 ∧ _
    unfold SetBlueprintElementMapper
    split
    · exact ⟨b, hfind, hcan⟩
    · split
      · exact hmodify x _ (fun c hc => hc)
      · exact ⟨b, hfind, hcan⟩
  | ClearBlueprintElementMapper x i =>
    show ∃ b1, FindBlueprint (ClearBlueprintElementMapper s x i).2.blueprints n = some b1 ∧ _
    unfold ClearBlueprintElementMapper
    split
    · exact ⟨b, hfind, hcan⟩
    · split
      · split
        · exact ⟨b, hfind, hcan⟩
        · exact hmodify x _ (fun c hc => hc)
      · exact ⟨b, hfind, hcan⟩
  | SetBlueprintTemplate x y =>
    show ∃ b1, FindBlueprint (SetBlueprintTemplate s x y).2.blueprints n = some b1 ∧ _
    unfold SetBlueprintTemplate
    split
    · exact ⟨b, hfind, hcan⟩
    · exact hmodify x _ (fun c hc => hc)
  | InvalidateBlueprint x =>
    show ∃ b1, FindBlueprint (InvalidateBlueprint s x).2.blueprints n = some b1 ∧ _
    unfold InvalidateBlueprint
    split
    · exact ⟨b, hfind, hcan⟩
    · exact hmodify x _ (fun c _ => rfl)
  | BuildByName x =>
    obtain ⟨r, s1, hb⟩ := BuildByName_total x s
    have : (EOperation.BuildByName x).Apply s = s1 := by
      simp [EOperation.Apply, hb]
    rw [this]
    exact hframe s1 (Builds_outcome (BuildByName_sound x s r s1 hb)).frame
  | Build =>
    obtain ⟨r, s1, hb, hloop⟩ := BuildLoop_sound (s.blueprints.map Prod.fst) s
    have : EOperation.Build.Apply s = s1 := by
      simp [EOperation.Apply, MapperBuilder.Build, hb]
    rw [this]
    exact hframe s1 (Loops_frame hloop)

theorem ApplyAll_keeps_invalidated (operations : List EOperation) :
    ∀ (s : SBuildState) (n : String) (b : SBlueprint),
      FindBlueprint s.blueprints n = some b → b.buildCanAttempt = false →
      ∃ b1, FindBlueprint (ApplyAll s operations).blueprints n = some b1 ∧
        b1.buildCanAttempt = false := by
  induction operations with
  | nil => intro s n b hfind hcan; exact ⟨b, hfind, hcan⟩
  | cons op rest ih =>
    intro s n b hfind hcan
    obtain ⟨b1, hb1, hc1⟩ := Apply_keeps_invalidated op s n b hfind hcan
    exact ih (op.Apply s) n b1 hb1 hc1

theorem BuildByName_invalidated (s : SBuildState) (n : String) (b : SBlueprint)
    (hfind : FindBlueprint s.blueprints n = some b) (hcan : b.buildCanAttempt = false) :
    BuildByName n s = some (none, Output s .Error
      (if Known s n then EBuildMessage.MapperAlreadyExists
        else EBuildMessage.ConfigurationInvalid) n) := by
  unfold BuildByName BuildByNameFuel
  by_cases hk : Mapper.IsMapperNameKnown s.registry n = true
  · simp [hfind, hk, Known]
  · simp [hfind, hk, hcan, Known]

/-- C12 (counterexample): after blueprint A has been built and registered and
then invalidated, `Build("A")` fails with the error that a mapper of this name
already exists, not with the invalid-configuration error. -/
theorem InvalidateBlueprint_counterexample :
    (InvalidateBlueprint (ApplyAll Example.Single [.BuildByName "A"]) "A").1 = true ∧
    (BuildByName "A" (ApplyAll Example.Single [.BuildByName "A", .InvalidateBlueprint "A"])).map
        (fun r => (r.1.isSome, r.2.registry.map Mapper.name,
          NewMessages (ApplyAll Example.Single [.BuildByName "A", .InvalidateBlueprint "A"]) r.2))
      = some (false, ["A"], [⟨.Error, .MapperAlreadyExists, "A"⟩]) :=
  ⟨rfl, rfl⟩

/-- C12 (amended): `InvalidateBlueprint(name)` returns `false` and changes
nothing for an unknown name; on an existing blueprint it returns `true`, sets
`buildCanAttempt` to `false` and changes nothing else. After any further
operations of the builder the blueprint still cannot be attempted, and
`Build(name)` fails, constructs no mapper and leaves all blueprints as they
are; its error is the invalid-configuration error unless a mapper of that name
is registered, in which case it is the error that the mapper already exists. -/
theorem InvalidateBlueprint_then_Build (s : SBuildState) (n : String) :
    (FindBlueprint s.blueprints n = none → InvalidateBlueprint s n = (false, s)) ∧
    (∀ b, FindBlueprint s.blueprints n = some b →
      (InvalidateBlueprint s n).1 = true ∧
      FindBlueprint (InvalidateBlueprint s n).2.blueprints n
        = some { b with buildCanAttempt := false } ∧
      (∀ x, x ≠ n → FindBlueprint (InvalidateBlueprint s n).2.blueprints x
        = FindBlueprint s.blueprints x) ∧
      (InvalidateBlueprint s n).2.registry = s.registry ∧
      (InvalidateBlueprint s n).2.messages = s.messages ∧
      ∀ operations, ∃ b1,
        FindBlueprint (ApplyAll (InvalidateBlueprint s n).2 operations).blueprints n = some b1 ∧
        b1.buildCanAttempt = false ∧
        BuildByName n (ApplyAll (InvalidateBlueprint s n).2 operations)
          = some (none, Output (ApplyAll (InvalidateBlueprint s n).2 operations) .Error
              (if Known (ApplyAll (InvalidateBlueprint s n).2 operations) n
                then EBuildMessage.MapperAlreadyExists
                else EBuildMessage.ConfigurationInvalid) n)) := by
  constructor
  · intro h
    simp [InvalidateBlueprint, h]
  · intro b hfind
    have hinv : InvalidateBlueprint s n
        = (true, ModifyBlueprint s n (fun b => { b with buildCanAttempt := false })) := by
      simp [InvalidateBlueprint, hfind]
    rw [hinv]
    have hfind1 : FindBlueprint
        (ModifyBlueprint s n (fun b => { b with buildCanAttempt := false })).blueprints n
        = some { b with buildCanAttempt := false } := by
      simp [FindBlueprint_modify, hfind]
    refine ⟨rfl, hfind1, ?_, rfl, rfl, ?_⟩
    · intro x hx
      simp [FindBlueprint_modify, hx]
    · intro operations
      obtain ⟨b1, hb1, hc1⟩ := ApplyAll_keeps_invalidated operations _ n _ hfind1 rfl
      exact ⟨b1, hb1, hc1, BuildByName_invalidated _ n b1 hb1 hc1⟩

/-- C12 (witness): the blueprint T of the example is invalidated once more and
blueprint A is then built, which fails; `Build("T")` afterwards fails with the
invalid-configuration error. -/
theorem InvalidateBlueprint_then_Build_witness :
    ∃ b1, FindBlueprint (ApplyAll (InvalidateBlueprint Example.InvalidTemplate "T").2
        [.BuildByName "A"]).blueprints "T" = some b1 ∧
      b1.buildCanAttempt = false ∧
      BuildByName "T" (ApplyAll (InvalidateBlueprint Example.InvalidTemplate "T").2
          [.BuildByName "A"])
        = some (none, Output (ApplyAll (InvalidateBlueprint Example.InvalidTemplate "T").2
            [.BuildByName "A"]) .Error
            (if Known (ApplyAll (InvalidateBlueprint Example.InvalidTemplate "T").2
                [.BuildByName "A"]) "T"
              then EBuildMessage.MapperAlreadyExists
              else EBuildMessage.ConfigurationInvalid) "T") :=
  ((InvalidateBlueprint_then_Build Example.InvalidTemplate "T").2
    (Example.Invalidated "") rfl).2.2.2.2.2 [.BuildByName "A"]

/-- C13: for a blueprint that passes the checks of `Build(name)` and names a
template, the build is made from the registered template without any recursive
build when the template is registered; otherwise `Build(template)` is run
first, on the state in which the blueprint is marked as attempted, and it
always returns. If it fails, in particular when the template has no blueprint
or is invalidated, `Build(name)` fails too, nothing is registered and no
mapper of that name exists afterwards; if it succeeds, the build goes on from
the registered template. -/
theorem Build_template_dependency (s : SBuildState) (n : String) (b : SBlueprint)
    (hfind : FindBlueprint s.blueprints n = some b) (hknown : ¬ Known s n)
    (hcan : b.buildCanAttempt = true) (hatt : b.buildAttempted = false)
    (htmpl : b.templateName ≠ "") :
    (Known s b.templateName →
      BuildByName n s = some (BuildFromTemplate (MarkAttempted s n) n b.templateName) ∧
      (BuildFromTemplate (MarkAttempted s n) n b.templateName).1.isSome = true ∧
      (BuildFromTemplate (MarkAttempted s n) n b.templateName).2.messages
        = s.messages ++ [⟨.Info, .SuccessfullyBuilt, n⟩]) ∧
    (¬ Known s b.templateName →
      ∃ r3 s3, BuildByNameFuel s.blueprints.length b.templateName
          (Output (MarkAttempted s n) .Info .AttemptingTemplateBuild n) = some (r3, s3) ∧
        (r3 = none →
          BuildByName n s = some (none, Output s3 .Error .TemplateDependencyFailed n) ∧
          s3.registry = s.registry ∧
          ¬ Known (Output s3 .Error .TemplateDependencyFailed n) n) ∧
        (∀ m, r3 = some m →
          BuildByName n s = some (BuildFromTemplate s3 n b.templateName) ∧
          (BuildFromTemplate s3 n b.templateName).1.isSome = true) ∧
        (FindBlueprint s.blueprints b.templateName = none → r3 = none) ∧
        (∀ bt, FindBlueprint s.blueprints b.templateName = some bt →
          bt.buildCanAttempt = false → r3 = none)) := by
  have hk : Mapper.IsMapperNameKnown s.registry n = false := by
    cases h : Mapper.IsMapperNameKnown s.registry n
    · rfl
    · exact absurd h hknown
  have hmark : FindBlueprint (MarkAttempted s n).blueprints n
      = some { b with buildAttempted := true } := by
    rw [FindBlueprint_mark_same, hfind]; rfl
  constructor
  · intro htk
    have htk1 : Mapper.IsMapperNameKnown (MarkAttempted s n).registry b.templateName = true :=
      htk
    obtain ⟨tm, htm, heq⟩ := BuildFromTemplate_eq (MarkAttempted s n) n b.templateName _ hmark htk
    refine ⟨?_, by rw [heq]; rfl, by rw [heq]; rfl⟩
    unfold BuildByName BuildByNameFuel
    simp [hfind, hk, hcan, hatt, htmpl, htk1]
  · intro htk
    have htk1 : Mapper.IsMapperNameKnown (MarkAttempted s n).registry b.templateName = false := by
      cases h : Mapper.IsMapperNameKnown (MarkAttempted s n).registry b.templateName
      · rfl
      · exact absurd h htk
    have hcount : UnattemptedCount
        (Output (MarkAttempted s n) .Info .AttemptingTemplateBuild n).blueprints
        < s.blueprints.length := by
      have h1 := UnattemptedCount_mark s.blueprints n b hfind hatt
      have h2 := UnattemptedCount_le_length s.blueprints
      simp only [Output, MarkAttempted, ModifyBlueprint]
      omega
    obtain ⟨r3, s3, hrec⟩ := BuildByNameFuel_total s.blueprints.length b.templateName _ hcount
    have hout := Builds_outcome (BuildByNameFuel_sound _ _ _ _ _ hrec)
    have hunfold : BuildByName n s
        = (match r3 with
          | none => some (none, Output s3 .Error .TemplateDependencyFailed n)
          | some _ =>
            if Mapper.IsMapperNameKnown s3.registry b.templateName = true then
              some (BuildFromTemplate s3 n b.templateName)
            else some (none, Output s3 .Error .TemplateNotRegistered n)) := by
      unfold BuildByName BuildByNameFuel
      simp only [hfind, hk, hcan, hatt, htmpl, htk1, if_false, Bool.false_eq_true,
        Bool.true_eq_false, hrec]
      cases r3 <;> rfl
    have hpos : ∃ k, s.blueprints.length = k + 1 := by
      cases hl : s.blueprints with
      | nil => rw [hl] at hfind; simp [FindBlueprint] at hfind
      | cons e rest => exact ⟨rest.length, rfl⟩
    obtain ⟨k, hk1⟩ := hpos
    refine ⟨r3, s3, hrec, ?_, ?_, ?_, ?_⟩
    · intro hr
      subst hr
      have hreg : s3.registry = s.registry := hout.failure rfl
      refine ⟨hunfold, hreg, ?_⟩
      intro hkn
      apply hknown
      unfold Known at hkn ⊢
      simpa [Output, hreg] using hkn
    · intro m hr
      subst hr
      obtain ⟨_, _, _, _, _, _, hget, _⟩ := hout.success m rfl
      have hk3 : Known s3 b.templateName := (Known_iff s3 _).2 ⟨m, hget⟩
      have hk3' : Mapper.IsMapperNameKnown s3.registry b.templateName = true := hk3
      have hmark2 : FindBlueprint
          (Output (MarkAttempted s n) .Info .AttemptingTemplateBuild n).blueprints n
          = some { b with buildAttempted := true } := hmark
      have hfind3 : FindBlueprint s3.blueprints n = some { b with buildAttempted := true } := by
        obtain ⟨b3, hb3, _, _, ha3⟩ := hout.frame.find_some n _ hmark2
        rw [hb3, ha3 rfl]
      obtain ⟨tm, htm, heq⟩ := BuildFromTemplate_eq s3 n b.templateName _ hfind3 hk3
      refine ⟨by rw [hunfold]; simp [hk3'], by rw [heq]; rfl⟩
    · intro hnone
      have hne : b.templateName ≠ n := by
        intro e
        rw [e, hfind] at hnone
        cases hnone
      have hf2 : FindBlueprint
          (Output (MarkAttempted s n) .Info .AttemptingTemplateBuild n).blueprints
          b.templateName = none := by
        show FindBlueprint (MarkAttempted s n).blueprints b.templateName = none
        rw [FindBlueprint_mark_other s n _ hne]
        exact hnone
      rw [hk1] at hrec
      unfold BuildByNameFuel at hrec
      simp only [hf2, Option.some.injEq, Prod.mk.injEq] at hrec
      exact hrec.1.symm
    · intro bt hbt hcant
      have hne : b.templateName ≠ n := by
        intro e
        rw [e, hfind] at hbt
        cases hbt
        rw [hcan] at hcant
        cases hcant
      have hf2 : FindBlueprint
          (Output (MarkAttempted s n) .Info .AttemptingTemplateBuild n).blueprints
          b.templateName = some bt := by
        show FindBlueprint (MarkAttempted s n).blueprints b.templateName = some bt
        rw [FindBlueprint_mark_other s n _ hne]
        exact hbt
      have hk2 : Mapper.IsMapperNameKnown
          (Output (MarkAttempted s n) .Info .AttemptingTemplateBuild n).registry
          b.templateName = false := htk1
      rw [hk1] at hrec
      unfold BuildByNameFuel at hrec
      simp only [hf2, hk2, hcant, if_true, if_false, Bool.false_eq_true, Option.some.injEq,
        Prod.mk.injEq] at hrec
      exact hrec.1.symm

/-- C13 (witness): blueprint A names the invalidated blueprint T as its
template; `Build("A")` runs `Build("T")`, which fails, and fails itself without
registering anything. -/
theorem Build_template_dependency_witness :
    ∃ s3, BuildByName "A" Example.InvalidTemplate
        = some (none, Output s3 .Error .TemplateDependencyFailed "A") ∧
      s3.registry = Example.InvalidTemplate.registry := by
  have hnk : ¬ Known Example.InvalidTemplate "T" := by decide
  obtain ⟨r3, s3, _, hfail, _, _, hinv⟩ :=
    (Build_template_dependency Example.InvalidTemplate "A" (Example.Blueprint "T") rfl
      (by decide) rfl rfl (by decide)).2 hnk
  have hr3 := hinv (Example.Invalidated "") rfl rfl
  exact ⟨s3, (hfail hr3).1, (hfail hr3).2.1⟩

theorem Example.FailedOnce_template (x t : String)
    (h : TemplateOf Example.FailedOnce x = some t) : x = "A" ∧ t = "T" := by
  obtain ⟨b, hb, _, hbt⟩ := TemplateOf_some _ x t h
  simp only [Example.FailedOnce, FindBlueprint] at hb
  split at hb
  · rename_i hx
    cases hb
    exact ⟨hx.symm, hbt.symm⟩
  · cases hb

theorem Example.FailedOnce_no_cycle (x : String) : ¬ OnTemplateCycle Example.FailedOnce x := by
  rintro ⟨k, hk, hchain⟩
  obtain ⟨j, rfl⟩ : ∃ j, k = j + 1 := ⟨k - 1, by omega⟩
  unfold TemplateChain at hchain
  split at hchain
  · cases hchain
  · rename_i t ht
    obtain ⟨hx, htT⟩ := Example.FailedOnce_template x t ht
    subst hx; subst htT
    cases j with
    | zero => simp [TemplateChain] at hchain
    | succ j =>
      unfold TemplateChain at hchain
      split at hchain
      · cases hchain
      · rename_i t2 ht2
        have := (Example.FailedOnce_template "T" t2 ht2).1
        exact absurd this (by decide)

/-- C14 (failing input): blueprint A names a template T that has no blueprint.
The first `Build("A")` fails because T is unrecognized and leaves the builder
in the state `FailedOnce`, which contains no template cycle; the second
`Build("A")` nevertheless reports the circular template dependency. -/
theorem Build_circular_without_cycle :
    (BuildByName "A" Example.MissingTemplate).map
        (fun r => (r.1.isSome, r.2.blueprints.map
          (fun e => (e.1, e.2.templateName, e.2.buildAttempted, e.2.buildCanAttempt)),
          r.2.registry.map Mapper.name, r.2.messages))
      = some (false, [("A", "T", true, true)], [],
          [⟨.Info, .AttemptingTemplateBuild, "A"⟩, ⟨.Error, .UnrecognizedName, "T"⟩,
            ⟨.Error, .TemplateDependencyFailed, "A"⟩]) ∧
    (∀ x, ¬ OnTemplateCycle Example.FailedOnce x) ∧
    (BuildByName "A" Example.FailedOnce).map
        (fun r => (r.1.isSome, NewMessages Example.FailedOnce r.2))
      = some (false, [⟨.Error, .CircularTemplateDependency, "A"⟩]) :=
  ⟨rfl, Example.FailedOnce_no_cycle, rfl⟩

end MapperBuilder

/-! ## Lemmas on the force feedback device -/

namespace ForceFeedback

theorem EffectContains_iff (effects : TEffectMap) (id : TEffectIdentifier) :
    EffectContains effects id = true ↔ id ∈ EffectKeys effects := by
  simp [EffectContains]

theorem EffectKeys_modify (effects : TEffectMap) (id : TEffectIdentifier)
    (f : SEffectData → SEffectData) :
    EffectKeys (EffectModify effects id f) = EffectKeys effects := by
  induction effects with
  | nil => rfl
  | cons e rest ih =>
    simp only [EffectKeys, EffectModify, List.map_cons] at ih ⊢
    rw [ih]
    by_cases h : e.1 = id <;> simp [h]

theorem EffectKeys_erase (effects : TEffectMap) (id : TEffectIdentifier) :
    EffectKeys (EffectErase effects id)
      = (EffectKeys effects).filter (fun k => !decide (k = id)) := by
  induction effects with
  | nil => rfl
  | cons e rest ih =>
    simp only [EffectKeys, EffectErase] at ih ⊢
    by_cases h : e.1 = id <;> simp [List.filter_cons, h, ih]

theorem EffectFind_some_mem (effects : TEffectMap) (id : TEffectIdentifier) (data : SEffectData)
    (h : EffectFind effects id = some data) : id ∈ EffectKeys effects := by
  induction effects with
  | nil => simp [EffectFind] at h
  | cons e rest ih =>
    obtain ⟨key, d0⟩ := e
    unfold EffectFind at h
    by_cases hk : key = id
    · simp [EffectKeys, hk]
    · simp only [hk, if_false] at h
      have := ih h
      simp only [EffectKeys, List.map_cons, List.mem_cons] at this ⊢
      exact Or.inr this

theorem EffectKeys_append (a b : TEffectMap) :
    EffectKeys (a ++ b) = EffectKeys a ++ EffectKeys b := by
  simp [EffectKeys]

theorem filter_append_singleton_perm (keys : List TEffectIdentifier) (id : TEffectIdentifier)
    (hnodup : keys.Nodup) (hmem : id ∈ keys) :
    (keys.filter (fun k => !decide (k = id)) ++ [id]).Perm keys := by
  induction keys with
  | nil => simp at hmem
  | cons x xs ih =>
    obtain ⟨hx, hxs⟩ := List.nodup_cons.mp hnodup
    by_cases h : x = id
    · subst h
      have hself : xs.filter (fun k => !decide (k = x)) = xs := by
        apply List.filter_eq_self.mpr
        intro a ha
        have : a ≠ x := fun e => hx (e ▸ ha)
        simp [this]
      simp only [List.filter_cons, decide_True, Bool.not_true, Bool.false_eq_true, if_false,
        hself]
      exact List.perm_append_singleton x xs
    · have hin : id ∈ xs := by
        rcases List.mem_cons.mp hmem with e | e
        · exact absurd e.symm h
        · exact e
      simp only [List.filter_cons, h, decide_False, Bool.not_false, if_true, List.cons_append]
      exact (ih hxs hin).cons x

namespace Device

theorem EffectCount_eq (d : Device) :
    d.EffectCount = (EffectKeys d.readyEffects ++ EffectKeys d.playingEffects).length := by
  simp [EffectCount, EffectKeys]

theorem BufferInvariant_of_subperm (d d1 : Device) (h : BufferInvariant d)
    (hs : (EffectKeys d1.readyEffects ++ EffectKeys d1.playingEffects).Subperm
      (EffectKeys d.readyEffects ++ EffectKeys d.playingEffects)) : BufferInvariant d1 := by
  obtain ⟨l, hperm, hsub⟩ := hs
  refine ⟨(hperm.nodup_iff).mp (h.1.sublist hsub), ?_⟩
  rw [EffectCount_eq, ← hperm.length_eq]
  have := h.2
  rw [EffectCount_eq] at this
  exact le_trans hsub.length_le this

theorem PlayEntries_keys (t : TEffectTimeMs) (effects : TEffectMap) :
    (EffectKeys (PlayEntries t effects).finished ++ EffectKeys (PlayEntries t effects).playing).Perm
      (EffectKeys effects) := by
  induction effects with
  | nil => simp [PlayEntries, EffectKeys]
  | cons e rest ih =>
    obtain ⟨id, data⟩ := e
    simp only [PlayEntries]
    cases PlayEffect t data with
    | Finished data1 =>
      simp only [EffectKeys, List.map_cons, List.cons_append] at ih ⊢
      exact ih.cons id
    | Playing data1 magnitude =>
      simp only [EffectKeys, List.map_cons] at ih ⊢
      exact List.perm_middle.trans (ih.cons id)

theorem BufferInvariant_CreateDevice (timestampBase : TEffectTimeMs) :
    BufferInvariant (CreateDevice timestampBase) := by
  simp [BufferInvariant, CreateDevice, EffectKeys, EffectCount, kEffectMaxCount]

theorem BufferInvariant_AddOrUpdateEffect (d : Device) (effect : Effect)
    (h : BufferInvariant d) : BufferInvariant (AddOrUpdateEffect d effect).2 := by
  unfold AddOrUpdateEffect
  simp only
  split
  · exact BufferInvariant_of_subperm d _ h (by simp [EffectKeys_modify]; exact List.Subperm.refl _)
  · split
    · exact BufferInvariant_of_subperm d _ h
        (by simp [EffectKeys_modify]; exact List.Subperm.refl _)
    · rename_i hplaying hready
      split
      · exact h
      · rename_i hcount
        rw [EffectContains_iff] at hplaying hready
        have hperm : (EffectKeys (d.readyEffects ++ [(effect.identifier, ⟨effect, 0, 0⟩)])
            ++ EffectKeys d.playingEffects).Perm
            (effect.identifier :: (EffectKeys d.readyEffects ++ EffectKeys d.playingEffects)) := by
          simp only [EffectKeys, List.map_append, List.map_cons, List.map_nil,
            List.append_assoc, List.singleton_append]
          exact List.perm_middle
        refine ⟨hperm.nodup_iff.mpr (List.nodup_cons.mpr ⟨?_, h.1⟩), ?_⟩
        · simp only [List.mem_append, not_or]
          exact ⟨hready, hplaying⟩
        · rw [EffectCount_eq]
          show (EffectKeys (d.readyEffects ++ [(effect.identifier, ⟨effect, 0, 0⟩)])
            ++ EffectKeys d.playingEffects).length ≤ kEffectMaxCount
          rw [hperm.length_eq, List.length_cons, ← EffectCount_eq]
          omega

theorem BufferInvariant_StartEffect (d : Device) (id : TEffectIdentifier) (numIterations : Nat)
    (timestamp : Option TEffectTimeMs) (now : TEffectTimeMs) (h : BufferInvariant d) :
    BufferInvariant (StartEffect d id numIterations timestamp now).2 := by
  unfold StartEffect
  simp only
  split
  · exact h
  · split
    · rename_i data hfind
      have hmem := EffectFind_some_mem _ _ _ hfind
      have hnodup : (EffectKeys d.readyEffects).Nodup := (List.nodup_append.mp h.1).1
      apply BufferInvariant_of_subperm d _ h
      apply List.Perm.subperm
      simp only [EffectKeys_append, EffectKeys_erase]
      have h1 := filter_append_singleton_perm _ id hnodup hmem
      have h2 : (EffectKeys [(id, RestartEffect (timestamp.getD now) numIterations data)])
          = [id] := rfl
      rw [h2]
      calc (List.filter (fun k => !decide (k = id)) (EffectKeys d.readyEffects)
              ++ (EffectKeys d.playingEffects ++ [id])).Perm
            (List.filter (fun k => !decide (k = id)) (EffectKeys d.readyEffects)
              ++ ([id] ++ EffectKeys d.playingEffects)) :=
              List.Perm.append_left _ List.perm_append_comm
        _ = ((List.filter (fun k => !decide (k = id)) (EffectKeys d.readyEffects) ++ [id])
              ++ EffectKeys d.playingEffects) := by simp
        _ |>.Perm (EffectKeys d.readyEffects ++ EffectKeys d.playingEffects) :=
              List.Perm.append_right _ h1
    · split
      · exact BufferInvariant_of_subperm d _ h
          (by simp [EffectKeys_modify]; exact List.Subperm.refl _)
      · exact h

theorem BufferInvariant_StopAllEffects (d : Device) (h : BufferInvariant d) :
    BufferInvariant (StopAllEffects d) := by
  apply BufferInvariant_of_subperm d _ h
  simp only [StopAllEffects, EffectKeys_append]
  simp [EffectKeys]
  exact List.Subperm.refl _

theorem BufferInvariant_StopEffect (d : Device) (id : TEffectIdentifier)
    (h : BufferInvariant d) : BufferInvariant (StopEffect d id).2 := by
  unfold StopEffect
  split
  · rename_i data hfind
    have hmem := EffectFind_some_mem _ _ _ hfind
    have hnodup : (EffectKeys d.playingEffects).Nodup := (List.nodup_append.mp h.1).2.1
    apply BufferInvariant_of_subperm d _ h
    apply List.Perm.subperm
    simp only [EffectKeys_append, EffectKeys_erase]
    have h1 := filter_append_singleton_perm _ id hnodup hmem
    have h2 : (EffectKeys [(id, data)]) = [id] := rfl
    rw [h2, List.append_assoc]
    exact List.Perm.append_left _ (List.perm_append_comm.trans h1)
  · exact h

theorem BufferInvariant_RemoveEffect (d : Device) (id : TEffectIdentifier)
    (h : BufferInvariant d) : BufferInvariant (RemoveEffect d id).2 := by
  unfold RemoveEffect
  split
  · apply BufferInvariant_of_subperm d _ h
    apply List.Sublist.subperm
    simp only [EffectKeys_erase]
    exact List.Sublist.append (List.filter_sublist _) (List.Sublist.refl _)
  · split
    · apply BufferInvariant_of_subperm d _ h
      apply List.Sublist.subperm
      simp only [EffectKeys_erase]
      exact List.Sublist.append (List.Sublist.refl _) (List.filter_sublist _)
    · exact h

theorem BufferInvariant_PlayEffects (d : Device) (timestamp : Option TEffectTimeMs)
    (now : TEffectTimeMs) (h : BufferInvariant d) :
    BufferInvariant (PlayEffects d timestamp now).2 := by
  apply BufferInvariant_of_subperm d _ h
  apply List.Perm.subperm
  unfold PlayEffects
  split
  · exact List.Perm.refl _
  · simp only [EffectKeys_append, List.append_assoc]
    exact List.Perm.append_left _ (PlayEntries_keys _ _)

theorem BufferInvariant_Apply (d : Device) (operation : EDeviceOperation) (h : BufferInvariant d) :
    BufferInvariant (operation.Apply d) := by
  cases operation with
  | AddOrUpdateEffect effect => exact BufferInvariant_AddOrUpdateEffect d effect h
  | Clear => simp [EDeviceOperation.Apply, BufferInvariant, Clear, EffectKeys, EffectCount]
  | SetMutedState muted => exact h
  | SetPauseState paused => exact h
  | StartEffect id numIterations timestamp now =>
    exact BufferInvariant_StartEffect d id numIterations timestamp now h
  | StopAllEffects => exact BufferInvariant_StopAllEffects d h
  | StopEffect id => exact BufferInvariant_StopEffect d id h
  | RemoveEffect id => exact BufferInvariant_RemoveEffect d id h
  | PlayEffects timestamp now => exact BufferInvariant_PlayEffects d timestamp now h

theorem BufferInvariant_ApplyOperations (operations : List EDeviceOperation) (d : Device)
    (h : BufferInvariant d) : BufferInvariant (ApplyOperations d operations) := by
  induction operations generalizing d with
  | nil => exact h
  | cons operation rest ih => exact ih _ (BufferInvariant_Apply d operation h)

theorem ApplyOperations_append (d : Device) (operations : List EDeviceOperation) (operation : EDeviceOperation) :
    ApplyOperations d (operations ++ [operation]) = operation.Apply (ApplyOperations d operations) := by
  simp [ApplyOperations, List.foldl_append]

theorem Example.AddEffects_state (count : Nat) (h : count ≤ kEffectMaxCount) :
    EffectKeys (ApplyOperations (CreateDevice 0) (Example.AddEffects count)).readyEffects = List.range count ∧
    (ApplyOperations (CreateDevice 0) (Example.AddEffects count)).playingEffects = [] := by
  induction count with
  | zero => exact ⟨rfl, rfl⟩
  | succ n ih =>
    obtain ⟨hready, hplaying⟩ := ih (Nat.le_of_succ_le h)
    have hops : Example.AddEffects (n + 1)
        = Example.AddEffects n ++ [EDeviceOperation.AddOrUpdateEffect ⟨n, none, 0, fun _ _ => 0⟩] := by
      simp [Example.AddEffects, List.range_succ]
    rw [hops, ApplyOperations_append]
    have hcount : (ApplyOperations (CreateDevice 0) (Example.AddEffects n)).EffectCount = n := by
      rw [EffectCount_eq, hready, hplaying]
      simp [EffectKeys]
    have hnot : ¬ (ApplyOperations (CreateDevice 0) (Example.AddEffects n)).EffectCount ≥ kEffectMaxCount := by
      rw [hcount]
      omega
    have hc1 : EffectContains (ApplyOperations (CreateDevice 0) (Example.AddEffects n)).playingEffects n
        = false := by
      rw [hplaying]
      rfl
    have hc2 : EffectContains (ApplyOperations (CreateDevice 0) (Example.AddEffects n)).readyEffects n
        = false := by
      simp [EffectContains, hready]
    simp only [EDeviceOperation.Apply, AddOrUpdateEffect, hc1, hc2, hnot, Bool.false_eq_true, if_false]
    refine ⟨?_, hplaying⟩
    rw [EffectKeys_append, hready, List.range_succ]
    rfl

theorem PlayEffects_paused (d : Device) (hpaused : d.stateEffectsArePaused = true)
    (timestamp : Option TEffectTimeMs) (now : TEffectTimeMs) :
    PlayEffects d timestamp now = (fun _ => 0, d) := by
  unfold PlayEffects
  rw [if_pos hpaused]

theorem PlayEffectsAll_paused (calls : List (Option TEffectTimeMs × TEffectTimeMs)) (d : Device)
    (hpaused : d.stateEffectsArePaused = true) :
    PlayEffectsAll d calls = (List.replicate calls.length (fun _ => 0), d) := by
  induction calls with
  | nil => rfl
  | cons call rest ih =>
    obtain ⟨timestamp, now⟩ := call
    simp only [PlayEffectsAll, PlayEffects_paused d hpaused, ih, List.length_cons,
      List.replicate_succ]

end Device

end ForceFeedback

/-! ## Theorems on the force feedback device -/

namespace ForceFeedback

namespace Device

/-- C16: for every state of the force feedback device, `Clear` leaves no effect
on the device, so that both sets are empty and `IsEffectOnDevice` is false for
every identifier, and leaves the device neither muted nor paused. -/
theorem Clear_leaves_no_effect (d : Device) :
    (Clear d).readyEffects = [] ∧ (Clear d).playingEffects = [] ∧
    (∀ id, IsEffectOnDevice (Clear d) id = false) ∧
    GetMutedState (Clear d) = false ∧ GetPauseState (Clear d) = false := by
  refine ⟨rfl, rfl, ?_, rfl, rfl⟩
  intro id
  simp [IsEffectOnDevice, Clear, EffectContains, EffectKeys]

/-- C17: mute and pause are orthogonal. `SetMutedState(m)` makes `GetMutedState`
return `m` and changes neither the pause state, nor the ready and playing
effects, nor the timestamps; `SetPauseState(p)` makes `GetPauseState` return
`p` and changes neither the muted state, nor the effects, nor the timestamps;
the two operations commute. -/
theorem SetMutedState_SetPauseState_orthogonal (d : Device) (muted paused : Bool) :
    (GetMutedState (SetMutedState d muted) = muted ∧
      GetPauseState (SetMutedState d muted) = GetPauseState d ∧
      (SetMutedState d muted).readyEffects = d.readyEffects ∧
      (SetMutedState d muted).playingEffects = d.playingEffects ∧
      (SetMutedState d muted).timestampBase = d.timestampBase ∧
      (SetMutedState d muted).timestampRelativeLastPlay = d.timestampRelativeLastPlay) ∧
    (GetPauseState (SetPauseState d paused) = paused ∧
      GetMutedState (SetPauseState d paused) = GetMutedState d ∧
      (SetPauseState d paused).readyEffects = d.readyEffects ∧
      (SetPauseState d paused).playingEffects = d.playingEffects ∧
      (SetPauseState d paused).timestampBase = d.timestampBase ∧
      (SetPauseState d paused).timestampRelativeLastPlay = d.timestampRelativeLastPlay) ∧
    SetMutedState (SetPauseState d paused) muted = SetPauseState (SetMutedState d muted) paused :=
  ⟨⟨rfl, rfl, rfl, rfl, rfl, rfl⟩, ⟨rfl, rfl, rfl, rfl, rfl, rfl⟩, rfl⟩

/-- C18: after any sequence of operations on a newly constructed force feedback
device, the device holds at most `kEffectMaxCount` = 256 effects, ready and
playing together, and no identifier is in both sets; 256 effects can be
reached. `AddOrUpdateEffect` fails, leaving the device unchanged, when the
effect is not on a device that already holds 256 effects or more; it succeeds
without changing the count when the effect is already on the device, and it
succeeds adding one effect otherwise. -/
theorem AddOrUpdateEffect_capacity :
    kEffectMaxCount = 256 ∧
    (∀ (timestampBase : TEffectTimeMs) (operations : List EDeviceOperation),
      (ApplyOperations (CreateDevice timestampBase) operations).EffectCount ≤ kEffectMaxCount ∧
      ∀ id, ¬ (EffectContains (ApplyOperations (CreateDevice timestampBase) operations).readyEffects id = true ∧
        EffectContains (ApplyOperations (CreateDevice timestampBase) operations).playingEffects id = true)) ∧
    (ApplyOperations (CreateDevice 0) (Example.AddEffects 256)).EffectCount = 256 ∧
    (∀ (d : Device) (effect : Effect), IsEffectOnDevice d effect.identifier = false →
      d.EffectCount ≥ kEffectMaxCount → AddOrUpdateEffect d effect = (false, d)) ∧
    (∀ (d : Device) (effect : Effect), IsEffectOnDevice d effect.identifier = true →
      (AddOrUpdateEffect d effect).1 = true ∧
      (AddOrUpdateEffect d effect).2.EffectCount = d.EffectCount) ∧
    (∀ (d : Device) (effect : Effect), IsEffectOnDevice d effect.identifier = false →
      d.EffectCount < kEffectMaxCount →
      (AddOrUpdateEffect d effect).1 = true ∧
      (AddOrUpdateEffect d effect).2.EffectCount = d.EffectCount + 1 ∧
      IsEffectOnDevice (AddOrUpdateEffect d effect).2 effect.identifier = true) := by
  refine ⟨rfl, ?_, ?_, ?_, ?_, ?_⟩
  · intro timestampBase operations
    have h := BufferInvariant_ApplyOperations operations _ (BufferInvariant_CreateDevice timestampBase)
    refine ⟨h.2, ?_⟩
    rintro id ⟨hready, hplaying⟩
    rw [EffectContains_iff] at hready hplaying
    exact (List.nodup_append.mp h.1).2.2 hready hplaying
  · have h := Example.AddEffects_state 256 (Nat.le_refl _)
    rw [EffectCount_eq, h.1, h.2]
    simp [EffectKeys]
  · intro d effect hon hcount
    simp only [IsEffectOnDevice, Bool.or_eq_false_iff] at hon
    simp [AddOrUpdateEffect, hon.1, hon.2, hcount]
  · intro d effect hon
    simp only [IsEffectOnDevice, Bool.or_eq_true] at hon
    unfold AddOrUpdateEffect
    by_cases hplaying : EffectContains d.playingEffects effect.identifier = true
    · simp [hplaying, EffectCount, EffectModify]
    · have hready : EffectContains d.readyEffects effect.identifier = true := by
        rcases hon with h | h
        · exact h
        · exact absurd h hplaying
      simp [hplaying, hready, EffectCount, EffectModify]
  · intro d effect hon hcount
    simp only [IsEffectOnDevice, Bool.or_eq_false_iff] at hon
    have hnot : ¬ d.EffectCount ≥ kEffectMaxCount := by omega
    simp only [AddOrUpdateEffect, hon.1, hon.2, hnot, Bool.false_eq_true, if_false]
    refine ⟨trivial, ?_, ?_⟩
    · simp [EffectCount]; omega
    · simp [IsEffectOnDevice, EffectContains, EffectKeys]

/-- C19: while the force feedback device is paused, time stands still for
playback. After `SetPauseState(true)`, any number of `PlayEffects` calls, each
with an arbitrary timestamp and clock reading, leave the device as it is:
`timestampRelativeLastPlay` is unchanged, the device stays paused, and every
playing effect keeps playing with its start timestamp and its iteration
counter, so that none advances towards its duration; the magnitude vectors
returned do not depend on the timestamps, every component being 0. -/
theorem PlayEffects_while_paused (d : Device)
    (calls : List (Option TEffectTimeMs × TEffectTimeMs)) :
    (PlayEffectsAll (SetPauseState d true) calls).2.timestampRelativeLastPlay
      = d.timestampRelativeLastPlay ∧
    GetPauseState (PlayEffectsAll (SetPauseState d true) calls).2 = true ∧
    (PlayEffectsAll (SetPauseState d true) calls).2.playingEffects = d.playingEffects ∧
    (PlayEffectsAll (SetPauseState d true) calls).2.readyEffects = d.readyEffects ∧
    (∀ id, IsEffectPlaying (PlayEffectsAll (SetPauseState d true) calls).2 id
      = IsEffectPlaying d id) ∧
    (∀ id data, EffectFind d.playingEffects id = some data →
      ∃ data1, EffectFind (PlayEffectsAll (SetPauseState d true) calls).2.playingEffects id
          = some data1 ∧
        data1.startTime = data.startTime ∧
        data1.numIterationsLeft = data.numIterationsLeft) ∧
    (PlayEffectsAll (SetPauseState d true) calls).2 = SetPauseState d true ∧
    (PlayEffectsAll (SetPauseState d true) calls).1.length = calls.length ∧
    (∀ others : List (Option TEffectTimeMs × TEffectTimeMs), others.length = calls.length →
      PlayEffectsAll (SetPauseState d true) others
        = PlayEffectsAll (SetPauseState d true) calls) ∧
    (∀ magnitude ∈ (PlayEffectsAll (SetPauseState d true) calls).1,
      ∀ axis, magnitude axis = 0) := by
  have h := PlayEffectsAll_paused calls (SetPauseState d true) rfl
  rw [h]
  refine ⟨rfl, rfl, rfl, rfl, fun _ => rfl, fun id data hdata => ⟨data, hdata, rfl, rfl⟩, rfl,
    List.length_replicate _ _, ?_, ?_⟩
  · intro others hlen
    rw [PlayEffectsAll_paused others (SetPauseState d true) rfl, hlen]
  · intro magnitude hmem axis
    rw [List.eq_of_mem_replicate hmem]

/-- C19 (witness): on the device playing the effect 7 of duration 100, started
at time 0 for one iteration and last played at time 50, a call at time 250
finishes the effect; after `SetPauseState(true)`, calls at the times 250 and
1000 return zero vectors and leave the effect playing, started at time 0
with one iteration left, and the last play at time 50. -/
theorem PlayEffects_while_paused_witness :
    IsEffectPlaying Example.Started 7 = true ∧
    Example.Started.timestampRelativeLastPlay = 50 ∧
    (PlayEffects Example.Started (some 250) 250).1 EAxis.X = 0 ∧
    (PlayEffects Example.Started (some 60) 60).1 EAxis.X = 500 ∧
    IsEffectPlaying (PlayEffects Example.Started (some 250) 250).2 7 = false ∧
    (PlayEffects Example.Started (some 250) 250).2.timestampRelativeLastPlay = 250 ∧
    (PlayEffects Example.Started (some 20) 20).2.timestampRelativeLastPlay = 50 ∧
    IsEffectPlaying (PlayEffectsAll (SetPauseState Example.Started true)
      [(some 250, 250), (none, 1000)]).2 7 = true ∧
    (PlayEffectsAll (SetPauseState Example.Started true)
      [(some 250, 250), (none, 1000)]).2.timestampRelativeLastPlay = 50 ∧
    ((EffectFind (PlayEffectsAll (SetPauseState Example.Started true)
      [(some 250, 250), (none, 1000)]).2.playingEffects 7).map
        (fun data => (data.startTime, data.numIterationsLeft))) = some (0, 1) ∧
    (PlayEffectsAll (SetPauseState Example.Started true)
      [(some 250, 250), (none, 1000)]).1.map (fun magnitude => magnitude EAxis.X) = [0, 0] := by
  have h := PlayEffects_while_paused Example.Started [(some 250, 250), (none, 1000)]
  refine ⟨by decide, by decide, by decide, by decide, by decide, by decide, by decide,
    (h.2.2.2.2.1 7).trans (by decide), h.1.trans (by decide), ?_, ?_⟩
  · rw [h.2.2.1]
    decide
  · decide

end Device

end ForceFeedback

end Controller

/-! ## Theorems on the force feedback entry points of the virtual device -/

namespace VirtualDirectInputDevice

open Controller

theorem AutoAcquire_not_registering (v : VirtualDirectInputDevice)
    (hunregistered : v.controller.ForceFeedbackIsRegistered = false)
    (hauto : v.AutoAcquireRegisters = false) :
    AutoAcquireAndGetForceFeedbackDevice v = (none, v) := by
  obtain ⟨⟨supported, owner, device⟩, level, format⟩ := v
  simp only [VirtualController.ForceFeedbackIsRegistered, decide_eq_false_iff_not]
    at hunregistered
  cases format <;> cases level <;> cases owner <;>
    simp_all [AutoAcquireAndGetForceFeedbackDevice, Acquire, AutoAcquireRegisters,
      IsApplicationDataFormatSet, VirtualController.ForceFeedbackGetDevice,
      VirtualController.ForceFeedbackIsRegistered, VirtualController.ForceFeedbackRegister]

theorem AutoAcquire_registering (v : VirtualDirectInputDevice)
    (hauto : v.AutoAcquireRegisters = true) :
    AutoAcquireAndGetForceFeedbackDevice v
      = (some v.controller.forceFeedbackDevice,
          { v with controller := { v.controller with forceFeedbackOwner := .ThisController } }) := by
  obtain ⟨⟨supported, owner, device⟩, level, format⟩ := v
  cases format <;> cases level <;> cases owner <;>
    simp_all [AutoAcquireAndGetForceFeedbackDevice, Acquire, AutoAcquireRegisters,
      IsApplicationDataFormatSet, VirtualController.ForceFeedbackGetDevice,
      VirtualController.ForceFeedbackIsRegistered, VirtualController.ForceFeedbackRegister]

/-- C20 (counterexample): a virtual device with force feedback support, its
data format set and the exclusive cooperative level is not registered for
force feedback when `SendForceFeedbackCommand(DISFFC_PAUSE)` is called; the
call acquires the device automatically, returns `DI_OK` and pauses the force
feedback device. -/
theorem SendForceFeedbackCommand_counterexample :
    Example.UnacquiredExclusive.controller.forceFeedbackIsSupported = true ∧
    Example.UnacquiredExclusive.controller.ForceFeedbackIsRegistered = false ∧
    (SendForceFeedbackCommand Example.UnacquiredExclusive DISFFC_PAUSE).1 = .DI_OK ∧
    Example.UnacquiredExclusive.controller.forceFeedbackDevice.GetPauseState = false ∧
    (SendForceFeedbackCommand Example.UnacquiredExclusive
      DISFFC_PAUSE).2.controller.forceFeedbackDevice.GetPauseState = true ∧
    (SendForceFeedbackCommand Example.UnacquiredExclusive
      DISFFC_PAUSE).2.controller.ForceFeedbackIsRegistered = true :=
  ⟨rfl, rfl, rfl, rfl, rfl, rfl⟩

/-- C20 (amended): on a virtual device with force feedback support whose
controller is not registered for force feedback when the call is made, a
force feedback operation first tries to acquire the device. It fails with
`DIERR_NOTEXCLUSIVEACQUIRED` exactly when that acquisition does not register
the controller, that is, unless the data format is set, the cooperative level
is exclusive and nobody owns the force feedback buffer; it then changes
nothing on the virtual device, its controller and the force feedback device.
This holds for `SendForceFeedbackCommand` with every command word, for
`GetForceFeedbackState` with an output pointer that is not null, and for
`GetProperty` of `DIPROP_FFLOAD` with a valid header and an identified
element. When the acquisition does register the controller, the operation
leaves it registered. -/
theorem ForceFeedback_without_acquisition (v : VirtualDirectInputDevice)
    (hsupported : v.controller.forceFeedbackIsSupported = true)
    (hunregistered : v.controller.ForceFeedbackIsRegistered = false) :
    (∀ dwFlags, ((SendForceFeedbackCommand v dwFlags).1 = .DIERR_NOTEXCLUSIVEACQUIRED ↔
      v.AutoAcquireRegisters = false)) ∧
    (∀ word, ((GetForceFeedbackState v (some word)).1 = .DIERR_NOTEXCLUSIVEACQUIRED ↔
      v.AutoAcquireRegisters = false)) ∧
    (∀ element dwData,
      ((GetPropertyFFLoad v true (some element) dwData).1 = .DIERR_NOTEXCLUSIVEACQUIRED ↔
        v.AutoAcquireRegisters = false)) ∧
    (v.AutoAcquireRegisters = false →
      (∀ dwFlags, (SendForceFeedbackCommand v dwFlags).2 = v) ∧
      (∀ word, (GetForceFeedbackState v (some word)).2 = (some word, v)) ∧
      (∀ element dwData, (GetPropertyFFLoad v true (some element) dwData).2 = (dwData, v))) ∧
    (v.AutoAcquireRegisters = true →
      (∀ dwFlags,
        (SendForceFeedbackCommand v dwFlags).2.controller.ForceFeedbackIsRegistered = true) ∧
      (∀ word, (GetForceFeedbackState v (some word)).1 = .DI_OK ∧
        (GetForceFeedbackState v (some word)).2.2.controller.ForceFeedbackIsRegistered = true) ∧
      (∀ element dwData, (GetPropertyFFLoad v true (some element) dwData).1 = .DI_OK ∧
        (GetPropertyFFLoad v true (some element) dwData).2.2.controller.ForceFeedbackIsRegistered
          = true)) := by
  have hsend : ∀ dwFlags, v.AutoAcquireRegisters = true →
      (SendForceFeedbackCommand v dwFlags).1 ≠ .DIERR_NOTEXCLUSIVEACQUIRED ∧
      (SendForceFeedbackCommand v dwFlags).2.controller.ForceFeedbackIsRegistered = true := by
    intro dwFlags hauto
    simp only [SendForceFeedbackCommand, hsupported, Bool.true_eq_false, if_false,
      AutoAcquire_registering v hauto]
    repeat' split
    all_goals exact ⟨by simp, rfl⟩
  refine ⟨?_, ?_, ?_, ?_, ?_⟩
  · intro dwFlags
    constructor
    · intro h
      by_contra hauto
      exact (hsend dwFlags (by simpa using hauto)).1 h
    · intro hauto
      simp [SendForceFeedbackCommand, hsupported,
        AutoAcquire_not_registering v hunregistered hauto]
  · intro word
    constructor
    · intro h
      by_contra hauto
      have hauto1 : v.AutoAcquireRegisters = true := by simpa using hauto
      simp [GetForceFeedbackState, hsupported, AutoAcquire_registering v hauto1] at h
    · intro hauto
      simp [GetForceFeedbackState, hsupported,
        AutoAcquire_not_registering v hunregistered hauto]
  · intro element dwData
    constructor
    · intro h
      by_contra hauto
      have hauto1 : v.AutoAcquireRegisters = true := by simpa using hauto
      simp [GetPropertyFFLoad, AutoAcquire_registering v hauto1] at h
    · intro hauto
      simp [GetPropertyFFLoad, AutoAcquire_not_registering v hunregistered hauto]
  · intro hauto
    refine ⟨?_, ?_, ?_⟩
    · intro dwFlags
      simp [SendForceFeedbackCommand, hsupported,
        AutoAcquire_not_registering v hunregistered hauto]
    · intro word
      simp [GetForceFeedbackState, hsupported,
        AutoAcquire_not_registering v hunregistered hauto]
    · intro element dwData
      simp [GetPropertyFFLoad, AutoAcquire_not_registering v hunregistered hauto]
  · intro hauto
    refine ⟨fun dwFlags => (hsend dwFlags hauto).2, ?_, ?_⟩
    · intro word
      simp only [GetForceFeedbackState, hsupported, Bool.true_eq_false, if_false,
        AutoAcquire_registering v hauto]
      exact ⟨trivial, rfl⟩
    · intro element dwData
      simp only [GetPropertyFFLoad, Bool.true_eq_false, if_false,
        AutoAcquire_registering v hauto]
      exact ⟨trivial, rfl⟩

/-- C20 (witness): on the virtual device with the shared cooperative level,
which is not registered for force feedback, the reset command fails with
`DIERR_NOTEXCLUSIVEACQUIRED` and leaves the virtual device unchanged. -/
theorem ForceFeedback_without_acquisition_witness :
    Example.UnacquiredShared.controller.forceFeedbackIsSupported = true ∧
    Example.UnacquiredShared.controller.ForceFeedbackIsRegistered = false ∧
    (SendForceFeedbackCommand Example.UnacquiredShared DISFFC_RESET).1
      = .DIERR_NOTEXCLUSIVEACQUIRED ∧
    (SendForceFeedbackCommand Example.UnacquiredShared DISFFC_RESET).2
      = Example.UnacquiredShared :=
  ⟨rfl, rfl,
    ((ForceFeedback_without_acquisition Example.UnacquiredShared rfl rfl).1 DISFFC_RESET).mpr rfl,
    ((ForceFeedback_without_acquisition Example.UnacquiredShared rfl rfl).2.2.2.1 rfl).1
      DISFFC_RESET⟩

end VirtualDirectInputDevice

namespace Controller

/-! ## Theorems on repeated builds and on termination -/

namespace MapperBuilder

/-- A blueprint on which a build has been attempted stays so under every
operation of the builder. -/
theorem Apply_keeps_attempted (op : EOperation) (s : SBuildState) (n : String)
    (b : SBlueprint) (hfind : FindBlueprint s.blueprints n = some b)
    (hatt : b.buildAttempted = true) :
    ∃ b1, FindBlueprint (op.Apply s).blueprints n = some b1 ∧ b1.buildAttempted = true := by
  have hmodify : ∀ (x : String) (f : SBlueprint → SBlueprint),
      (∀ c, c.buildAttempted = true → (f c).buildAttempted = true) →
      ∃ b1, FindBlueprint (ModifyBlueprint s x f).blueprints n = some b1 ∧
        b1.buildAttempted = true := by
    intro x f hf
    rw [FindBlueprint_modify]
    by_cases hx : n = x
    · subst hx
      exact ⟨f b, by simp [hfind], hf b hatt⟩
    · exact ⟨b, by simp [hx, hfind], hatt⟩
  have hframe : ∀ s1, Frame s s1 →
      ∃ b1, FindBlueprint s1.blueprints n = some b1 ∧ b1.buildAttempted = true := by
    intro s1 hfr
    obtain ⟨b1, hb1, _, _, hsame⟩ := hfr.find_some n b hfind
    exact ⟨b1, hb1, by rw [hsame hatt]; exact hatt⟩
  cases op with
  | CreateBlueprint x =>
    show ∃ b1, FindBlueprint (CreateBlueprint s x).2.blueprints n = some b1 ∧ _
    unfold CreateBlueprint
    split
    · exact ⟨b, hfind, hatt⟩
    · split
      · exact ⟨b, hfind, hatt⟩
      · rename_i hx
        have hne : n ≠ x := by
          intro e
          rw [e, hx] at hfind
          cases hfind
        exact ⟨b, by simp [FindBlueprint_insert_other _ _ _ _ hne, hfind], hatt⟩
  | SetBlueprintElementMapper x i m =>
    show ∃ b1, FindBlueprint (SetBlueprintElementMapper s x i m).2.blueprints n = some b1 ∧ _
    unfold SetBlueprintElementMapper
    split
    · exact ⟨b, hfind, hatt⟩
    · split
      · exact hmodify x _ (fun c hc => hc)
      · exact ⟨b, hfind, hatt⟩
  | ClearBlueprintElementMapper x i =>
    show ∃ b1, FindBlueprint (ClearBlueprintElementMapper s x i).2.blueprints n = some b1 ∧ _
    unfold ClearBlueprintElementMapper
    split
    · exact ⟨b, hfind, hatt⟩
    · split
      · split
        · exact ⟨b, hfind, hatt⟩
        · exact hmodify x _ (fun c hc => hc)
      · exact ⟨b, hfind, hatt⟩
  | SetBlueprintTemplate x y =>
    show ∃ b1, FindBlueprint (SetBlueprintTemplate s x y).2.blueprints n = some b1 ∧ _
    unfold SetBlueprintTemplate
    split
    · exact ⟨b, hfind, hatt⟩
    · exact hmodify x _ (fun c hc => hc)
  | InvalidateBlueprint x =>
    show ∃ b1, FindBlueprint (InvalidateBlueprint s x).2.blueprints n = some b1 ∧ _
    unfold InvalidateBlueprint
    split
    · exact ⟨b, hfind, hatt⟩
    · exact hmodify x _ (fun c hc => hc)
  | BuildByName x =>
    obtain ⟨r, s1, hb⟩ := BuildByName_total x s
    have : (EOperation.BuildByName x).Apply s = s1 := by
      simp [EOperation.Apply, hb]
    rw [this]
    exact hframe s1 (Builds_outcome (BuildByName_sound x s r s1 hb)).frame
  | Build =>
    obtain ⟨r, s1, hb, hloop⟩ := BuildLoop_sound (s.blueprints.map Prod.fst) s
    have : EOperation.Build.Apply s = s1 := by
      simp [EOperation.Apply, MapperBuilder.Build, hb]
    rw [this]
    exact hframe s1 (Loops_frame hloop)

theorem ApplyAll_keeps_attempted (operations : List EOperation) :
    ∀ (s : SBuildState) (n : String) (b : SBlueprint),
      FindBlueprint s.blueprints n = some b → b.buildAttempted = true →
      ∃ b1, FindBlueprint (ApplyAll s operations).blueprints n = some b1 ∧
        b1.buildAttempted = true := by
  induction operations with
  | nil => intro s n b hfind hatt; exact ⟨b, hfind, hatt⟩
  | cons op rest ih =>
    intro s n b hfind hatt
    obtain ⟨b1, hb1, hatt1⟩ := Apply_keeps_attempted op s n b hfind hatt
    exact ih (op.Apply s) n b1 hb1 hatt1

/-- The error with which `Build(name)` fails on a blueprint on which a build
has been attempted: the first of the three guards that applies. -/
theorem BuildByName_attempted (s : SBuildState) (n : String) (b : SBlueprint)
    (hfind : FindBlueprint s.blueprints n = some b) (hatt : b.buildAttempted = true) :
    BuildByName n s = some (none, Output s .Error
      (if Known s n then EBuildMessage.MapperAlreadyExists
        else if b.buildCanAttempt = false then EBuildMessage.ConfigurationInvalid
        else EBuildMessage.CircularTemplateDependency) n) := by
  unfold BuildByName BuildByNameFuel
  by_cases hk : Mapper.IsMapperNameKnown s.registry n = true
  · simp [hfind, hk, Known]
  · by_cases hcan : b.buildCanAttempt = false
    · simp [hfind, hk, hcan, Known]
    · simp [hfind, hk, hcan, hatt, Known]

/-- A call of `Build(name)` that passes the guards, and so starts building the
blueprint, leaves the blueprint marked as attempted, whether it succeeds or
fails. -/
theorem Builds_started {n : String} {s : SBuildState} {r : Option Mapper} {s1 : SBuildState}
    (h : Builds n s r s1) (b : SBlueprint) (hfind : FindBlueprint s.blueprints n = some b)
    (hknown : ¬ Known s n) (hcan : b.buildCanAttempt = true) :
    ∃ b1, FindBlueprint s1.blueprints n = some b1 ∧ b1.buildAttempted = true := by
  have hmark : FindBlueprint (MarkAttempted s n).blueprints n
      = some { b with buildAttempted := true } := by
    rw [FindBlueprint_mark_same, hfind]; rfl
  have hrecursive : ∀ (t : String) (r3 : Option Mapper) (s3 : SBuildState),
      Builds t (Output (MarkAttempted s n) .Info .AttemptingTemplateBuild n) r3 s3 →
      FindBlueprint s3.blueprints n = some { b with buildAttempted := true } := by
    intro t r3 s3 hrec
    obtain ⟨b3, hb3, _, _, hsame⟩ :=
      (Builds_outcome hrec).frame.find_some n { b with buildAttempted := true } hmark
    rw [hb3, hsame rfl]
  have hfinish : ∀ (sk : SBuildState) (mapper : Mapper),
      FindBlueprint sk.blueprints n = some { b with buildAttempted := true } →
      ∃ b1, FindBlueprint (FinishState sk n mapper).blueprints n = some b1 ∧
        b1.buildAttempted = true := by
    intro sk mapper hk
    exact ⟨_, by rw [FindBlueprint_finish_same, hk]; rfl, rfl⟩
  cases h with
  | unrecognized hf => rw [hf] at hfind; cases hfind
  | alreadyExists hf hk => exact absurd hk hknown
  | invalid hf hk hc =>
    rw [hf] at hfind
    cases hfind
    rw [hc] at hcan
    cases hcan
  | circular hf hk hc ha =>
    rw [hf] at hfind
    cases hfind
    exact ⟨_, hf, ha⟩
  | noTemplate hf hk hc ha ht =>
    rw [FinishBuild_eq _ n _ _ hmark]
    exact hfinish _ _ hmark
  | templateKnown hf hk hc ha ht htk =>
    rw [hf] at hfind
    cases hfind
    obtain ⟨tm, _, heq⟩ := BuildFromTemplate_eq (MarkAttempted s n) n b.templateName _ hmark htk
    rw [heq]
    exact hfinish _ _ hmark
  | templateFailed hf hk hc ha ht htk hrec =>
    have h3 := hrecursive _ _ _ hrec
    exact ⟨_, h3, rfl⟩
  | templateBuilt hf hk hc ha ht htk hrec htk3 =>
    rw [hf] at hfind
    cases hfind
    have h3 := hrecursive _ _ _ hrec
    obtain ⟨tm, _, heq⟩ := BuildFromTemplate_eq _ n b.templateName _ h3 htk3
    rw [heq]
    exact hfinish _ _ h3
  | templateNotRegistered hf hk hc ha ht htk hrec htk3 =>
    have h3 := hrecursive _ _ _ hrec
    exact ⟨_, h3, rfl⟩

/-- C27: `buildAttempted` is set when the build of a blueprint starts and no
operation of the builder resets it. A call of `Build(name)` on a blueprint
that exists, is not registered and can be attempted, which starts building
the blueprint unless a build was attempted before, returns, with success or
failure, and leaves `buildAttempted` set; after any further operations of the
builder the flag is still set and `Build(name)` fails with the error of the
first guard that applies, leaving the blueprints and the registered mappers as
they are, so that no further mapper is constructed. -/
theorem Build_at_most_once (s : SBuildState) (n : String) (b : SBlueprint)
    (hfind : FindBlueprint s.blueprints n = some b) (hknown : ¬ Known s n)
    (hcan : b.buildCanAttempt = true) :
    ∃ r s1, BuildByName n s = some (r, s1) ∧
      ∀ operations, ∃ b1,
        FindBlueprint (ApplyAll s1 operations).blueprints n = some b1 ∧
        b1.buildAttempted = true ∧
        BuildByName n (ApplyAll s1 operations)
          = some (none, Output (ApplyAll s1 operations) .Error
              (if Known (ApplyAll s1 operations) n then EBuildMessage.MapperAlreadyExists
                else if b1.buildCanAttempt = false then EBuildMessage.ConfigurationInvalid
                else EBuildMessage.CircularTemplateDependency) n) ∧
        (Output (ApplyAll s1 operations) .Error
            (if Known (ApplyAll s1 operations) n then EBuildMessage.MapperAlreadyExists
              else if b1.buildCanAttempt = false then EBuildMessage.ConfigurationInvalid
              else EBuildMessage.CircularTemplateDependency) n).registry
          = (ApplyAll s1 operations).registry := by
  obtain ⟨r, s1, hb⟩ := BuildByName_total n s
  refine ⟨r, s1, hb, ?_⟩
  intro operations
  obtain ⟨b0, hb0, hatt0⟩ := Builds_started (BuildByName_sound n s r s1 hb) b hfind hknown hcan
  obtain ⟨b1, hb1, hatt1⟩ := ApplyAll_keeps_attempted operations s1 n b0 hb0 hatt0
  exact ⟨b1, hb1, hatt1, BuildByName_attempted _ n b1 hb1 hatt1, rfl⟩

/-- C27 (witness): blueprint A names a template T that has no blueprint. The
first `Build("A")` starts building A and fails; after it, and after a further
`Build()`, blueprint A is still marked as attempted and `Build("A")` fails
again without registering anything. -/
theorem Build_at_most_once_witness :
    ∃ r s1, BuildByName "A" Example.MissingTemplate = some (r, s1) ∧
      ∃ b1, FindBlueprint (ApplyAll s1 [.Build]).blueprints "A" = some b1 ∧
        b1.buildAttempted = true ∧
        ∃ text, BuildByName "A" (ApplyAll s1 [.Build])
          = some (none, Output (ApplyAll s1 [.Build]) .Error text "A") := by
  obtain ⟨r, s1, hb, hlater⟩ :=
    Build_at_most_once Example.MissingTemplate "A" (Example.Blueprint "T") rfl (by decide) rfl
  obtain ⟨b1, hb1, hatt1, hbuild, _⟩ := hlater [.Build]
  exact ⟨r, s1, hb, b1, hb1, hatt1, _, hbuild⟩

/-- More fuel does not change the result of a build that returns. -/
theorem BuildByNameFuel_succ (fuel : Nat) :
    ∀ (n : String) (s : SBuildState) (x : Option Mapper × SBuildState),
      BuildByNameFuel fuel n s = some x → BuildByNameFuel (fuel + 1) n s = some x := by
  induction fuel with
  | zero => intro n s x h; simp [BuildByNameFuel] at h
  | succ f ih =>
    intro n s x h
    rw [BuildByNameFuel.eq_2] at h ⊢
    cases hf : FindBlueprint s.blueprints n with
    | none => simpa [hf] using h
    | some b =>
      simp only [hf] at h ⊢
      split_ifs at h ⊢ with h1 h2 h3 h4 h5
      · exact h
      · exact h
      · exact h
      · exact h
      · exact h
      · cases hr : BuildByNameFuel f b.templateName
            (Output (MarkAttempted s n) .Info .AttemptingTemplateBuild n) with
        | none => simp [hr] at h
        | some y =>
          rw [ih _ _ _ hr]
          rw [hr] at h
          exact h

theorem BuildByNameFuel_mono (fuel more : Nat) (n : String) (s : SBuildState)
    (x : Option Mapper × SBuildState) (h : BuildByNameFuel fuel n s = some x) :
    BuildByNameFuel (fuel + more) n s = some x := by
  induction more with
  | zero => exact h
  | succ k ih => exact BuildByNameFuel_succ _ n s x ih

/-- C28: `Build(name)` terminates on every builder state, template cycles
included. With room for a recursion depth of the number of blueprints not yet
attempted, the call returns, and its result is that of `Build(name)` whatever
the room beyond that; a call on a blueprint that is marked as attempted
returns at once, without any recursive call; and a recursive call for the
template is made on the state in which the blueprint, unattempted before, is
marked as attempted, which has one unattempted blueprint less. -/
theorem Build_terminates (s : SBuildState) (n : String) :
    (∀ fuel, UnattemptedCount s.blueprints < fuel →
      ∃ r s1, BuildByNameFuel fuel n s = some (r, s1) ∧ BuildByName n s = some (r, s1)) ∧
    (∀ b, FindBlueprint s.blueprints n = some b → b.buildAttempted = true →
      ∃ text, BuildByNameFuel 1 n s = some (none, Output s .Error text n)) ∧
    (∀ b fuel, FindBlueprint s.blueprints n = some b → ¬ Known s n →
      b.buildCanAttempt = true → b.buildAttempted = false → b.templateName ≠ "" →
      ¬ Known s b.templateName →
      UnattemptedCount
          (Output (MarkAttempted s n) .Info .AttemptingTemplateBuild n).blueprints + 1
        = UnattemptedCount s.blueprints ∧
      (FindBlueprint
          (Output (MarkAttempted s n) .Info .AttemptingTemplateBuild n).blueprints n).map
        SBlueprint.buildAttempted = some true ∧
      (BuildByNameFuel fuel b.templateName
          (Output (MarkAttempted s n) .Info .AttemptingTemplateBuild n) = none →
        BuildByNameFuel (fuel + 1) n s = none) ∧
      (∀ r3 s3, BuildByNameFuel fuel b.templateName
          (Output (MarkAttempted s n) .Info .AttemptingTemplateBuild n) = some (r3, s3) →
        BuildByNameFuel (fuel + 1) n s
          = some (if r3.isNone = true then (none, Output s3 .Error .TemplateDependencyFailed n)
              else if Known s3 b.templateName then BuildFromTemplate s3 n b.templateName
              else (none, Output s3 .Error .TemplateNotRegistered n)))) := by
  refine ⟨?_, ?_, ?_⟩
  · intro fuel hfuel
    obtain ⟨r, s1, h⟩ := BuildByNameFuel_total (UnattemptedCount s.blueprints + 1) n s
      (Nat.lt_succ_self _)
    have h1 : BuildByNameFuel fuel n s = some (r, s1) := by
      have := BuildByNameFuel_mono _ (fuel - (UnattemptedCount s.blueprints + 1)) n s _ h
      rwa [Nat.add_sub_cancel' hfuel] at this
    have h2 : BuildByName n s = some (r, s1) := by
      have := BuildByNameFuel_mono _
        (s.blueprints.length + 1 - (UnattemptedCount s.blueprints + 1)) n s _ h
      rwa [Nat.add_sub_cancel'
        (Nat.succ_le_succ (UnattemptedCount_le_length s.blueprints))] at this
    exact ⟨r, s1, h1, h2⟩
  · intro b hfind hatt
    rw [BuildByNameFuel.eq_2]
    simp only [hfind]
    split_ifs
    · exact ⟨_, rfl⟩
    · exact ⟨_, rfl⟩
    · exact ⟨_, rfl⟩
  · intro b fuel hfind hknown hcan hatt htmpl htk
    have hk : Mapper.IsMapperNameKnown s.registry n = false := by
      cases h : Mapper.IsMapperNameKnown s.registry n
      · rfl
      · exact absurd h hknown
    have htk1 : Mapper.IsMapperNameKnown (MarkAttempted s n).registry b.templateName = false := by
      cases h : Mapper.IsMapperNameKnown (MarkAttempted s n).registry b.templateName
      · rfl
      · exact absurd h htk
    refine ⟨UnattemptedCount_mark s.blueprints n b hfind hatt, ?_, ?_, ?_⟩
    · show (FindBlueprint (MarkAttempted s n).blueprints n).map _ = _
      rw [FindBlueprint_mark_same, hfind]
      rfl
    · intro hnone
      rw [BuildByNameFuel.eq_2]
      simp [hfind, hk, hcan, hatt, htmpl, htk1, hnone]
    · intro r3 s3 hsome
      rw [BuildByNameFuel.eq_2]
      simp only [hfind, hk, hcan, hatt, htmpl, htk1, hsome, Bool.false_eq_true, if_false]
      cases r3 with
      | none => simp
      | some m =>
        by_cases h3 : Mapper.IsMapperNameKnown s3.registry b.templateName = true
        · simp [h3, Known]
        · simp [h3, Known]

end MapperBuilder

end Controller

/-! ## Theorems on the force feedback state word and on effects -/

namespace VirtualDirectInputDevice

open Controller

theorem ForceFeedbackDeviceState_flags (d : ForceFeedback.Device) :
    ForceFeedbackDeviceState d &&& DIGFFS_POWERON ≠ 0 ∧
    (ForceFeedbackDeviceState d &&& DIGFFS_ACTUATORSOFF ≠ 0 ↔ d.IsDeviceOutputMuted = true) ∧
    (ForceFeedbackDeviceState d &&& DIGFFS_ACTUATORSON ≠ 0 ↔ d.IsDeviceOutputMuted = false) ∧
    (ForceFeedbackDeviceState d &&& DIGFFS_EMPTY ≠ 0 ↔ d.IsDeviceEmpty = true) ∧
    (ForceFeedbackDeviceState d &&& DIGFFS_PAUSED ≠ 0 ↔ d.IsDeviceOutputPaused = true) ∧
    (ForceFeedbackDeviceState d &&& DIGFFS_STOPPED ≠ 0 ↔
      (d.IsDeviceEmpty = false ∧ d.IsDeviceOutputPaused = false ∧
        d.IsDevicePlayingAnyEffects = false)) := by
  unfold ForceFeedbackDeviceState
  cases d.IsDeviceOutputMuted <;> cases d.IsDeviceEmpty <;> cases d.IsDeviceOutputPaused <;>
    cases d.IsDevicePlayingAnyEffects <;> decide

theorem IsDeviceEmpty_iff (d : ForceFeedback.Device) :
    d.IsDeviceEmpty = true ↔ d.readyEffects = [] ∧ d.playingEffects = [] := by
  simp [ForceFeedback.Device.IsDeviceEmpty, List.isEmpty_iff]

theorem IsDevicePlayingAnyEffects_iff (d : ForceFeedback.Device) :
    d.IsDevicePlayingAnyEffects = false ↔ d.playingEffects = [] := by
  simp [ForceFeedback.Device.IsDevicePlayingAnyEffects, List.isEmpty_iff]

/-- C30: whenever `GetForceFeedbackState` succeeds, it writes the state word of
the force feedback device of the controller. The word contains POWERON; it
contains ACTUATORSOFF if and only if the device output is muted and
ACTUATORSON if and only if it is not, so exactly one of the two; it contains
EMPTY if and only if the device holds no effects, PAUSED if and only if the
device is paused, and STOPPED if and only if the device is not empty, not
paused and playing no effect, so that STOPPED is never reported together
with PAUSED or with EMPTY. -/
theorem GetForceFeedbackState_word (v : VirtualDirectInputDevice) (pdwOut : Option Nat)
    (hok : (GetForceFeedbackState v pdwOut).1 = .DI_OK) :
    ∃ state d, (GetForceFeedbackState v pdwOut).2.1 = some state ∧
      (GetForceFeedbackState v pdwOut).2.2.controller.ForceFeedbackGetDevice = some d ∧
      state = ForceFeedbackDeviceState d ∧
      state &&& DIGFFS_POWERON ≠ 0 ∧
      (state &&& DIGFFS_ACTUATORSOFF ≠ 0 ↔ d.IsDeviceOutputMuted = true) ∧
      (state &&& DIGFFS_ACTUATORSON ≠ 0 ↔ ¬ (state &&& DIGFFS_ACTUATORSOFF ≠ 0)) ∧
      (state &&& DIGFFS_EMPTY ≠ 0 ↔ (d.readyEffects = [] ∧ d.playingEffects = [])) ∧
      (state &&& DIGFFS_PAUSED ≠ 0 ↔ d.IsDeviceOutputPaused = true) ∧
      (state &&& DIGFFS_STOPPED ≠ 0 ↔
        (¬ (d.readyEffects = [] ∧ d.playingEffects = []) ∧ d.IsDeviceOutputPaused = false ∧
          d.playingEffects = [])) ∧
      ¬ (state &&& DIGFFS_STOPPED ≠ 0 ∧ state &&& DIGFFS_PAUSED ≠ 0) ∧
      ¬ (state &&& DIGFFS_STOPPED ≠ 0 ∧ state &&& DIGFFS_EMPTY ≠ 0) := by
  have hdevice : ∃ d, AutoAcquireAndGetForceFeedbackDevice v
        = (some d, (AutoAcquireAndGetForceFeedbackDevice v).2) ∧
      (AutoAcquireAndGetForceFeedbackDevice v).2.controller.ForceFeedbackGetDevice = some d ∧
      (GetForceFeedbackState v pdwOut).2.1 = some (ForceFeedbackDeviceState d) ∧
      (GetForceFeedbackState v pdwOut).2.2 = (AutoAcquireAndGetForceFeedbackDevice v).2 := by
    unfold GetForceFeedbackState at hok ⊢
    split at hok
    · cases hok
    · rename_i hsupported
      simp only [hsupported, if_false]
      cases pdwOut with
      | none => cases hok
      | some word =>
        simp only at hok ⊢
        cases hauto : AutoAcquireAndGetForceFeedbackDevice v with
        | mk device v1 =>
          rw [hauto] at hok
          cases device with
          | none => cases hok
          | some d =>
            refine ⟨d, rfl, ?_, rfl, rfl⟩
            unfold AutoAcquireAndGetForceFeedbackDevice at hauto
            split at hauto
            · rename_i d0 hget
              cases hauto
              exact hget
            · simp only [Prod.mk.injEq] at hauto
              rw [← hauto.2]
              exact hauto.1
  obtain ⟨d, _, hget, hword, hstate⟩ := hdevice
  have hflags := ForceFeedbackDeviceState_flags d
  have hempty := IsDeviceEmpty_iff d
  have hplaying := IsDevicePlayingAnyEffects_iff d
  refine ⟨ForceFeedbackDeviceState d, d, hword, by rw [hstate]; exact hget, rfl, hflags.1,
    hflags.2.1, ?_, hflags.2.2.2.1.trans hempty, hflags.2.2.2.2.1, ?_, ?_, ?_⟩
  · rw [hflags.2.2.1, hflags.2.1]
    cases d.IsDeviceOutputMuted <;> simp
  · rw [hflags.2.2.2.2.2, ← hempty, ← hplaying]
    cases d.IsDeviceEmpty <;> simp
  · rw [hflags.2.2.2.2.2, hflags.2.2.2.2.1]
    rintro ⟨⟨_, h1, _⟩, h2⟩
    rw [h1] at h2
    cases h2
  · rw [hflags.2.2.2.2.2, hflags.2.2.2.1]
    rintro ⟨⟨h1, _, _⟩, h2⟩
    rw [h1] at h2
    cases h2

/-- C30 (witness): on the acquired virtual device whose force feedback device
is paused and holds one ready effect, `GetForceFeedbackState` succeeds and
reports POWERON, ACTUATORSON and PAUSED, and neither EMPTY nor STOPPED. -/
theorem GetForceFeedbackState_word_witness :
    (GetForceFeedbackState Example.AcquiredPaused (some 0)).1 = .DI_OK ∧
    (GetForceFeedbackState Example.AcquiredPaused (some 0)).2.1
      = some (DIGFFS_POWERON ||| DIGFFS_ACTUATORSON ||| DIGFFS_PAUSED) ∧
    ∃ (state : Nat) (d : ForceFeedback.Device),
      (GetForceFeedbackState Example.AcquiredPaused (some 0)).2.1 = some state ∧
      state &&& DIGFFS_POWERON ≠ 0 ∧
      (state &&& DIGFFS_PAUSED ≠ 0 ↔ d.IsDeviceOutputPaused = true) := by
  obtain ⟨state, d, hstate, _, _, hpower, _, _, _, hpaused, _⟩ :=
    GetForceFeedbackState_word Example.AcquiredPaused (some 0) rfl
  exact ⟨rfl, rfl, state, d, hstate, hpower, hpaused⟩

/-- C21 (what the code does): on a virtual controller whose capabilities
report no force feedback support, `CreateEffect`, `GetForceFeedbackState` and
`SendForceFeedbackCommand` fail with `DIERR_UNSUPPORTED`, for every GUID,
every command and all other arguments, and change nothing; `GetEffectInfo`
changes nothing either but fails with `DIERR_INVALIDPARAM`. -/
theorem ForceFeedback_unsupported (v : VirtualDirectInputDevice)
    (hunsupported : v.controller.forceFeedbackIsSupported = false) :
    (∀ setParametersInternal rguid lpeff ppdeff,
      CreateEffect v setParametersInternal rguid lpeff ppdeff
        = (.DIERR_UNSUPPORTED, ppdeff, v)) ∧
    (∀ pdwOut, GetForceFeedbackState v pdwOut = (.DIERR_UNSUPPORTED, pdwOut, v)) ∧
    (∀ dwFlags, SendForceFeedbackCommand v dwFlags = (.DIERR_UNSUPPORTED, v)) ∧
    (∀ pdei rguid, GetEffectInfo v pdei rguid = (.DIERR_INVALIDPARAM, pdei)) := by
  refine ⟨?_, ?_, ?_, ?_⟩
  · intro setParametersInternal rguid lpeff ppdeff
    simp [CreateEffect, hunsupported]
  · intro pdwOut
    simp [GetForceFeedbackState, hunsupported]
  · intro dwFlags
    simp [SendForceFeedbackCommand, hunsupported]
  · intro pdei rguid
    simp [GetEffectInfo, hunsupported]

/-- C21 (failing input): on the virtual device without force feedback support,
`GetEffectInfo` with a correctly sized structure and the GUID of the sine
effect returns `DIERR_INVALIDPARAM`, and not `DIERR_UNSUPPORTED` as
`CreateEffect` does for the same GUID. -/
theorem ForceFeedback_unsupported_witness :
    Example.NoForceFeedback.controller.forceFeedbackIsSupported = false ∧
    (GetEffectInfo Example.NoForceFeedback
      (some ⟨SizeofEffectInfo .W, .Unknown, 0, 0, 0⟩) .Sine).1 = .DIERR_INVALIDPARAM ∧
    (CreateEffect Example.NoForceFeedback Example.AcceptParameters .Sine none none).1
      = .DIERR_UNSUPPORTED := by
  have h := ForceFeedback_unsupported Example.NoForceFeedback rfl
  exact ⟨rfl, by rw [h.2.2.2], by rw [h.1]⟩

/-- C22: on a virtual controller without force feedback support, `EnumEffects`
with a callback that is not null and any effect type, and
`EnumCreatedEffectObjects` with a callback that is not null and flags equal
to 0, return `DI_OK` and never invoke the callback. -/
theorem EnumEffects_unsupported (v : VirtualDirectInputDevice)
    (hunsupported : v.controller.forceFeedbackIsSupported = false) :
    (∀ (lpCallback : DIEFFECTINFO → Nat) (dwEffType : Nat),
      EnumEffects v (some lpCallback) dwEffType = (.DI_OK, [])) ∧
    (∀ (lpCallback : VirtualDirectInputEffect → Nat),
      EnumCreatedEffectObjects v (some lpCallback) 0 = (.DI_OK, [])) := by
  constructor
  · intro lpCallback dwEffType
    simp [EnumEffects, hunsupported]
  · intro lpCallback
    simp [EnumCreatedEffectObjects, hunsupported]

/-- C22 (witness): the virtual device without force feedback support holds an
effect object in its registry; enumerating the effects and the created effect
objects with a callback that asks to continue returns `DI_OK` without any
invocation of the callback. -/
theorem EnumEffects_unsupported_witness :
    Example.NoForceFeedback.effectRegistry ≠ [] ∧
    EnumEffects Example.NoForceFeedback (some Example.ContinueEnumeration) DIEFT_ALL
      = (.DI_OK, []) ∧
    EnumCreatedEffectObjects Example.NoForceFeedback (some Example.ContinueEnumeration) 0
      = (.DI_OK, []) :=
  ⟨by decide, (EnumEffects_unsupported Example.NoForceFeedback rfl).1 _ _,
    (EnumEffects_unsupported Example.NoForceFeedback rfl).2 _⟩

end VirtualDirectInputDevice

/-! ## Theorems on the registry of effect object creators -/

namespace VirtualDirectInputDevice

open Controller

theorem ForceFeedbackEffectCanCreateObject_iff (g : GUID) :
    ForceFeedbackEffectCanCreateObject g = true ↔
      g ∈ kForceFeedbackEffectObjectCreators.map Prod.fst := by
  cases g <;>
    simp [ForceFeedbackEffectCanCreateObject, ForceFeedbackEffectObjectCreator,
      kForceFeedbackEffectObjectCreators, List.find?]

theorem ForceFeedbackEffectCreateObject_isSome (g : GUID) :
    (ForceFeedbackEffectCreateObject g).isSome = ForceFeedbackEffectCanCreateObject g := by
  unfold ForceFeedbackEffectCreateObject ForceFeedbackEffectCanCreateObject
  cases ForceFeedbackEffectObjectCreator g <;> rfl

theorem ForceFeedbackEffectType_isSome (g : GUID) :
    (ForceFeedbackEffectType g).isSome = true ↔
      (ForceFeedbackEffectCanCreateObject g = true ∨ g = .CustomForce) := by
  cases g <;>
    simp [ForceFeedbackEffectType, ForceFeedbackEffectCanCreateObject,
      ForceFeedbackEffectObjectCreator, kForceFeedbackEffectObjectCreators, List.find?]

theorem EnumEffectGuids_presented (charMode : ECharMode) (lpCallback : DIEFFECTINFO → Nat)
    (guids : List GUID) :
    ∀ info ∈ (EnumEffectGuids charMode lpCallback guids).1,
      ForceFeedbackEffectCanCreateObject info.guid = true := by
  induction guids with
  | nil => intro info h; simp [EnumEffectGuids] at h
  | cons g rest ih =>
    intro info h
    unfold EnumEffectGuids at h
    split at h
    · rename_i hcan
      simp only at h
      split at h
      · rcases List.mem_cons.mp h with h | h
        · rw [h]; exact hcan
        · exact ih info h
      · split at h
        · rw [List.mem_singleton.mp h]; exact hcan
        · rw [List.mem_singleton.mp h]; exact hcan
    · exact ih info h

theorem EnumEffectBlocks_presented (charMode : ECharMode) (lpCallback : DIEFFECTINFO → Nat)
    (blocks : List (Bool × List GUID)) :
    ∀ info ∈ (EnumEffectBlocks charMode lpCallback blocks).1,
      ForceFeedbackEffectCanCreateObject info.guid = true := by
  induction blocks with
  | nil => intro info h; simp [EnumEffectBlocks] at h
  | cons block rest ih =>
    obtain ⟨willEnumerate, guids⟩ := block
    intro info h
    unfold EnumEffectBlocks at h
    split at h
    · split at h
      · rename_i presented result heq
        have := EnumEffectGuids_presented charMode lpCallback guids info
        rw [heq] at this
        exact this h
      · rename_i presented heq
        have hguids := EnumEffectGuids_presented charMode lpCallback guids info
        rw [heq] at hguids
        rcases List.mem_append.mp h with h | h
        · exact hguids h
        · exact ih info h
    · exact ih info h

theorem EnumEffectGuids_continue (charMode : ECharMode) (lpCallback : DIEFFECTINFO → Nat)
    (hcontinue : ∀ info, lpCallback info = DIENUM_CONTINUE) (guids : List GUID) :
    (EnumEffectGuids charMode lpCallback guids).2 = none ∧
    (EnumEffectGuids charMode lpCallback guids).1.map DIEFFECTINFO.guid
      = guids.filter ForceFeedbackEffectCanCreateObject := by
  induction guids with
  | nil => exact ⟨rfl, rfl⟩
  | cons g rest ih =>
    unfold EnumEffectGuids
    by_cases hcan : ForceFeedbackEffectCanCreateObject g = true
    · simp only [hcan, if_true, hcontinue, List.map_cons, List.filter_cons]
      exact ⟨ih.1, by rw [ih.2]; rfl⟩
    · simp only [hcan, Bool.false_eq_true, if_false, List.filter_cons]
      exact ih

theorem EnumEffectBlocks_continue (charMode : ECharMode) (lpCallback : DIEFFECTINFO → Nat)
    (hcontinue : ∀ info, lpCallback info = DIENUM_CONTINUE) (blocks : List (Bool × List GUID)) :
    (EnumEffectBlocks charMode lpCallback blocks).2 = .DI_OK ∧
    (EnumEffectBlocks charMode lpCallback blocks).1.map DIEFFECTINFO.guid
      = (blocks.filter Prod.fst).flatMap
          (fun block => block.2.filter ForceFeedbackEffectCanCreateObject) := by
  induction blocks with
  | nil => exact ⟨rfl, rfl⟩
  | cons block rest ih =>
    obtain ⟨willEnumerate, guids⟩ := block
    have hguids := EnumEffectGuids_continue charMode lpCallback hcontinue guids
    unfold EnumEffectBlocks
    cases willEnumerate with
    | false => simpa [List.filter_cons] using ih
    | true =>
      simp only [if_true]
      cases heq : EnumEffectGuids charMode lpCallback guids with
      | mk presented exit =>
        rw [heq] at hguids
        simp only at hguids
        rw [hguids.1]
        simp only [List.map_append, List.filter_cons, if_true, List.flatMap_cons]
        exact ⟨ih.1, by rw [hguids.2, ih.2]⟩

/-- C25 (what the code does): on a virtual device with force feedback support,
`CreateEffect` without parameters constructs an effect object for a GUID if
and only if the GUID is in the registry of creators, and for a GUID outside
the registry it fails with `DIERR_DEVICENOTREG` without writing the output
pointer; `EnumEffects` presents to the callback only GUIDs of the registry,
and with `DIEFT_ALL` and a callback that asks to continue it presents exactly
the GUIDs of the registry. `GetEffectInfo`, given a correctly sized
structure, succeeds for the GUIDs of the registry and also for
`GUID_CustomForce`, which is not in the registry. -/
theorem EffectObjectCreator_authority (v : VirtualDirectInputDevice)
    (hsupported : v.controller.forceFeedbackIsSupported = true) :
    (∀ setParametersInternal g ppdeff,
      ((CreateEffect v setParametersInternal g none ppdeff).1 = .DI_OK ↔
        ForceFeedbackEffectCanCreateObject g = true)) ∧
    (∀ setParametersInternal g lpeff ppdeff, ForceFeedbackEffectCanCreateObject g = false →
      CreateEffect v setParametersInternal g lpeff ppdeff = (.DIERR_DEVICENOTREG, ppdeff, v)) ∧
    (∀ (lpCallback : DIEFFECTINFO → Nat) (dwEffType : Nat),
      ∀ info ∈ (EnumEffects v (some lpCallback) dwEffType).2,
        ForceFeedbackEffectCanCreateObject info.guid = true) ∧
    (∀ (lpCallback : DIEFFECTINFO → Nat), (∀ info, lpCallback info = DIENUM_CONTINUE) →
      (EnumEffects v (some lpCallback) DIEFT_ALL).1 = .DI_OK ∧
      ∀ g, (g ∈ (EnumEffects v (some lpCallback) DIEFT_ALL).2.map DIEFFECTINFO.guid ↔
        ForceFeedbackEffectCanCreateObject g = true)) ∧
    (∀ (effectInfo : DIEFFECTINFO) (g : GUID), effectInfo.dwSize = SizeofEffectInfo v.charMode →
      ((GetEffectInfo v (some effectInfo) g).1 = .DI_OK ↔
        (ForceFeedbackEffectCanCreateObject g = true ∨ g = .CustomForce))) ∧
    ForceFeedbackEffectCanCreateObject .CustomForce = false := by
  have hsup : v.controller.forceFeedbackIsSupported ≠ false := by simp [hsupported]
  refine ⟨?_, ?_, ?_, ?_, ?_, by decide⟩
  · intro setParametersInternal g ppdeff
    rw [← ForceFeedbackEffectCreateObject_isSome]
    unfold CreateEffect
    simp only [hsupported, Bool.true_eq_false, if_false]
    cases ForceFeedbackEffectCreateObject g <;> simp
  · intro setParametersInternal g lpeff ppdeff hcannot
    rw [← ForceFeedbackEffectCreateObject_isSome] at hcannot
    unfold CreateEffect
    simp only [hsupported, Bool.true_eq_false, if_false]
    cases hcreate : ForceFeedbackEffectCreateObject g with
    | none => rfl
    | some effect => simp [hcreate] at hcannot
  · intro lpCallback dwEffType info hinfo
    unfold EnumEffects at hinfo
    simp only [hsupported, Bool.true_eq_false, if_false] at hinfo
    exact EnumEffectBlocks_presented _ _ _ info hinfo
  · intro lpCallback hcontinue
    have h := EnumEffectBlocks_continue v.charMode lpCallback hcontinue
      [(true, [.ConstantForce]), (true, [.RampForce]),
        (true, [.Square, .Sine, .Triangle, .SawtoothUp, .SawtoothDown]),
        (true, [.CustomForce])]
    have heq : EnumEffects v (some lpCallback) DIEFT_ALL
        = ((EnumEffectBlocks v.charMode lpCallback
            [(true, [.ConstantForce]), (true, [.RampForce]),
              (true, [.Square, .Sine, .Triangle, .SawtoothUp, .SawtoothDown]),
              (true, [.CustomForce])]).2,
           (EnumEffectBlocks v.charMode lpCallback
            [(true, [.ConstantForce]), (true, [.RampForce]),
              (true, [.Square, .Sine, .Triangle, .SawtoothUp, .SawtoothDown]),
              (true, [.CustomForce])]).1) := by
      unfold EnumEffects
      simp [hsupported]
    rw [heq]
    refine ⟨h.1, ?_⟩
    intro g
    simp only
    rw [h.2, ForceFeedbackEffectCanCreateObject_iff]
    have hlist : (List.filter Prod.fst
        [(true, [GUID.ConstantForce]), (true, [GUID.RampForce]),
          (true, [GUID.Square, GUID.Sine, GUID.Triangle, GUID.SawtoothUp, GUID.SawtoothDown]),
          (true, [GUID.CustomForce])]).flatMap
          (fun block => block.2.filter ForceFeedbackEffectCanCreateObject)
        = kForceFeedbackEffectObjectCreators.map Prod.fst := by decide
    rw [hlist]
  · intro effectInfo g hsize
    rw [← ForceFeedbackEffectType_isSome]
    unfold GetEffectInfo
    simp only [hsupported, Bool.true_eq_false, if_false, hsize, ne_eq, not_true_eq_false]
    cases ForceFeedbackEffectType g <;> simp

/-- C25 (failing input): on the virtual device with force feedback support,
`GetEffectInfo` with a correctly sized structure succeeds for
`GUID_CustomForce` and describes a custom force effect, although the registry
of creators has no entry for this GUID: `CreateEffect` fails for it with
`DIERR_DEVICENOTREG` and `EnumEffects` with `DIEFT_ALL` does not present it. -/
theorem EffectObjectCreator_authority_witness :
    Example.ForceFeedbackCapable.controller.forceFeedbackIsSupported = true ∧
    ForceFeedbackEffectCanCreateObject .CustomForce = false ∧
    GetEffectInfo Example.ForceFeedbackCapable (some ⟨SizeofEffectInfo .W, .Unknown, 0, 0, 0⟩)
        .CustomForce
      = (.DI_OK, some ⟨SizeofEffectInfo .W, .CustomForce,
          DIEFT_CUSTOMFORCE ||| DIEFT_FFATTACK ||| DIEFT_FFFADE, kEffectSupportedParameters,
          kEffectSupportedParameters⟩) ∧
    (CreateEffect Example.ForceFeedbackCapable Example.AcceptParameters .CustomForce none
      none).1 = .DIERR_DEVICENOTREG ∧
    (EnumEffects Example.ForceFeedbackCapable (some Example.ContinueEnumeration)
        DIEFT_ALL).2.map DIEFFECTINFO.guid
      = [.ConstantForce, .RampForce, .Square, .Sine, .Triangle, .SawtoothUp, .SawtoothDown] := by
  have h := EffectObjectCreator_authority Example.ForceFeedbackCapable rfl
  refine ⟨rfl, h.2.2.2.2.2, by decide, ?_, by decide⟩
  rw [h.2.1 _ _ _ _ h.2.2.2.2.2]

end VirtualDirectInputDevice

/-! ## Theorems on the identification of objects -/

namespace VirtualDirectInputDevice

open Controller

theorem HasAxis_iff (capabilities : SCapabilities) (axis : EAxis) :
    capabilities.HasAxis axis = true ↔ axis ∈ capabilities.PresentAxes := by
  unfold SCapabilities.HasAxis SCapabilities.FindAxis
  by_cases h : axis ∈ capabilities.PresentAxes
  · simp [h]
  · simp [h]

theorem PresentAxes_length (capabilities : SCapabilities) :
    capabilities.PresentAxes.length ≤ capabilities.numAxes := by
  simp [SCapabilities.PresentAxes, List.length_take]

theorem PresentAxes_get (capabilities : SCapabilities) (i : Nat)
    (h : i < capabilities.PresentAxes.length) :
    (capabilities.axisCapabilities.get? i).elim EAxis.X SAxisCapabilities.type
      = capabilities.PresentAxes.get ⟨i, h⟩ := by
  have hlen : i < (capabilities.axisCapabilities.take capabilities.numAxes).length := by
    simpa [SCapabilities.PresentAxes] using h
  have hi : i < capabilities.numAxes ∧ i < capabilities.axisCapabilities.length := by
    simpa [List.length_take] using hlen
  simp [SCapabilities.PresentAxes, List.get?_eq_getElem?, List.getElem?_eq_getElem hi.2,
    List.getElem_take]

theorem IdentifyElement_byId (v : VirtualDirectInputDevice)
    (f : SHidUsageData → Option SElementIdentifier) (dwObj : Nat) :
    IdentifyElement v f dwObj DIPH_BYID
      = if DIDFT_GETTYPE dwObj = DIDFT_ABSAXIS then
          if DIDFT_GETINSTANCE dwObj < EAxis.all.length ∧
              DIDFT_GETINSTANCE dwObj < v.controller.GetCapabilities.numAxes then
            some (.Axis
              ((v.controller.GetCapabilities.axisCapabilities.get?
                (DIDFT_GETINSTANCE dwObj)).elim EAxis.X SAxisCapabilities.type))
          else none
        else if DIDFT_GETTYPE dwObj = DIDFT_PSHBUTTON then
          if h : DIDFT_GETINSTANCE dwObj < kButtonCount ∧
              DIDFT_GETINSTANCE dwObj < v.controller.GetCapabilities.numButtons then
            some (.Button ⟨DIDFT_GETINSTANCE dwObj, h.1⟩)
          else none
        else if DIDFT_GETTYPE dwObj = DIDFT_POV then
          if DIDFT_GETINSTANCE dwObj = 0 then some .Pov else none
        else none :=
  rfl

theorem IdentifyElement_byUsage (v : VirtualDirectInputDevice)
    (f : SHidUsageData → Option SElementIdentifier) (dwObj : Nat) :
    IdentifyElement v f dwObj DIPH_BYUSAGE
      = match f { usagePage := (dwObj >>> 16) &&& 0x0000ffff,
                  usage := (dwObj >>> 0) &&& 0x0000ffff } with
        | some controllerElement =>
          if v.controller.GetCapabilities.HasElement controllerElement then
            some controllerElement
          else none
        | none => none :=
  rfl

/-- C24 (what the code does): identification by HID usage returns an element
only if the capabilities of the controller contain it, and identification by
instance identifier returns an axis or a button only if the capabilities
contain it, for capabilities that list at least `numAxes` axes; but
identification by instance identifier returns the POV for the identifier of
the POV whether or not the controller has a POV. `GetObjectInfo`,
`GetProperty` and `SetProperty`, once their other arguments are accepted,
return `DIERR_OBJECTNOTFOUND` exactly when the identification fails, so that
`GetObjectInfo` succeeds for the identifier of the POV on every controller. -/
theorem IdentifyElement_capabilities (v : VirtualDirectInputDevice)
    (f : SHidUsageData → Option SElementIdentifier)
    (hlisted : v.controller.GetCapabilities.numAxes
      ≤ v.controller.GetCapabilities.axisCapabilities.length) :
    (∀ dwObj element, IdentifyElement v f dwObj DIPH_BYUSAGE = some element →
      v.controller.GetCapabilities.HasElement element = true) ∧
    (∀ dwObj axis, IdentifyElement v f dwObj DIPH_BYID = some (.Axis axis) →
      v.controller.GetCapabilities.HasElement (.Axis axis) = true) ∧
    (∀ dwObj button, IdentifyElement v f dwObj DIPH_BYID = some (.Button button) →
      v.controller.GetCapabilities.HasElement (.Button button) = true) ∧
    IdentifyElement v f (DIDFT_POV ||| DIDFT_MAKEINSTANCE 0) DIPH_BYID = some .Pov ∧
    (∀ (objectInfo : DIDEVICEOBJECTINSTANCE) dwObj dwHow,
      (objectInfo.dwSize = SizeofDeviceObjectInstance v.charMode ∨
        objectInfo.dwSize = SizeofDeviceObjectInstanceCompat v.charMode) →
      ((GetObjectInfo v f (some objectInfo) dwObj dwHow).1 = .DIERR_OBJECTNOTFOUND ↔
        IdentifyElement v f dwObj dwHow = none)) ∧
    (∀ (objectInfo : DIDEVICEOBJECTINSTANCE),
      (objectInfo.dwSize = SizeofDeviceObjectInstance v.charMode ∨
        objectInfo.dwSize = SizeofDeviceObjectInstanceCompat v.charMode) →
      (GetObjectInfo v f (some objectInfo) (DIDFT_POV ||| DIDFT_MAKEINSTANCE 0) DIPH_BYID).1
        = .DI_OK) ∧
    (∀ (α : Type) (unchanged : α) (propertySwitch : SElementIdentifier → HRESULT × α)
      (rguidProp : EProperty) (header : DIPROPHEADER),
      IsPropertyHeaderValid rguidProp (some header) = true →
      IdentifyElement v f header.dwObj header.dwHow = none →
      GetProperty v f unchanged propertySwitch rguidProp (some header)
        = (.DIERR_OBJECTNOTFOUND, unchanged) ∧
      SetProperty v f unchanged propertySwitch rguidProp (some header)
        = (.DIERR_OBJECTNOTFOUND, unchanged)) := by
  have hpov : IdentifyElement v f (DIDFT_POV ||| DIDFT_MAKEINSTANCE 0) DIPH_BYID = some .Pov :=
    rfl
  refine ⟨?_, ?_, ?_, hpov, ?_, ?_, ?_⟩
  · intro dwObj element h
    rw [IdentifyElement_byUsage] at h
    split at h
    · rename_i controllerElement _
      split at h
      · rename_i hhas
        cases h
        exact hhas
      · cases h
    · cases h
  · intro dwObj axis h
    rw [IdentifyElement_byId] at h
    split at h
    · split at h
      · rename_i hindex
        simp only [Option.some.injEq, SElementIdentifier.Axis.injEq] at h
        have hlt : DIDFT_GETINSTANCE dwObj
            < v.controller.GetCapabilities.PresentAxes.length := by
          simp only [SCapabilities.PresentAxes, List.length_map, List.length_take]
          exact lt_min hindex.2 (lt_of_lt_of_le hindex.2 hlisted)
        rw [PresentAxes_get _ _ hlt] at h
        show v.controller.GetCapabilities.HasAxis axis = true
        rw [HasAxis_iff, ← h]
        exact List.get_mem _ _ _
      · cases h
    · split at h
      · split at h <;> cases h
      · split at h
        · split at h <;> cases h
        · cases h
  · intro dwObj button h
    rw [IdentifyElement_byId] at h
    split at h
    · split at h <;> cases h
    · split at h
      · split at h
        · rename_i hindex
          simp only [Option.some.injEq, SElementIdentifier.Button.injEq] at h
          show v.controller.GetCapabilities.HasButton button = true
          rw [← h]
          simpa [SCapabilities.HasButton] using hindex.2
        · cases h
      · split at h
        · split at h <;> cases h
        · cases h
  · intro objectInfo dwObj dwHow hsize
    unfold GetObjectInfo
    have hnot : ¬ (objectInfo.dwSize ≠ SizeofDeviceObjectInstance v.charMode ∧
        objectInfo.dwSize ≠ SizeofDeviceObjectInstanceCompat v.charMode) := by
      rintro ⟨h1, h2⟩
      rcases hsize with h | h
      · exact h1 h
      · exact h2 h
    simp only [hnot, if_false]
    cases IdentifyElement v f dwObj dwHow with
    | none => simp
    | some element =>
      simp only
      split <;> simp
  · intro objectInfo hsize
    unfold GetObjectInfo
    have hnot : ¬ (objectInfo.dwSize ≠ SizeofDeviceObjectInstance v.charMode ∧
        objectInfo.dwSize ≠ SizeofDeviceObjectInstanceCompat v.charMode) := by
      rintro ⟨h1, h2⟩
      rcases hsize with h | h
      · exact h1 h
      · exact h2 h
    simp [hnot, hpov]
  · intro α unchanged propertySwitch rguidProp header hvalid hnone
    constructor
    · simp [GetProperty, hvalid, hnone]
    · simp [SetProperty, hvalid, hnone]

/-- C24 (failing input): the controller of the virtual device has the axes X
and Y, four buttons and no POV. `GetObjectInfo` for the instance identifier of
the POV returns `DI_OK` and describes a POV, while identification of the POV
by its HID usage fails with `DIERR_OBJECTNOTFOUND`. -/
theorem IdentifyElement_capabilities_witness :
    Example.NoForceFeedback.controller.GetCapabilities.HasElement .Pov = false ∧
    IdentifyElement Example.NoForceFeedback Example.ElementFromHidUsage
      (DIDFT_POV ||| DIDFT_MAKEINSTANCE 0) DIPH_BYID = some .Pov ∧
    GetObjectInfo Example.NoForceFeedback Example.ElementFromHidUsage
        (some ⟨SizeofDeviceObjectInstance .W, .Unknown, 0, 0, 0, 0, 0⟩)
        (DIDFT_POV ||| DIDFT_MAKEINSTANCE 0) DIPH_BYID
      = (.DI_OK, some ⟨SizeofDeviceObjectInstance .W, .POV, DataFormat.kInvalidOffsetValue,
          DIDFT_POV, 0, 0, 0⟩) ∧
    (GetObjectInfo Example.NoForceFeedback Example.ElementFromHidUsage
        (some ⟨SizeofDeviceObjectInstance .W, .Unknown, 0, 0, 0, 0, 0⟩)
        0x00010039 DIPH_BYUSAGE).1 = .DIERR_OBJECTNOTFOUND :=
  ⟨rfl,
    (IdentifyElement_capabilities Example.NoForceFeedback Example.ElementFromHidUsage
      (by decide)).2.2.2.1,
    by decide, by decide⟩

end VirtualDirectInputDevice

/-! ## Theorems on object identifiers -/

namespace VirtualDirectInputDevice

open Controller

theorem ObjectId_axis_bits : ∀ i : Fin 8,
    DIDFT_GETTYPE (DIDFT_ABSAXIS ||| DIDFT_MAKEINSTANCE (i.val : Int)) = DIDFT_ABSAXIS ∧
    DIDFT_GETINSTANCE (DIDFT_ABSAXIS ||| DIDFT_MAKEINSTANCE (i.val : Int)) = i.val ∧
    DIDFT_GETTYPE (DIDFT_ABSAXIS ||| DIDFT_MAKEINSTANCE (i.val : Int) ||| DIDFT_FFACTUATOR)
      = DIDFT_ABSAXIS ∧
    DIDFT_GETINSTANCE (DIDFT_ABSAXIS ||| DIDFT_MAKEINSTANCE (i.val : Int) ||| DIDFT_FFACTUATOR)
      = i.val ∧
    DIDFT_ABSAXIS ||| DIDFT_MAKEINSTANCE (i.val : Int) ≠ 0 := by
  decide

theorem ObjectId_button_bits : ∀ i : Fin kButtonCount,
    DIDFT_GETTYPE (DIDFT_PSHBUTTON ||| DIDFT_MAKEINSTANCE (i.val : Int)) = DIDFT_PSHBUTTON ∧
    DIDFT_GETINSTANCE (DIDFT_PSHBUTTON ||| DIDFT_MAKEINSTANCE (i.val : Int)) = i.val ∧
    DIDFT_GETTYPE (DIDFT_PSHBUTTON ||| DIDFT_MAKEINSTANCE (i.val : Int) ||| DIDFT_FFACTUATOR)
      = DIDFT_PSHBUTTON ∧
    DIDFT_GETINSTANCE
        (DIDFT_PSHBUTTON ||| DIDFT_MAKEINSTANCE (i.val : Int) ||| DIDFT_FFACTUATOR)
      = i.val ∧
    DIDFT_PSHBUTTON ||| DIDFT_MAKEINSTANCE (i.val : Int) ≠ 0 := by
  decide

theorem IdentifyElement_objectId (v : VirtualDirectInputDevice)
    (f : SHidUsageData → Option SElementIdentifier)
    (hcount : v.controller.GetCapabilities.numAxes ≤ EAxis.all.length)
    (element : SElementIdentifier) (hnot : element ≠ .WholeController)
    (hhas : v.controller.GetCapabilities.HasElement element = true) :
    GetObjectId v.controller.GetCapabilities element ≠ 0 ∧
    IdentifyElement v f (GetObjectId v.controller.GetCapabilities element) DIPH_BYID
      = some element ∧
    IdentifyElement v f (GetObjectId v.controller.GetCapabilities element ||| DIDFT_FFACTUATOR)
      DIPH_BYID = some element := by
  cases element with
  | WholeController => exact absurd rfl hnot
  | Pov =>
    have hid : GetObjectId v.controller.GetCapabilities .Pov
        = DIDFT_POV ||| DIDFT_MAKEINSTANCE 0 := rfl
    rw [hid]
    exact ⟨by decide, rfl, rfl⟩
  | Button button =>
    have hbits := ObjectId_button_bits button
    have hlt : button.val < v.controller.GetCapabilities.numButtons := by
      simpa [SCapabilities.HasElement, SCapabilities.HasButton] using hhas
    have hid : GetObjectId v.controller.GetCapabilities (.Button button)
        = DIDFT_PSHBUTTON ||| DIDFT_MAKEINSTANCE (button.val : Int) := rfl
    rw [hid]
    refine ⟨hbits.2.2.2.2, ?_, ?_⟩
    · rw [IdentifyElement_byId]
      simp only [hbits.1, hbits.2.1, show DIDFT_PSHBUTTON ≠ DIDFT_ABSAXIS from by decide,
        if_false, if_true, button.isLt, hlt, and_self, dite_true]
    · rw [IdentifyElement_byId]
      simp only [hbits.2.2.1, hbits.2.2.2.1, show DIDFT_PSHBUTTON ≠ DIDFT_ABSAXIS from by decide,
        if_false, if_true, button.isLt, hlt, and_self, dite_true]
  | Axis axis =>
    have hmem : axis ∈ v.controller.GetCapabilities.PresentAxes :=
      (HasAxis_iff _ _).mp hhas
    have hindex : v.controller.GetCapabilities.PresentAxes.indexOf axis
        < v.controller.GetCapabilities.PresentAxes.length := List.indexOf_lt_length.mpr hmem
    have hnum : v.controller.GetCapabilities.PresentAxes.indexOf axis
        < v.controller.GetCapabilities.numAxes :=
      lt_of_lt_of_le hindex (PresentAxes_length _)
    have hall : v.controller.GetCapabilities.PresentAxes.indexOf axis < EAxis.all.length :=
      lt_of_lt_of_le hnum hcount
    have hbits := ObjectId_axis_bits
      ⟨v.controller.GetCapabilities.PresentAxes.indexOf axis, hall⟩
    simp only at hbits
    have hid : GetObjectId v.controller.GetCapabilities (.Axis axis)
        = DIDFT_ABSAXIS |||
          DIDFT_MAKEINSTANCE ((v.controller.GetCapabilities.PresentAxes.indexOf axis : Nat) : Int) := by
      simp [GetObjectId, SCapabilities.FindAxis, hmem]
    have hget := PresentAxes_get v.controller.GetCapabilities _ hindex
    rw [List.indexOf_get] at hget
    rw [hid]
    refine ⟨hbits.2.2.2.2, ?_, ?_⟩
    · rw [IdentifyElement_byId]
      simp only [hbits.1, hbits.2.1, if_true, hall, hnum, and_self, hget]
    · rw [IdentifyElement_byId]
      simp only [hbits.2.2.1, hbits.2.2.2.1, if_true, hall, hnum, and_self, hget]

/-- C29: object identifiers round-trip. On a controller with at most
`EAxis::Count` axes, for every axis, button or POV element that the
capabilities contain, `GetObjectId` is not 0, so that `IdentifyObjectById`
returns it, and `IdentifyElement` applied to the identifier with `DIPH_BYID`
returns the element, also after `DIDFT_FFACTUATOR` has been or-ed into the
identifier; two different such elements never have the same identifier. -/
theorem GetObjectId_roundtrip (v : VirtualDirectInputDevice)
    (f : SHidUsageData → Option SElementIdentifier)
    (hcount : v.controller.GetCapabilities.numAxes ≤ EAxis.all.length) :
    (∀ element, element ≠ .WholeController →
      v.controller.GetCapabilities.HasElement element = true →
      GetObjectId v.controller.GetCapabilities element ≠ 0 ∧
      IdentifyObjectById v element = some (GetObjectId v.controller.GetCapabilities element) ∧
      IdentifyElement v f (GetObjectId v.controller.GetCapabilities element) DIPH_BYID
        = some element ∧
      IdentifyElement v f
        (GetObjectId v.controller.GetCapabilities element ||| DIDFT_FFACTUATOR) DIPH_BYID
        = some element) ∧
    (∀ element1 element2, element1 ≠ .WholeController → element2 ≠ .WholeController →
      v.controller.GetCapabilities.HasElement element1 = true →
      v.controller.GetCapabilities.HasElement element2 = true →
      GetObjectId v.controller.GetCapabilities element1
        = GetObjectId v.controller.GetCapabilities element2 →
      element1 = element2) := by
  constructor
  · intro element hnot hhas
    obtain ⟨hne, hid, hff⟩ := IdentifyElement_objectId v f hcount element hnot hhas
    refine ⟨hne, ?_, hid, hff⟩
    unfold IdentifyObjectById
    simp [Ne.symm hne]
  · intro element1 element2 hnot1 hnot2 hhas1 hhas2 heq
    have h1 := (IdentifyElement_objectId v f hcount element1 hnot1 hhas1).2.1
    have h2 := (IdentifyElement_objectId v f hcount element2 hnot2 hhas2).2.1
    rw [heq, h2] at h1
    exact (Option.some.inj h1).symm

/-- C29 (witness): on the controller with the axes X and Y and four buttons,
the axis Y has the identifier of the absolute axis with instance 1, and
`IdentifyElement` returns the axis Y for it, with or without the force
feedback actuator flag. -/
theorem GetObjectId_roundtrip_witness :
    GetObjectId Example.NoForceFeedback.controller.GetCapabilities (.Axis .Y) = 0x00000102 ∧
    IdentifyElement Example.NoForceFeedback Example.ElementFromHidUsage 0x00000102 DIPH_BYID
      = some (.Axis .Y) ∧
    IdentifyElement Example.NoForceFeedback Example.ElementFromHidUsage
      (0x00000102 ||| DIDFT_FFACTUATOR) DIPH_BYID = some (.Axis .Y) :=
  have h := (GetObjectId_roundtrip Example.NoForceFeedback Example.ElementFromHidUsage
    (by decide)).1 (.Axis .Y) (by decide) (by decide)
  ⟨by decide, h.2.2.1, h.2.2.2⟩

end VirtualDirectInputDevice

/-! ## Theorems on buffered data and on the data format -/

namespace VirtualDirectInputDevice

open Controller

theorem WriteObjectData_completed (dataFormat : DataFormat)
    (directInputValue : SDirectInputValue) (events : List SEvent)
    (hevents : ∀ event ∈ events, event.data.element ≠ .WholeController ∧
      dataFormat.HasElement event.data.element = true) :
    (WriteObjectData dataFormat directInputValue events).2 = .Completed ∧
    (WriteObjectData dataFormat directInputValue events).1.length = events.length ∧
    (WriteObjectData dataFormat directInputValue events).1.map
        (fun item => (some item.dwOfs, item.dwSequence, item.dwTimeStamp, item.uAppData))
      = events.map (fun event => (dataFormat.GetOffsetForElement event.data.element,
          event.sequence, event.timestamp, 0)) := by
  induction events with
  | nil => exact ⟨rfl, rfl, rfl⟩
  | cons event rest ih =>
    have hrest := ih (fun e he => hevents e (List.mem_cons_of_mem _ he))
    obtain ⟨hnot, hhas⟩ := hevents event (List.mem_cons_self _ _)
    unfold WriteObjectData
    cases hoffset : dataFormat.GetOffsetForElement event.data.element with
    | none => simp [DataFormat.HasElement, hoffset] at hhas
    | some dwOfs =>
      simp only
      cases helement : event.data.element with
      | WholeController => exact absurd helement hnot
      | Axis axis =>
        simp only [List.length_cons, List.map_cons, hrest.1, hrest.2.1, hrest.2.2]
        exact ⟨trivial, trivial, by rw [hoffset]⟩
      | Button button =>
        simp only [List.length_cons, List.map_cons, hrest.1, hrest.2.1, hrest.2.2]
        exact ⟨trivial, trivial, by rw [hoffset]⟩
      | Pov =>
        simp only [List.length_cons, List.map_cons, hrest.1, hrest.2.1, hrest.2.2]
        exact ⟨trivial, trivial, by rw [hoffset]⟩

end VirtualDirectInputDevice

namespace VirtualDirectInputDevice

open Controller

theorem EventFilterRemoveMissing_filter (newDataFormat : DataFormat)
    (elements : List SElementIdentifier) :
    ∀ (c : VirtualController),
      (∀ element, (EventFilterRemoveMissing newDataFormat elements c).eventFilter element
        = (if element ∈ elements ∧ newDataFormat.HasElement element = false then false
           else c.eventFilter element)) ∧
      (EventFilterRemoveMissing newDataFormat elements c).eventBuffer = c.eventBuffer ∧
      (EventFilterRemoveMissing newDataFormat elements c).capabilities = c.capabilities ∧
      (EventFilterRemoveMissing newDataFormat elements c).forceFeedbackIsSupported
        = c.forceFeedbackIsSupported ∧
      (EventFilterRemoveMissing newDataFormat elements c).forceFeedbackOwner
        = c.forceFeedbackOwner ∧
      (EventFilterRemoveMissing newDataFormat elements c).forceFeedbackDevice
        = c.forceFeedbackDevice := by
  induction elements with
  | nil => intro c; simp [EventFilterRemoveMissing]
  | cons first rest ih =>
    intro c
    unfold EventFilterRemoveMissing
    cases hhas : newDataFormat.HasElement first with
    | false =>
      obtain ⟨hfilter, hbuffer, hcapabilities, hsupported, howner, hdevice⟩ :=
        ih (c.EventFilterRemoveElement first)
      simp only [if_true]
      refine ⟨?_, hbuffer, hcapabilities, hsupported, howner, hdevice⟩
      intro element
      rw [hfilter element]
      by_cases hrest : element ∈ rest ∧ newDataFormat.HasElement element = false
      · have : element ∈ first :: rest ∧ newDataFormat.HasElement element = false :=
          ⟨List.mem_cons_of_mem _ hrest.1, hrest.2⟩
        rw [if_pos hrest, if_pos this]
      · by_cases hfirst : element = first
        · rw [if_neg hrest, if_pos ⟨by rw [hfirst]; exact List.mem_cons_self _ _,
            by rw [hfirst]; exact hhas⟩]
          simp [VirtualController.EventFilterRemoveElement, hfirst]
        · have : ¬ (element ∈ first :: rest ∧ newDataFormat.HasElement element = false) := by
            rintro ⟨hmem, hno⟩
            rcases List.mem_cons.mp hmem with h | h
            · exact hfirst h
            · exact hrest ⟨h, hno⟩
          rw [if_neg hrest, if_neg this]
          simp [VirtualController.EventFilterRemoveElement, hfirst]
    | true =>
      obtain ⟨hfilter, hothers⟩ := ih c
      simp only [Bool.true_eq_false, if_false]
      refine ⟨?_, hothers⟩
      intro element
      rw [hfilter element]
      by_cases hrest : element ∈ rest ∧ newDataFormat.HasElement element = false
      · have : element ∈ first :: rest ∧ newDataFormat.HasElement element = false :=
          ⟨List.mem_cons_of_mem _ hrest.1, hrest.2⟩
        rw [if_pos hrest, if_pos this]
      · have : ¬ (element ∈ first :: rest ∧ newDataFormat.HasElement element = false) := by
          rintro ⟨hmem, hno⟩
          rcases List.mem_cons.mp hmem with h | h
          · rw [h, hhas] at hno
            cases hno
          · exact hrest ⟨h, hno⟩
        rw [if_neg hrest, if_neg this]

/-- C26: `SetDataFormat` is atomic on failure. When the format pointer is null
or no data format can be created from the specification of the application
for the capabilities of the controller, it returns `DIERR_INVALIDPARAM` and
leaves the virtual device, with its data format and the event filter of its
controller, unchanged. When a data format is created it returns `DI_OK`, the
data format is the new one, the event filter admits exactly the axes, buttons
and POV that the new data format contains, and nothing else of the device
changes. -/
theorem SetDataFormat_atomic (v : VirtualDirectInputDevice)
    (CreateFromApplicationFormatSpec : DIDATAFORMAT → SCapabilities → Option DataFormat) :
    SetDataFormat v CreateFromApplicationFormatSpec none = (.DIERR_INVALIDPARAM, v) ∧
    (∀ applicationFormatSpec,
      CreateFromApplicationFormatSpec applicationFormatSpec v.controller.GetCapabilities = none →
      SetDataFormat v CreateFromApplicationFormatSpec (some applicationFormatSpec)
        = (.DIERR_INVALIDPARAM, v)) ∧
    (∀ applicationFormatSpec newDataFormat,
      CreateFromApplicationFormatSpec applicationFormatSpec v.controller.GetCapabilities
        = some newDataFormat →
      (SetDataFormat v CreateFromApplicationFormatSpec (some applicationFormatSpec)).1 = .DI_OK ∧
      (SetDataFormat v CreateFromApplicationFormatSpec (some applicationFormatSpec)).2.dataFormat
        = some newDataFormat ∧
      (∀ element, element ≠ .WholeController →
        (SetDataFormat v CreateFromApplicationFormatSpec
            (some applicationFormatSpec)).2.controller.eventFilter element
          = newDataFormat.HasElement element) ∧
      (SetDataFormat v CreateFromApplicationFormatSpec
          (some applicationFormatSpec)).2.controller.eventBuffer = v.controller.eventBuffer ∧
      (SetDataFormat v CreateFromApplicationFormatSpec
          (some applicationFormatSpec)).2.controller.capabilities = v.controller.capabilities ∧
      (SetDataFormat v CreateFromApplicationFormatSpec
          (some applicationFormatSpec)).2.controller.forceFeedbackOwner
        = v.controller.forceFeedbackOwner ∧
      (SetDataFormat v CreateFromApplicationFormatSpec
          (some applicationFormatSpec)).2.controller.forceFeedbackDevice
        = v.controller.forceFeedbackDevice ∧
      (SetDataFormat v CreateFromApplicationFormatSpec
          (some applicationFormatSpec)).2.cooperativeLevel = v.cooperativeLevel ∧
      (SetDataFormat v CreateFromApplicationFormatSpec
          (some applicationFormatSpec)).2.effectRegistry = v.effectRegistry) := by
  refine ⟨rfl, ?_, ?_⟩
  · intro applicationFormatSpec hnone
    simp [SetDataFormat, hnone]
  · intro applicationFormatSpec newDataFormat hcreated
    have hpov := EventFilterRemoveMissing_filter newDataFormat [SElementIdentifier.Pov]
      (EventFilterRemoveMissing newDataFormat
        ((List.finRange kButtonCount).map SElementIdentifier.Button)
        (EventFilterRemoveMissing newDataFormat (EAxis.all.map SElementIdentifier.Axis)
          v.controller.EventFilterAddAllElements))
    have hbuttons := EventFilterRemoveMissing_filter newDataFormat
      ((List.finRange kButtonCount).map SElementIdentifier.Button)
      (EventFilterRemoveMissing newDataFormat (EAxis.all.map SElementIdentifier.Axis)
        v.controller.EventFilterAddAllElements)
    have haxes := EventFilterRemoveMissing_filter newDataFormat
      (EAxis.all.map SElementIdentifier.Axis) v.controller.EventFilterAddAllElements
    simp only [SetDataFormat, hcreated]
    refine ⟨trivial, trivial, ?_, ?_, ?_, ?_, ?_, trivial, trivial⟩
    · intro element hnot
      rw [hpov.1 element, hbuttons.1 element, haxes.1 element]
      cases element with
      | WholeController => exact absurd rfl hnot
      | Pov => cases h : newDataFormat.HasElement .Pov <;> simp [h, VirtualController.EventFilterAddAllElements]
      | Button button =>
        cases h : newDataFormat.HasElement (.Button button) <;>
          simp [h, VirtualController.EventFilterAddAllElements, List.mem_finRange]
      | Axis axis =>
        have hmem : axis ∈ EAxis.all := by cases axis <;> decide
        cases h : newDataFormat.HasElement (.Axis axis) <;>
          simp [h, VirtualController.EventFilterAddAllElements, hmem]
    · rw [hpov.2.1, hbuttons.2.1, haxes.2.1]; rfl
    · rw [hpov.2.2.1, hbuttons.2.2.1, haxes.2.2.1]; rfl
    · rw [hpov.2.2.2.2.1, hbuttons.2.2.2.2.1, haxes.2.2.2.2.1]; rfl
    · rw [hpov.2.2.2.2.2, hbuttons.2.2.2.2.2, haxes.2.2.2.2.2]; rfl

end VirtualDirectInputDevice

/-! ## Theorems on the retrieval of buffered data -/

namespace VirtualDirectInputDevice

open Controller

theorem WriteObjectData_thrown (dataFormat : DataFormat)
    (directInputValue : SDirectInputValue) (events : List SEvent)
    (hwhole : ∀ event ∈ events, event.data.element ≠ .WholeController)
    (hmissing : ∃ event ∈ events, dataFormat.GetOffsetForElement event.data.element = none) :
    (WriteObjectData dataFormat directInputValue events).2 = .Thrown := by
  induction events with
  | nil =>
    obtain ⟨event, hmem, _⟩ := hmissing
    cases hmem
  | cons first rest ih =>
    unfold WriteObjectData
    cases hoffset : dataFormat.GetOffsetForElement first.data.element with
    | none => rfl
    | some dwOfs =>
      have hrest : (WriteObjectData dataFormat directInputValue rest).2 = .Thrown := by
        apply ih (fun e he => hwhole e (List.mem_cons_of_mem _ he))
        obtain ⟨event, hmem, hnone⟩ := hmissing
        rcases List.mem_cons.1 hmem with h | h
        · rw [h, hoffset] at hnone
          cases hnone
        · exact ⟨event, h, hnone⟩
      have hnot := hwhole first (List.mem_cons_self _ _)
      simp only
      cases helement : first.data.element with
      | WholeController => exact absurd helement hnot
      | Axis axis => exact hrest
      | Button button => exact hrest
      | Pov => exact hrest

theorem SetDataFormat_created (v : VirtualDirectInputDevice)
    (CreateFromApplicationFormatSpec : DIDATAFORMAT → SCapabilities → Option DataFormat)
    (applicationFormatSpec : DIDATAFORMAT) (newDataFormat : DataFormat)
    (hcreated : CreateFromApplicationFormatSpec applicationFormatSpec
      v.controller.GetCapabilities = some newDataFormat) :
    (SetDataFormat v CreateFromApplicationFormatSpec (some applicationFormatSpec)).1 = .DI_OK ∧
    (SetDataFormat v CreateFromApplicationFormatSpec (some applicationFormatSpec)).2.dataFormat
      = some newDataFormat ∧
    (SetDataFormat v CreateFromApplicationFormatSpec
        (some applicationFormatSpec)).2.controller.eventBuffer = v.controller.eventBuffer := by
  have hpov := EventFilterRemoveMissing_filter newDataFormat [SElementIdentifier.Pov]
    (EventFilterRemoveMissing newDataFormat
      ((List.finRange kButtonCount).map SElementIdentifier.Button)
      (EventFilterRemoveMissing newDataFormat (EAxis.all.map SElementIdentifier.Axis)
        v.controller.EventFilterAddAllElements))
  have hbuttons := EventFilterRemoveMissing_filter newDataFormat
    ((List.finRange kButtonCount).map SElementIdentifier.Button)
    (EventFilterRemoveMissing newDataFormat (EAxis.all.map SElementIdentifier.Axis)
      v.controller.EventFilterAddAllElements)
  have haxes := EventFilterRemoveMissing_filter newDataFormat
    (EAxis.all.map SElementIdentifier.Axis) v.controller.EventFilterAddAllElements
  simp only [SetDataFormat, hcreated]
  refine ⟨trivial, trivial, ?_⟩
  rw [hpov.2.1, hbuttons.2.1, haxes.2.1]
  rfl

/-- C23: for a call of `GetDeviceData` with the data format set, the correct
element size and flags 0 or `DIGDD_PEEK`: when the event buffer is disabled
the call fails with `DIERR_NOTBUFFERED` and changes nothing. When it is
enabled and holds `c` events, with `n` events requested, and either no output
array is given or the `min n c` oldest events designate axes, buttons or the
POV that the data format contains, the number reported back is `min n c`; a
given output array receives in its first `min n c` items the oldest events in
order, each with its offset, sequence number and timestamp, and keeps its
other items; with `DIGDD_PEEK` the device is unchanged, and with flags 0 the
`min n c` oldest events are removed from the buffer, also when no output array
is given; the result is `DI_BUFFEROVERFLOW` if the overflow flag is set and
`DI_OK` otherwise. When an output array is given and one of the `min n c`
oldest events designates an element without offset in the data format, the
call throws instead. Such a state is reached by `SetDataFormat`, which keeps
the events in the buffer: after it has set a data format without offset for
the element of the oldest event, a call with an output array that requests an
event throws. -/
theorem GetDeviceData_events (v : VirtualDirectInputDevice)
    (directInputValue : SDirectInputValue) (dataFormat : DataFormat) (cbObjectData : Nat)
    (rgdod : Option (List DIDEVICEOBJECTDATA)) (requested dwFlags : Nat)
    (hformat : v.dataFormat = some dataFormat)
    (hsize : cbObjectData = SizeofDeviceObjectData)
    (hflags : dwFlags = 0 ∨ dwFlags = DIGDD_PEEK)
    (hcount : v.controller.GetEventBufferCount < 4294967296) :
    (v.controller.IsEventBufferEnabled = false →
      GetDeviceData v directInputValue cbObjectData rgdod (some requested) dwFlags
        = some ⟨.DIERR_NOTBUFFERED, rgdod, some requested, v⟩) ∧
    (v.controller.IsEventBufferEnabled = true →
      (rgdod = none ∨
        ∀ event ∈ v.controller.eventBuffer.events.take
            (min requested v.controller.GetEventBufferCount),
          event.data.element ≠ .WholeController ∧
          dataFormat.HasElement event.data.element = true) →
      ∃ out, GetDeviceData v directInputValue cbObjectData rgdod (some requested) dwFlags
          = some out ∧
        out.pdwInOut = some (min requested v.controller.GetEventBufferCount) ∧
        out.result
          = (if v.controller.IsEventBufferOverflowed = true then DI_BUFFEROVERFLOW
             else .DI_OK) ∧
        (rgdod = none → out.rgdod = none) ∧
        (∀ items, rgdod = some items →
          ∃ written, out.rgdod
              = some (written ++ items.drop (min requested v.controller.GetEventBufferCount)) ∧
            written.length = min requested v.controller.GetEventBufferCount ∧
            written.map
                (fun item => (some item.dwOfs, item.dwSequence, item.dwTimeStamp, item.uAppData))
              = (v.controller.eventBuffer.events.take
                  (min requested v.controller.GetEventBufferCount)).map
                (fun event => (dataFormat.GetOffsetForElement event.data.element,
                  event.sequence, event.timestamp, 0))) ∧
        (dwFlags = DIGDD_PEEK → out.device = v) ∧
        (dwFlags = 0 →
          out.device.controller.eventBuffer.events
            = v.controller.eventBuffer.events.drop
                (min requested v.controller.GetEventBufferCount) ∧
          out.device.controller.eventBuffer.capacity = v.controller.eventBuffer.capacity ∧
          out.device.controller.eventBuffer.overflowed = v.controller.eventBuffer.overflowed ∧
          out.device.dataFormat = v.dataFormat)) ∧
    (v.controller.IsEventBufferEnabled = true →
      ∀ items, rgdod = some items →
      (∀ event ∈ v.controller.eventBuffer.events.take
          (min requested v.controller.GetEventBufferCount),
        event.data.element ≠ .WholeController) →
      (∃ event ∈ v.controller.eventBuffer.events.take
          (min requested v.controller.GetEventBufferCount),
        dataFormat.HasElement event.data.element = false) →
      GetDeviceData v directInputValue cbObjectData rgdod (some requested) dwFlags = none) ∧
    (v.controller.IsEventBufferEnabled = true →
      ∀ (CreateFromApplicationFormatSpec : DIDATAFORMAT → SCapabilities → Option DataFormat)
        (applicationFormatSpec : DIDATAFORMAT) (newDataFormat : DataFormat)
        (oldest : SEvent) (others : List SEvent) (items : List DIDEVICEOBJECTDATA),
      CreateFromApplicationFormatSpec applicationFormatSpec v.controller.GetCapabilities
        = some newDataFormat →
      v.controller.eventBuffer.events = oldest :: others →
      newDataFormat.HasElement oldest.data.element = false →
      0 < requested →
      (SetDataFormat v CreateFromApplicationFormatSpec (some applicationFormatSpec)).1
        = .DI_OK ∧
      (SetDataFormat v CreateFromApplicationFormatSpec
        (some applicationFormatSpec)).2.controller.eventBuffer = v.controller.eventBuffer ∧
      GetDeviceData
          (SetDataFormat v CreateFromApplicationFormatSpec (some applicationFormatSpec)).2
          directInputValue cbObjectData (some items) (some requested) dwFlags = none) := by
  have hsize1 : ¬ (SizeofDeviceObjectData ≠ cbObjectData) := by simp [hsize]
  have hflags1 : ¬ (dwFlags ≠ 0 ∧ dwFlags ≠ DIGDD_PEEK) := by
    rintro ⟨h1, h2⟩
    rcases hflags with h | h
    · exact h1 h
    · exact h2 h
  have hmod : v.controller.GetEventBufferCount % 4294967296
      = v.controller.GetEventBufferCount := Nat.mod_eq_of_lt hcount
  refine ⟨?_, ?_, ?_, ?_⟩
  · intro hdisabled
    unfold GetDeviceData
    simp only [hformat, hsize1, hflags1, hdisabled, if_false, if_true]
  · intro henabled hevents
    have henabled1 : ¬ (v.controller.IsEventBufferEnabled = false) := by simp [henabled]
    have hlen : (v.controller.eventBuffer.events.take
        (min requested v.controller.GetEventBufferCount)).length
        = min requested v.controller.GetEventBufferCount := by
      rw [List.length_take]
      exact min_eq_left (min_le_right _ _)
    have hpeek : dwFlags = DIGDD_PEEK → ¬ (0 = dwFlags &&& DIGDD_PEEK) := by
      intro h; rw [h]; decide
    have hpop : dwFlags = 0 → 0 = dwFlags &&& DIGDD_PEEK := by
      intro h; rw [h]; decide
    unfold GetDeviceData
    simp only [hformat, hsize1, hflags1, henabled1, if_false, hmod]
    cases rgdod with
    | none =>
      refine ⟨_, rfl, rfl, rfl, fun _ => rfl, (fun items h => by cases h), ?_, ?_⟩
      · intro h
        simp [hpeek h]
      · intro h
        simp only [hpop h, decide_True, if_true]
        refine ⟨?_, ?_, ?_, ?_⟩ <;> first | rfl | trivial
    | some items =>
      have htake : ∀ event ∈ v.controller.eventBuffer.events.take
          (min requested v.controller.GetEventBufferCount),
          event.data.element ≠ .WholeController ∧
          dataFormat.HasElement event.data.element = true := by
        rcases hevents with h | h
        · cases h
        · exact h
      have hwrite := WriteObjectData_completed dataFormat directInputValue _ htake
      cases hloop : WriteObjectData dataFormat directInputValue
          (v.controller.eventBuffer.events.take
            (min requested v.controller.GetEventBufferCount)) with
      | mk written loopExit =>
        rw [hloop] at hwrite
        simp only at hwrite
        rw [hwrite.1]
        refine ⟨_, rfl, rfl, rfl, (fun h => by cases h), ?_, ?_, ?_⟩
        · intro items1 h
          cases h
          refine ⟨written, ?_, hwrite.2.1.trans hlen, hwrite.2.2⟩
          simp only [hwrite.2.1, hlen]
        · intro h
          simp [hpeek h]
        · intro h
          simp only [hpop h, decide_True, if_true]
          refine ⟨?_, ?_, ?_, ?_⟩ <;> first | rfl | trivial
  · intro henabled items hitems hwhole hmissing
    have henabled1 : ¬ (v.controller.IsEventBufferEnabled = false) := by simp [henabled]
    have hthrown := WriteObjectData_thrown dataFormat directInputValue _ hwhole
      (by
        obtain ⟨event, hmem, hno⟩ := hmissing
        refine ⟨event, hmem, ?_⟩
        simpa [DataFormat.HasElement] using hno)
    subst hitems
    unfold GetDeviceData
    simp only [hformat, hsize1, hflags1, henabled1, if_false, hmod]
    cases hloop : WriteObjectData dataFormat directInputValue
        (v.controller.eventBuffer.events.take
          (min requested v.controller.GetEventBufferCount)) with
    | mk written loopExit =>
      rw [hloop] at hthrown
      simp only at hthrown
      rw [hthrown]
      simp
  · intro henabled CreateFromApplicationFormatSpec applicationFormatSpec newDataFormat oldest
      others items hcreated hevents hmissing hrequested
    obtain ⟨hok, hnew, hbuffer⟩ :=
      SetDataFormat_created v CreateFromApplicationFormatSpec applicationFormatSpec
        newDataFormat hcreated
    refine ⟨hok, hbuffer, ?_⟩
    generalize SetDataFormat v CreateFromApplicationFormatSpec (some applicationFormatSpec)
      = outcome at hnew hbuffer
    have henabled1 : ¬ (outcome.2.controller.IsEventBufferEnabled = false) := by
      simp only [VirtualController.IsEventBufferEnabled, hbuffer]
      simpa [VirtualController.IsEventBufferEnabled] using henabled
    have hnone : newDataFormat.GetOffsetForElement oldest.data.element = none := by
      simpa [DataFormat.HasElement] using hmissing
    have hpos : min requested (outcome.2.controller.GetEventBufferCount % 4294967296)
        = (min requested (outcome.2.controller.GetEventBufferCount % 4294967296) - 1) + 1 := by
      have hc : outcome.2.controller.GetEventBufferCount % 4294967296
          = v.controller.GetEventBufferCount := by
        simp only [VirtualController.GetEventBufferCount, hbuffer]
        exact hmod
      have hv : 0 < v.controller.GetEventBufferCount := by
        simp [VirtualController.GetEventBufferCount, hevents]
      rw [hc]
      omega
    unfold GetDeviceData
    simp only [hnew, hsize1, hflags1, henabled1, if_false]
    rw [hpos, hbuffer, hevents, List.take_succ_cons]
    unfold WriteObjectData
    simp [hnone]

/-- C23 (witness): the event buffer of the virtual device holds three events
and has not overflowed. `GetDeviceData` with two events requested, an output
array of two items and flags 0 reports two events, writes the two oldest
events with their offsets, sequence numbers and timestamps, leaves the third
event in the buffer and returns `DI_OK`. After `SetDataFormat` has set a data
format that contains the button 0 alone, the event buffer still holds the
three events, the oldest of which designates the axis X, and the same call
throws. -/
theorem GetDeviceData_events_witness :
    (∃ out, GetDeviceData Example.NoForceFeedback Example.DirectInputValue
        SizeofDeviceObjectData (some [⟨0, 0, 0, 0, 0⟩, ⟨0, 0, 0, 0, 0⟩]) (some 2) 0 = some out ∧
      out.result = .DI_OK ∧ out.pdwInOut = some 2 ∧
      out.rgdod = some [⟨0, 100, 10, 1, 0⟩, ⟨8, 1, 11, 2, 0⟩] ∧
      out.device.controller.eventBuffer.events = [⟨⟨.Axis .Y, -5⟩, 12, 3⟩]) ∧
    (SetDataFormat Example.NoForceFeedback Example.CreateButtonFormat
      (some Example.FormatSpec)).1 = .DI_OK ∧
    (SetDataFormat Example.NoForceFeedback Example.CreateButtonFormat
      (some Example.FormatSpec)).2.controller.eventBuffer.events
        = [⟨⟨.Axis .X, 100⟩, 10, 1⟩, ⟨⟨.Button 0, 1⟩, 11, 2⟩, ⟨⟨.Axis .Y, -5⟩, 12, 3⟩] ∧
    GetDeviceData
      (SetDataFormat Example.NoForceFeedback Example.CreateButtonFormat
        (some Example.FormatSpec)).2
      Example.DirectInputValue SizeofDeviceObjectData
      (some [⟨0, 0, 0, 0, 0⟩, ⟨0, 0, 0, 0, 0⟩]) (some 2) 0 = none := by
  have h := GetDeviceData_events Example.NoForceFeedback Example.DirectInputValue
    Example.Format SizeofDeviceObjectData (some [⟨0, 0, 0, 0, 0⟩, ⟨0, 0, 0, 0, 0⟩]) 2 0 rfl rfl
    (Or.inl rfl) (by decide)
  obtain ⟨out, hout, hcount, hresult, _, _, _, hpop⟩ := h.2.1 rfl (Or.inr (by decide))
  obtain ⟨hok, hbuffer, hthrows⟩ := h.2.2.2 rfl Example.CreateButtonFormat Example.FormatSpec
    Example.ButtonFormat ⟨⟨.Axis .X, 100⟩, 10, 1⟩
    [⟨⟨.Button 0, 1⟩, 11, 2⟩, ⟨⟨.Axis .Y, -5⟩, 12, 3⟩]
    [⟨0, 0, 0, 0, 0⟩, ⟨0, 0, 0, 0, 0⟩] rfl rfl (by decide) (by decide)
  refine ⟨⟨out, hout, hresult, hcount, ?_, (hpop rfl).1⟩, hok, by rw [hbuffer]; rfl, hthrows⟩
  have hvalue : GetDeviceData Example.NoForceFeedback Example.DirectInputValue
      SizeofDeviceObjectData (some [⟨0, 0, 0, 0, 0⟩, ⟨0, 0, 0, 0, 0⟩]) (some 2) 0
      = some ⟨.DI_OK, some [⟨0, 100, 10, 1, 0⟩, ⟨8, 1, 11, 2, 0⟩], some 2,
          { Example.NoForceFeedback with
            controller := Example.NoForceFeedback.controller.PopEventBufferOldestEvents 2 }⟩ :=
    rfl
  rw [hvalue] at hout
  cases hout
  rfl

end VirtualDirectInputDevice

end Xidi
